import Mathlib

set_option maxHeartbeats 1000000

/-!
Verification development for the dicom2nii repository.

Part 1 embeds the DICOM series classification engine of
`src/convert/base.py`, `src/convert/config.py` and `src/convert/dicom_rename_mr.py`:
attribute extractors, per-family rename strategies and the dispatcher
`ConvertManager.rename_dicom_path`.  Part 2 embeds the NIfTI post-conversion
normalizers of `python/src/processing/base.py`,
`python/src/processing/nifti/strategies.py` and
`python/src/processing/nifti/postprocess.py`.

Modelling conventions, used throughout:
  * Python strings are `List Char` (ASCII data; `str.lower` is ASCII lowering).
  * A pydicom dataset is a partial map from tags to tag values (`DVal`);
    `ds.get(tag)` is application of the map, `ds[tag]` raises `KeyError`
    when the tag is absent.  A present data element is always truthy.
  * DICOM decimal strings that hold numbers are modelled as `DVal.num`
    (rationals) or as digit strings; `float(x)` over a non-numeric value
    raises, as in Python.
  * Fallible Python code returns `Except PyErr`; the regular expressions of
    the source, which are fixed literals, are translated pattern by pattern
    into equivalent decidable string predicates (series descriptions and
    file names carry no newline, so `.` matches any character).
  * `np.round` is round-half-to-even, `np.argsort` on the short arrays in
    this code is a stable ascending sort.
-/

/-! ## Strings and case-insensitive matching -/

abbrev Str := List Char

/-- ASCII lowering, the effect of `str.lower()` and of `re.IGNORECASE`
on the ASCII-only patterns of the source. -/
def lowerChar (c : Char) : Char :=
  if 65 ≤ c.toNat ∧ c.toNat ≤ 90 then Char.ofNat (c.toNat + 32) else c

def lowerStr (s : Str) : Str := s.map lowerChar

/-- Pattern `pat` occurs at position `i` of `s` (case-sensitive). -/
def occursAt (s pat : Str) (i : ℕ) : Bool := pat.isPrefixOf (s.drop i)

/-- Pattern `pat` occurs at position `i` of `s`, case-insensitively. -/
def occursAtCI (s pat : Str) (i : ℕ) : Bool :=
  (lowerStr pat).isPrefixOf ((lowerStr s).drop i)

/-- Some position of `s` carries `pat`, case-insensitively: the semantics of
a successful `re.match` against a pattern of the form `.*(pat).*` with
`re.IGNORECASE`, and of `re.search` for a bare literal. -/
def containsCI (s pat : Str) : Bool :=
  (List.range (s.length + 1)).any (fun i => occursAtCI s pat i)

/-- Semantics of `re.match` against an anchored literal pattern `(pat)`
with `re.IGNORECASE`: the string starts with `pat`. -/
def startsWithCI (s pat : Str) : Bool := occursAtCI s pat 0

/-- Character at position `i - 1`, used for the lookbehind assertions. -/
def charBefore (s : Str) (i : ℕ) : Option Char := if i = 0 then none else s.get? (i - 1)

/-- Position `i` of `s` is not preceded by character `c` (case-insensitive):
the semantics of the lookbehind `(?<!c)` under `re.IGNORECASE`. -/
def notPrecededByCI (s : Str) (i : ℕ) (c : Char) : Bool :=
  match charBefore s i with
  | none => true
  | some b => lowerChar b ≠ lowerChar c

/-! ## Python runtime model -/

inductive PyErr
  | attrErr
  | keyErr
  | typeErr
  | indexErr
  | valueErr
  deriving DecidableEq, Repr

/-- Result of running a piece of Python code that may raise. -/
abbrev PyR (α : Type) := Except PyErr α

/-- Value of a DICOM data element: a string, a number, or a multi-value
of strings or numbers. -/
inductive DVal
  | str (s : Str)
  | num (q : ℚ)
  | strs (l : List Str)
  | nums (l : List ℚ)
  deriving DecidableEq, Repr

/-- DICOM tag, a `(group, element)` pair. -/
abbrev Tag := ℕ × ℕ

/-- Read-only view of a parsed DICOM dataset: the `lookup` interface of the
specification.  `d t = none` means the tag is absent. -/
abbrev Dataset := Tag → Option DVal

/-- Python `ds[tag]`: raises `KeyError` on an absent tag. -/
def dsItem (d : Dataset) (t : Tag) : PyR DVal :=
  match d t with
  | some v => .ok v
  | none => .error .keyErr

/-- Python indexing `element[i]` (also negative indices) on a data element
value; delegates to the value, as pydicom does. -/
def dvIndex (v : DVal) (i : ℤ) : PyR DVal :=
  match v with
  | .str s =>
      let n : ℤ := s.length
      let j : ℤ := if i < 0 then n + i else i
      if h : 0 ≤ j ∧ j < n then .ok (.str [s.get ⟨j.toNat, by omega⟩]) else .error .indexErr
  | .strs l =>
      let n : ℤ := l.length
      let j : ℤ := if i < 0 then n + i else i
      if h : 0 ≤ j ∧ j < n then .ok (.str (l.get ⟨j.toNat, by omega⟩)) else .error .indexErr
  | .nums l =>
      let n : ℤ := l.length
      let j : ℤ := if i < 0 then n + i else i
      if h : 0 ≤ j ∧ j < n then .ok (.num (l.get ⟨j.toNat, by omega⟩)) else .error .indexErr
  | .num _ => .error .typeErr

/-- String of decimal digits, used to model numeric DICOM string values. -/
def digitsOnly (s : Str) : Bool := s ≠ [] ∧ s.all (fun c => c.isDigit)

/-- Numeric value of a digit string. -/
def digitsToNat (s : Str) : ℕ := s.foldl (fun a c => 10 * a + (c.toNat - 48)) 0

/-- Python `float(x)` on a tag value: numbers convert, digit strings parse,
anything else raises. -/
def pyFloat (v : DVal) : PyR ℚ :=
  match v with
  | .num q => .ok q
  | .str s => if digitsOnly s then .ok (digitsToNat s : ℚ) else .error .valueErr
  | _ => .error .typeErr

/-- Truncation toward zero, the behaviour of Python `int()` on a float. -/
def ratTrunc (q : ℚ) : ℤ :=
  if 0 ≤ q.num then q.num.ediv (q.den : ℤ) else -((-q.num).ediv (q.den : ℤ))

/-- Python `int(x)` on a tag value. -/
def pyInt (v : DVal) : PyR ℤ :=
  match v with
  | .num q => .ok (ratTrunc q)
  | .str s => if digitsOnly s then .ok (digitsToNat s : ℤ) else .error .valueErr
  | _ => .error .typeErr

/-- Python `str(x)` on a tag value.  String values print as themselves;
integral numbers print their digits (the exact rendering of non-string
values is irrelevant to the source, which only compares the result against
alphabetic literals or takes its length). -/
def pyStr (v : DVal) : Str :=
  match v with
  | .str s => s
  | .num q => if q.den = 1 ∧ 0 ≤ q.num then Nat.toDigits 10 q.num.toNat else ['?']
  | .strs _ => ['[', ']']
  | .nums _ => ['[', ']']

/-- Python `x == lit` between a tag value and a string literal. -/
def dvEqStr (v : DVal) (lit : Str) : Bool :=
  match v with
  | .str s => s = lit
  | _ => false

/-- Python `x == k` between a tag value and a number literal. -/
def dvEqNum (v : DVal) (k : ℚ) : Bool :=
  match v with
  | .num q => q = k
  | _ => false

/-! ## numpy helpers used by the orientation extractor -/

/-- Exact comparison of two rationals through their fields (the rational
arithmetic of the core library does not reduce definitionally). -/
def qle (a b : ℚ) : Bool := a.num * (b.den : ℤ) ≤ b.num * (a.den : ℤ)

/-- Strict exact comparison of two rationals. -/
def qlt (a b : ℚ) : Bool := a.num * (b.den : ℤ) < b.num * (a.den : ℤ)

/-- Round half to even, the rounding of `np.round`: with `f = ⌊q⌋` and
remainder `m / den`, compare `2 m` against `den`. -/
def roundHalfEven (q : ℚ) : ℤ :=
  let d : ℤ := q.den
  let f := q.num.ediv d
  let m := q.num - f * d
  if 2 * m < d then f
  else if d < 2 * m then f + 1
  else if f % 2 = 0 then f else f + 1

/-- Ascending insertion of a `(value, index)` pair, ties broken by index. -/
def insertAsc (p : ℤ × ℕ) : List (ℤ × ℕ) → List (ℤ × ℕ)
  | [] => [p]
  | q :: t => if p.1 < q.1 ∨ (p.1 = q.1 ∧ p.2 ≤ q.2) then p :: q :: t else q :: insertAsc p t

/-- Stable ascending `np.argsort` over a short integer array. -/
def argsortStable (l : List ℤ) : List ℕ :=
  ((l.zip (List.range l.length)).foldr insertAsc []).map (fun p => p.2)

/-- Python list indexing with negative indices, raising `IndexError`
out of range. -/
def listAt (l : List ℕ) (i : ℤ) : PyR ℕ :=
  let n : ℤ := l.length
  let j : ℤ := if i < 0 then n + i else i
  if h : 0 ≤ j ∧ j < n then .ok (l.get ⟨j.toNat, by omega⟩) else .error .indexErr

/-! ## DICOM tags read by the engine -/

def tagImageType : Tag := (0x08, 0x08)
def tagInstanceCreationTime : Tag := (0x08, 0x13)
def tagStudyDate : Tag := (0x08, 0x20)
def tagAccessionNumber : Tag := (0x08, 0x50)
def tagModality : Tag := (0x08, 0x60)
def tagConversionType : Tag := (0x08, 0x64)
def tagSeriesDescription : Tag := (0x08, 0x103E)
def tagPatientID : Tag := (0x10, 0x20)
def tagContrastAgent : Tag := (0x18, 0x10)
def tagMRAcquisitionType : Tag := (0x18, 0x23)
def tagRepetitionTime : Tag := (0x18, 0x80)
def tagEchoTime : Tag := (0x18, 0x81)
def tagInversionTime : Tag := (0x18, 0x82)
def tagPulseSequenceName : Tag := (0x19, 0x109C)
def tagDtiDirections : Tag := (0x19, 0x10E0)
def tagImageOrientation : Tag := (0x20, 0x37)
def tagSwanPhase : Tag := (0x43, 0x102F)
def tagBValues : Tag := (0x43, 0x1039)
def tagFunctionalProcessingName : Tag := (0x51, 0x1002)

/-! ## Attribute enumerations

One constructor per Python enum member, prefixed by its enum class, since
members of different enum classes are distinct Python objects even when
they share a name (for example `MRSeriesRenameEnum.DTI32D` and
`DTISeriesEnum.DTI32D`).  `nullA` is `NullEnum.NULL`.  The members
`ASLSEQSeriesRenameEnum.ASL`, `ASLSEQSeriesRenameEnum.CBF` and
`SeriesEnum.ORIGINAL`, referenced by the ASL and eSWAN strategies but
missing from the enums in `src/convert/config.py`, carry the values given
to them in `python/src/core/enums.py`.
-/

inductive Attr
  | nullA
  | mrsCVR
  | mrsCVR1000
  | mrsCVR2000
  | mrsCVR2000_EAR
  | mrsCVR2000_EYE
  | mrsDSC_RAW
  | mrsDTI32D
  | mrsDTI64D
  | mrsDWI
  | mrsDWI0
  | mrsDWI1000
  | mrsB_VALUES_1000
  | mrsB_VALUES_0
  | mrsADC
  | mrseADC
  | mrseSWAN
  | mrseSWANmag
  | mrseSWANmIP
  | mrsMRA_BRAIN
  | mrsMRA_NECK
  | mrsMRAVR_BRAIN
  | mrsMRAVR_NECK
  | mrsMRV
  | mrsMRV_SAG
  | mrsRESTING
  | mrsRESTING2000
  | mrsSWANPHASE
  | mrsSWANmIP
  | mrsSWAN
  | serFLAIR
  | serCUBE
  | serBRAVO
  | serFSPGR
  | serSWAN
  | sereSWAN
  | sermIP
  | sermAG
  | serORIGINAL
  | serSWANPHASE
  | t1T1
  | t1T1_AXI
  | t1T1_COR
  | t1T1_SAG
  | t1T1CE
  | t1T1CE_AXI
  | t1T1CE_COR
  | t1T1CE_SAG
  | t1T1FLAIR
  | t1T1FLAIR_AXI
  | t1T1FLAIR_COR
  | t1T1FLAIR_SAG
  | t1T1FLAIRCE
  | t1T1FLAIRCE_AXI
  | t1T1FLAIRCE_COR
  | t1T1FLAIRCE_SAG
  | t1T1CUBE
  | t1T1CUBE_AXI
  | t1T1CUBE_COR
  | t1T1CUBE_SAG
  | t1T1CUBECE
  | t1T1CUBECE_AXI
  | t1T1CUBECE_COR
  | t1T1CUBECE_SAG
  | t1T1FLAIRCUBE
  | t1T1FLAIRCUBE_AXI
  | t1T1FLAIRCUBE_COR
  | t1T1FLAIRCUBE_SAG
  | t1T1FLAIRCUBECE
  | t1T1FLAIRCUBECE_AXI
  | t1T1FLAIRCUBECE_COR
  | t1T1FLAIRCUBECE_SAG
  | t1T1BRAVO
  | t1T1BRAVO_AXI
  | t1T1BRAVOCE_AXI
  | t1T1BRAVO_SAG
  | t1T1BRAVOCE_SAG
  | t1T1BRAVO_COR
  | t1T1BRAVOCE_COR
  | t1T1CUBE_AXIr
  | t1T1CUBE_CORr
  | t1T1CUBE_SAGr
  | t1T1CUBECE_AXIr
  | t1T1CUBECE_CORr
  | t1T1CUBECE_SAGr
  | t1T1FLAIRCUBE_AXIr
  | t1T1FLAIRCUBE_CORr
  | t1T1FLAIRCUBE_SAGr
  | t1T1FLAIRCUBECE_AXIr
  | t1T1FLAIRCUBECE_CORr
  | t1T1FLAIRCUBECE_SAGr
  | t1T1BRAVO_AXIr
  | t1T1BRAVOCE_AXIr
  | t1T1BRAVO_SAGr
  | t1T1BRAVOCE_SAGr
  | t1T1BRAVO_CORr
  | t1T1BRAVOCE_CORr
  | t2T2
  | t2T2_AXI
  | t2T2_COR
  | t2T2_SAG
  | t2T2CE
  | t2T2CE_AXI
  | t2T2CE_COR
  | t2T2CE_SAG
  | t2T2FLAIR
  | t2T2FLAIR_AXI
  | t2T2FLAIR_COR
  | t2T2FLAIR_SAG
  | t2T2FLAIRCE
  | t2T2FLAIRCE_AXI
  | t2T2FLAIRCE_COR
  | t2T2FLAIRCE_SAG
  | t2T2CUBE
  | t2T2CUBE_AXI
  | t2T2CUBE_COR
  | t2T2CUBE_SAG
  | t2T2CUBECE
  | t2T2CUBECE_AXI
  | t2T2CUBECE_COR
  | t2T2CUBECE_SAG
  | t2T2FLAIRCUBE
  | t2T2FLAIRCUBE_AXI
  | t2T2FLAIRCUBE_COR
  | t2T2FLAIRCUBE_SAG
  | t2T2FLAIRCUBECE
  | t2T2FLAIRCUBECE_AXI
  | t2T2FLAIRCUBECE_COR
  | t2T2FLAIRCUBECE_SAG
  | t2T2CUBE_AXIr
  | t2T2CUBE_CORr
  | t2T2CUBE_SAGr
  | t2T2CUBECE_AXIr
  | t2T2CUBECE_CORr
  | t2T2CUBECE_SAGr
  | t2T2FLAIRCUBE_AXIr
  | t2T2FLAIRCUBE_CORr
  | t2T2FLAIRCUBE_SAGr
  | t2T2FLAIRCUBECE_AXIr
  | t2T2FLAIRCUBECE_SAGr
  | t2T2FLAIRCUBECE_CORr
  | aslASLSEQ
  | aslASLSEQATT
  | aslASLSEQATT_COLOR
  | aslASLSEQCBF
  | aslASLSEQCBF_COLOR
  | aslASLPROD
  | aslASLPRODCBF
  | aslASLPRODCBF_COLOR
  | aslASLSEQPW
  | aslCOLOR
  | aslASL
  | aslCBF
  | dscDSC
  | dscrCBF
  | dscrCBV
  | dscMTT
  | dtiSDTI32D
  | dtiSDTI64D
  | modCT
  | modMR
  | acqT2D
  | acqT3D
  | ornSAG
  | ornAXI
  | ornCOR
  | ornSAGr
  | ornAXIr
  | ornCORr
  | conCE
  | conNE
  | repTR1000
  | repTR2000
  | bodyEYE
  | bodyEAR
  deriving DecidableEq, Repr

/-- Python `.value` of each enum member, from `config.py` (integer values
render as digits; only string values are ever returned as verdicts). -/
def attrValue : Attr -> Str
  | .nullA => []
  | .mrsCVR => ['C', 'V', 'R']
  | .mrsCVR1000 => ['C', 'V', 'R', '1', '0', '0', '0']
  | .mrsCVR2000 => ['C', 'V', 'R', '2', '0', '0', '0']
  | .mrsCVR2000_EAR => ['C', 'V', 'R', '2', '0', '0', '0', '_', 'E', 'A', 'R']
  | .mrsCVR2000_EYE => ['C', 'V', 'R', '2', '0', '0', '0', '_', 'E', 'Y', 'E']
  | .mrsDSC_RAW => ['D', 'S', 'C', '_', 'R', 'A', 'W']
  | .mrsDTI32D => ['D', 'T', 'I', '3', '2', 'D']
  | .mrsDTI64D => ['D', 'T', 'I', '6', '4', 'D']
  | .mrsDWI => ['D', 'W', 'I']
  | .mrsDWI0 => ['D', 'W', 'I', '0']
  | .mrsDWI1000 => ['D', 'W', 'I', '1', '0', '0', '0']
  | .mrsB_VALUES_1000 => ['1', '0', '0', '0']
  | .mrsB_VALUES_0 => ['0']
  | .mrsADC => ['A', 'D', 'C']
  | .mrseADC => ['e', 'A', 'D', 'C']
  | .mrseSWAN => ['e', 'S', 'W', 'A', 'N']
  | .mrseSWANmag => ['e', 'S', 'W', 'A', 'N', 'm', 'a', 'g']
  | .mrseSWANmIP => ['e', 'S', 'W', 'A', 'N', 'm', 'I', 'P']
  | .mrsMRA_BRAIN => ['M', 'R', 'A', '_', 'B', 'R', 'A', 'I', 'N']
  | .mrsMRA_NECK => ['M', 'R', 'A', '_', 'N', 'E', 'C', 'K']
  | .mrsMRAVR_BRAIN => ['M', 'R', 'A', 'V', 'R', '_', 'B', 'R', 'A', 'I', 'N']
  | .mrsMRAVR_NECK => ['M', 'R', 'A', 'V', 'R', '_', 'N', 'E', 'C', 'K']
  | .mrsMRV => ['M', 'R', 'V']
  | .mrsMRV_SAG => ['M', 'R', 'V', '_', 'S', 'A', 'G']
  | .mrsRESTING => ['R', 'E', 'S', 'T', 'I', 'N', 'G']
  | .mrsRESTING2000 => ['R', 'E', 'S', 'T', 'I', 'N', 'G', '2', '0', '0', '0']
  | .mrsSWANPHASE => ['S', 'W', 'A', 'N', 'P', 'H', 'A', 'S', 'E']
  | .mrsSWANmIP => ['S', 'W', 'A', 'N', 'm', 'I', 'P']
  | .mrsSWAN => ['S', 'W', 'A', 'N']
  | .serFLAIR => ['F', 'L', 'A', 'I', 'R']
  | .serCUBE => ['C', 'U', 'B', 'E']
  | .serBRAVO => ['B', 'R', 'A', 'V', 'O']
  | .serFSPGR => ['e', 'f', 'g', 'r', 'e', '3', 'd']
  | .serSWAN => ['S', 'W', 'A', 'N']
  | .sereSWAN => ['e', 'S', 'W', 'A', 'N']
  | .sermIP => ['m', 'I', 'P']
  | .sermAG => ['m', 'A', 'G']
  | .serORIGINAL => ['O', 'R', 'I', 'G', 'I', 'N', 'A', 'L']
  | .serSWANPHASE => ['1']
  | .t1T1 => ['T', '1']
  | .t1T1_AXI => ['T', '1', '_', 'A', 'X', 'I']
  | .t1T1_COR => ['T', '1', '_', 'C', 'O', 'R']
  | .t1T1_SAG => ['T', '1', '_', 'S', 'A', 'G']
  | .t1T1CE => ['T', '1', 'C', 'E']
  | .t1T1CE_AXI => ['T', '1', 'C', 'E', '_', 'A', 'X', 'I']
  | .t1T1CE_COR => ['T', '1', 'C', 'E', '_', 'C', 'O', 'R']
  | .t1T1CE_SAG => ['T', '1', 'C', 'E', '_', 'S', 'A', 'G']
  | .t1T1FLAIR => ['T', '1', 'F', 'L', 'A', 'I', 'R']
  | .t1T1FLAIR_AXI => ['T', '1', 'F', 'L', 'A', 'I', 'R', '_', 'A', 'X', 'I']
  | .t1T1FLAIR_COR => ['T', '1', 'F', 'L', 'A', 'I', 'R', '_', 'C', 'O', 'R']
  | .t1T1FLAIR_SAG => ['T', '1', 'F', 'L', 'A', 'I', 'R', '_', 'S', 'A', 'G']
  | .t1T1FLAIRCE => ['T', '1', 'F', 'L', 'A', 'I', 'R', 'C', 'E']
  | .t1T1FLAIRCE_AXI => ['T', '1', 'F', 'L', 'A', 'I', 'R', 'C', 'E', '_', 'A', 'X', 'I']
  | .t1T1FLAIRCE_COR => ['T', '1', 'F', 'L', 'A', 'I', 'R', 'C', 'E', '_', 'C', 'O', 'R']
  | .t1T1FLAIRCE_SAG => ['T', '1', 'F', 'L', 'A', 'I', 'R', 'C', 'E', '_', 'S', 'A', 'G']
  | .t1T1CUBE => ['T', '1', 'C', 'U', 'B', 'E']
  | .t1T1CUBE_AXI => ['T', '1', 'C', 'U', 'B', 'E', '_', 'A', 'X', 'I']
  | .t1T1CUBE_COR => ['T', '1', 'C', 'U', 'B', 'E', '_', 'C', 'O', 'R']
  | .t1T1CUBE_SAG => ['T', '1', 'C', 'U', 'B', 'E', '_', 'S', 'A', 'G']
  | .t1T1CUBECE => ['T', '1', 'C', 'U', 'B', 'E', 'C', 'E']
  | .t1T1CUBECE_AXI => ['T', '1', 'C', 'U', 'B', 'E', 'C', 'E', '_', 'A', 'X', 'I']
  | .t1T1CUBECE_COR => ['T', '1', 'C', 'U', 'B', 'E', 'C', 'E', '_', 'C', 'O', 'R']
  | .t1T1CUBECE_SAG => ['T', '1', 'C', 'U', 'B', 'E', 'C', 'E', '_', 'S', 'A', 'G']
  | .t1T1FLAIRCUBE => ['T', '1', 'F', 'L', 'A', 'I', 'R', 'C', 'U', 'B', 'E']
  | .t1T1FLAIRCUBE_AXI => ['T', '1', 'F', 'L', 'A', 'I', 'R', 'C', 'U', 'B', 'E', '_', 'A', 'X', 'I']
  | .t1T1FLAIRCUBE_COR => ['T', '1', 'F', 'L', 'A', 'I', 'R', 'C', 'U', 'B', 'E', '_', 'C', 'O', 'R']
  | .t1T1FLAIRCUBE_SAG => ['T', '1', 'F', 'L', 'A', 'I', 'R', 'C', 'U', 'B', 'E', '_', 'S', 'A', 'G']
  | .t1T1FLAIRCUBECE => ['T', '1', 'F', 'L', 'A', 'I', 'R', 'C', 'U', 'B', 'E', 'C', 'E']
  | .t1T1FLAIRCUBECE_AXI => ['T', '1', 'F', 'L', 'A', 'I', 'R', 'C', 'U', 'B', 'E', 'C', 'E', '_', 'A', 'X', 'I']
  | .t1T1FLAIRCUBECE_COR => ['T', '1', 'F', 'L', 'A', 'I', 'R', 'C', 'U', 'B', 'E', 'C', 'E', '_', 'C', 'O', 'R']
  | .t1T1FLAIRCUBECE_SAG => ['T', '1', 'F', 'L', 'A', 'I', 'R', 'C', 'U', 'B', 'E', 'C', 'E', '_', 'S', 'A', 'G']
  | .t1T1BRAVO => ['T', '1', 'B', 'R', 'A', 'V', 'O']
  | .t1T1BRAVO_AXI => ['T', '1', 'B', 'R', 'A', 'V', 'O', '_', 'A', 'X', 'I']
  | .t1T1BRAVOCE_AXI => ['T', '1', 'B', 'R', 'A', 'V', 'O', 'C', 'E', '_', 'A', 'X', 'I']
  | .t1T1BRAVO_SAG => ['T', '1', 'B', 'R', 'A', 'V', 'O', '_', 'S', 'A', 'G']
  | .t1T1BRAVOCE_SAG => ['T', '1', 'B', 'R', 'A', 'V', 'O', 'C', 'E', '_', 'S', 'A', 'G']
  | .t1T1BRAVO_COR => ['T', '1', 'B', 'R', 'A', 'V', 'O', '_', 'C', 'O', 'R']
  | .t1T1BRAVOCE_COR => ['T', '1', 'B', 'R', 'A', 'V', 'O', 'C', 'E', '_', 'C', 'O', 'R']
  | .t1T1CUBE_AXIr => ['T', '1', 'C', 'U', 'B', 'E', '_', 'A', 'X', 'I', 'r']
  | .t1T1CUBE_CORr => ['T', '1', 'C', 'U', 'B', 'E', '_', 'C', 'O', 'R', 'r']
  | .t1T1CUBE_SAGr => ['T', '1', 'C', 'U', 'B', 'E', '_', 'S', 'A', 'G', 'r']
  | .t1T1CUBECE_AXIr => ['T', '1', 'C', 'U', 'B', 'E', 'C', 'E', '_', 'A', 'X', 'I', 'r']
  | .t1T1CUBECE_CORr => ['T', '1', 'C', 'U', 'B', 'E', 'C', 'E', '_', 'C', 'O', 'R', 'r']
  | .t1T1CUBECE_SAGr => ['T', '1', 'C', 'U', 'B', 'E', 'C', 'E', '_', 'S', 'A', 'G', 'r']
  | .t1T1FLAIRCUBE_AXIr => ['T', '1', 'F', 'L', 'A', 'I', 'R', 'C', 'U', 'B', 'E', '_', 'A', 'X', 'I', 'r']
  | .t1T1FLAIRCUBE_CORr => ['T', '1', 'F', 'L', 'A', 'I', 'R', 'C', 'U', 'B', 'E', '_', 'C', 'O', 'R', 'r']
  | .t1T1FLAIRCUBE_SAGr => ['T', '1', 'F', 'L', 'A', 'I', 'R', 'C', 'U', 'B', 'E', '_', 'S', 'A', 'G', 'r']
  | .t1T1FLAIRCUBECE_AXIr => ['T', '1', 'F', 'L', 'A', 'I', 'R', 'C', 'U', 'B', 'E', 'C', 'E', '_', 'A', 'X', 'I', 'r']
  | .t1T1FLAIRCUBECE_CORr => ['T', '1', 'F', 'L', 'A', 'I', 'R', 'C', 'U', 'B', 'E', 'C', 'E', '_', 'C', 'O', 'R', 'r']
  | .t1T1FLAIRCUBECE_SAGr => ['T', '1', 'F', 'L', 'A', 'I', 'R', 'C', 'U', 'B', 'E', 'C', 'E', '_', 'S', 'A', 'G', 'r']
  | .t1T1BRAVO_AXIr => ['T', '1', 'B', 'R', 'A', 'V', 'O', '_', 'A', 'X', 'I', 'r']
  | .t1T1BRAVOCE_AXIr => ['T', '1', 'B', 'R', 'A', 'V', 'O', 'C', 'E', '_', 'A', 'X', 'I', 'r']
  | .t1T1BRAVO_SAGr => ['T', '1', 'B', 'R', 'A', 'V', 'O', '_', 'S', 'A', 'G', 'r']
  | .t1T1BRAVOCE_SAGr => ['T', '1', 'B', 'R', 'A', 'V', 'O', 'C', 'E', '_', 'S', 'A', 'G', 'r']
  | .t1T1BRAVO_CORr => ['T', '1', 'B', 'R', 'A', 'V', 'O', '_', 'C', 'O', 'R', 'r']
  | .t1T1BRAVOCE_CORr => ['T', '1', 'B', 'R', 'A', 'V', 'O', 'C', 'E', '_', 'C', 'O', 'R', 'r']
  | .t2T2 => ['T', '2']
  | .t2T2_AXI => ['T', '2', '_', 'A', 'X', 'I']
  | .t2T2_COR => ['T', '2', '_', 'C', 'O', 'R']
  | .t2T2_SAG => ['T', '2', '_', 'S', 'A', 'G']
  | .t2T2CE => ['T', '2', 'C', 'E']
  | .t2T2CE_AXI => ['T', '2', 'C', 'E', '_', 'A', 'X', 'I']
  | .t2T2CE_COR => ['T', '2', 'C', 'E', '_', 'C', 'O', 'R']
  | .t2T2CE_SAG => ['T', '2', 'C', 'E', '_', 'S', 'A', 'G']
  | .t2T2FLAIR => ['T', '2', 'F', 'L', 'A', 'I', 'R']
  | .t2T2FLAIR_AXI => ['T', '2', 'F', 'L', 'A', 'I', 'R', '_', 'A', 'X', 'I']
  | .t2T2FLAIR_COR => ['T', '2', 'F', 'L', 'A', 'I', 'R', '_', 'C', 'O', 'R']
  | .t2T2FLAIR_SAG => ['T', '2', 'F', 'L', 'A', 'I', 'R', '_', 'S', 'A', 'G']
  | .t2T2FLAIRCE => ['T', '2', 'F', 'L', 'A', 'I', 'R', 'C', 'E']
  | .t2T2FLAIRCE_AXI => ['T', '2', 'F', 'L', 'A', 'I', 'R', 'C', 'E', '_', 'A', 'X', 'I']
  | .t2T2FLAIRCE_COR => ['T', '2', 'F', 'L', 'A', 'I', 'R', 'C', 'E', '_', 'C', 'O', 'R']
  | .t2T2FLAIRCE_SAG => ['T', '2', 'F', 'L', 'A', 'I', 'R', 'C', 'E', '_', 'S', 'A', 'G']
  | .t2T2CUBE => ['T', '2', 'C', 'U', 'B', 'E']
  | .t2T2CUBE_AXI => ['T', '2', 'C', 'U', 'B', 'E', '_', 'A', 'X', 'I']
  | .t2T2CUBE_COR => ['T', '2', 'C', 'U', 'B', 'E', '_', 'C', 'O', 'R']
  | .t2T2CUBE_SAG => ['T', '2', 'C', 'U', 'B', 'E', '_', 'S', 'A', 'G']
  | .t2T2CUBECE => ['T', '2', 'C', 'U', 'B', 'E', 'C', 'E']
  | .t2T2CUBECE_AXI => ['T', '2', 'C', 'U', 'B', 'E', 'C', 'E', '_', 'A', 'X', 'I']
  | .t2T2CUBECE_COR => ['T', '2', 'C', 'U', 'B', 'E', 'C', 'E', '_', 'C', 'O', 'R']
  | .t2T2CUBECE_SAG => ['T', '2', 'C', 'U', 'B', 'E', 'C', 'E', '_', 'S', 'A', 'G']
  | .t2T2FLAIRCUBE => ['T', '2', 'F', 'L', 'A', 'I', 'R', 'C', 'U', 'B', 'E']
  | .t2T2FLAIRCUBE_AXI => ['T', '2', 'F', 'L', 'A', 'I', 'R', 'C', 'U', 'B', 'E', '_', 'A', 'X', 'I']
  | .t2T2FLAIRCUBE_COR => ['T', '2', 'F', 'L', 'A', 'I', 'R', 'C', 'U', 'B', 'E', '_', 'C', 'O', 'R']
  | .t2T2FLAIRCUBE_SAG => ['T', '2', 'F', 'L', 'A', 'I', 'R', 'C', 'U', 'B', 'E', '_', 'S', 'A', 'G']
  | .t2T2FLAIRCUBECE => ['T', '2', 'F', 'L', 'A', 'I', 'R', 'C', 'U', 'B', 'E', 'C', 'E']
  | .t2T2FLAIRCUBECE_AXI => ['T', '2', 'F', 'L', 'A', 'I', 'R', 'C', 'U', 'B', 'E', 'C', 'E', '_', 'A', 'X', 'I']
  | .t2T2FLAIRCUBECE_COR => ['T', '2', 'F', 'L', 'A', 'I', 'R', 'C', 'U', 'B', 'E', 'C', 'E', '_', 'C', 'O', 'R']
  | .t2T2FLAIRCUBECE_SAG => ['T', '2', 'F', 'L', 'A', 'I', 'R', 'C', 'U', 'B', 'E', 'C', 'E', '_', 'S', 'A', 'G']
  | .t2T2CUBE_AXIr => ['T', '2', 'C', 'U', 'B', 'E', '_', 'A', 'X', 'I', 'r']
  | .t2T2CUBE_CORr => ['T', '2', 'C', 'U', 'B', 'E', '_', 'C', 'O', 'R', 'r']
  | .t2T2CUBE_SAGr => ['T', '2', 'C', 'U', 'B', 'E', '_', 'S', 'A', 'G', 'r']
  | .t2T2CUBECE_AXIr => ['T', '2', 'C', 'U', 'B', 'E', 'C', 'E', '_', 'A', 'X', 'I', 'r']
  | .t2T2CUBECE_CORr => ['T', '2', 'C', 'U', 'B', 'E', 'C', 'E', '_', 'C', 'O', 'R', 'r']
  | .t2T2CUBECE_SAGr => ['T', '2', 'C', 'U', 'B', 'E', 'C', 'E', '_', 'S', 'A', 'G', 'r']
  | .t2T2FLAIRCUBE_AXIr => ['T', '2', 'F', 'L', 'A', 'I', 'R', 'C', 'U', 'B', 'E', '_', 'A', 'X', 'I', 'r']
  | .t2T2FLAIRCUBE_CORr => ['T', '2', 'F', 'L', 'A', 'I', 'R', 'C', 'U', 'B', 'E', '_', 'C', 'O', 'R', 'r']
  | .t2T2FLAIRCUBE_SAGr => ['T', '2', 'F', 'L', 'A', 'I', 'R', 'C', 'U', 'B', 'E', '_', 'S', 'A', 'G', 'r']
  | .t2T2FLAIRCUBECE_AXIr => ['T', '2', 'F', 'L', 'A', 'I', 'R', 'C', 'U', 'B', 'E', 'C', 'E', '_', 'A', 'X', 'I', 'r']
  | .t2T2FLAIRCUBECE_SAGr => ['T', '2', 'F', 'L', 'A', 'I', 'R', 'C', 'U', 'B', 'E', 'C', 'E', '_', 'S', 'A', 'G', 'r']
  | .t2T2FLAIRCUBECE_CORr => ['T', '2', 'F', 'L', 'A', 'I', 'R', 'C', 'U', 'B', 'E', 'C', 'E', '_', 'C', 'O', 'R', 'r']
  | .aslASLSEQ => ['A', 'S', 'L', 'S', 'E', 'Q']
  | .aslASLSEQATT => ['A', 'S', 'L', 'S', 'E', 'Q', 'A', 'T', 'T']
  | .aslASLSEQATT_COLOR => ['A', 'S', 'L', 'S', 'E', 'Q', 'A', 'T', 'T', '_', 'C', 'O', 'L', 'O', 'R']
  | .aslASLSEQCBF => ['A', 'S', 'L', 'S', 'E', 'Q', 'C', 'B', 'F']
  | .aslASLSEQCBF_COLOR => ['A', 'S', 'L', 'S', 'E', 'Q', 'C', 'B', 'F', '_', 'C', 'O', 'L', 'O', 'R']
  | .aslASLPROD => ['A', 'S', 'L', 'P', 'R', 'O', 'D']
  | .aslASLPRODCBF => ['A', 'S', 'L', 'P', 'R', 'O', 'D', 'C', 'B', 'F']
  | .aslASLPRODCBF_COLOR => ['A', 'S', 'L', 'P', 'R', 'O', 'D', 'C', 'B', 'F', '_', 'C', 'O', 'L', 'O', 'R']
  | .aslASLSEQPW => ['A', 'S', 'L', 'S', 'E', 'Q', 'P', 'W']
  | .aslCOLOR => ['C', 'O', 'L', 'O', 'R']
  | .aslASL => ['A', 'S', 'L']
  | .aslCBF => ['C', 'B', 'F']
  | .dscDSC => ['D', 'S', 'C']
  | .dscrCBF => ['D', 'S', 'C', 'C', 'B', 'F', '_', 'C', 'O', 'L', 'O', 'R']
  | .dscrCBV => ['D', 'S', 'C', 'C', 'B', 'V', '_', 'C', 'O', 'L', 'O', 'R']
  | .dscMTT => ['D', 'S', 'C', 'M', 'T', 'T', '_', 'C', 'O', 'L', 'O', 'R']
  | .dtiSDTI32D => ['3', '2']
  | .dtiSDTI64D => ['6', '4']
  | .modCT => ['C', 'T']
  | .modMR => ['M', 'R']
  | .acqT2D => ['2', 'D']
  | .acqT3D => ['3', 'D']
  | .ornSAG => ['S', 'A', 'G']
  | .ornAXI => ['A', 'X', 'I']
  | .ornCOR => ['C', 'O', 'R']
  | .ornSAGr => ['S', 'A', 'G', 'r']
  | .ornAXIr => ['A', 'X', 'I', 'r']
  | .ornCORr => ['C', 'O', 'R', 'r']
  | .conCE => ['C', 'E']
  | .conNE => ['N', 'E']
  | .repTR1000 => ['1', '0', '0', '0']
  | .repTR2000 => ['2', '0', '0', '0']
  | .bodyEYE => ['E', 'Y', 'E']
  | .bodyEAR => ['E', 'A', 'R']

/-! ## Series description patterns

Each definition is the semantics of one compiled regular expression of
`dicom_rename_mr.py`, under `re.match` (anchored at the start) and, where
flagged, `re.IGNORECASE`. -/

/-- Pattern `.*(DWI|AUTODIFF).*`, IGNORECASE. -/
def patDWI (s : Str) : Bool := containsCI s ("dwi".data) || containsCI s ("autodiff".data)

/-- Pattern `.*(?<!e)(ADC|Apparent Diffusion Coefficient).*`, IGNORECASE:
one of the alternatives occurs at a position not preceded by `e`. -/
def patADC (s : Str) : Bool :=
  (List.range (s.length + 1)).any (fun i =>
    (occursAtCI s ("adc".data) i || occursAtCI s ("apparent diffusion coefficient".data) i)
      && notPrecededByCI s i 'e')

/-- Pattern `.*(eADC).*`, IGNORECASE. -/
def patEADC (s : Str) : Bool := containsCI s ("eadc".data)

/-- Pattern `.*(?<!e)(SWAN).*`, IGNORECASE. -/
def patSWAN (s : Str) : Bool :=
  (List.range (s.length + 1)).any (fun i =>
    occursAtCI s ("swan".data) i && notPrecededByCI s i 'e')

/-- Pattern `.*(SWAN).*`, IGNORECASE (the eSWAN strategy). -/
def patESWAN (s : Str) : Bool := containsCI s ("swan".data)

/-- No occurrence of `Neck` (case-insensitive) at position `j` or later:
the tail `((?!Neck).)*$` starting at `j`. -/
def noNeckFrom (s : Str) (j : ℕ) : Bool :=
  (List.range (s.length + 1)).all (fun k => decide (k < j) || !(occursAtCI s ("neck".data) k))

/-- Pattern `.+(TOF)(((?!Neck).)*)$`, IGNORECASE: `TOF` at some position
`i ≥ 1` with no `Neck` after it. -/
def patMRABrain (s : Str) : Bool :=
  (List.range (s.length + 1)).any (fun i =>
    decide (1 ≤ i) && occursAtCI s ("tof".data) i && noNeckFrom s (i + 3))

/-- Pattern `.*(TOF).*((Neck+).*)$`, IGNORECASE: a `TOF` followed later
by a `Neck`. -/
def patMRANeck (s : Str) : Bool :=
  (List.range (s.length + 1)).any (fun i =>
    occursAtCI s ("tof".data) i &&
      (List.range (s.length + 1)).any (fun j =>
        decide (i + 3 ≤ j) && occursAtCI s ("neck".data) j))

/-- Pattern `((?!TOF|Neck).)*(MRA)((?!Neck).)*$`, IGNORECASE: an `MRA`
preceded by no start of `TOF` or `Neck` and followed by no `Neck`. -/
def patMRAVRBrain (s : Str) : Bool :=
  (List.range (s.length + 1)).any (fun i =>
    occursAtCI s ("mra".data) i
      && (List.range (s.length + 1)).all (fun k =>
            decide (i ≤ k) || !(occursAtCI s ("tof".data) k || occursAtCI s ("neck".data) k))
      && noNeckFrom s (i + 3))

/-- Pattern `((?!TOF).)*(Neck.*MRA)|(MRA.*Neck).*$`, IGNORECASE; the
alternation splits the whole pattern in two branches. -/
def patMRAVRNeck (s : Str) : Bool :=
  ((List.range (s.length + 1)).any (fun i =>
      occursAtCI s ("neck".data) i
        && (List.range (s.length + 1)).all (fun k =>
              decide (i ≤ k) || !(occursAtCI s ("tof".data) k))
        && (List.range (s.length + 1)).any (fun j =>
              decide (i + 4 ≤ j) && occursAtCI s ("mra".data) j)))
    || (occursAtCI s ("mra".data) 0
          && (List.range (s.length + 1)).any (fun j =>
                decide (3 ≤ j) && occursAtCI s ("neck".data) j))

/-- Pattern `.*(T1|AX|COR|SAG).*`, IGNORECASE (T1, 3D mapping). -/
def patT1 (s : Str) : Bool :=
  containsCI s ("t1".data) || containsCI s ("ax".data) ||
    containsCI s ("cor".data) || containsCI s ("sag".data)

/-- Pattern `.*(T1).*`, IGNORECASE (T1, 2D mapping). -/
def patT1only (s : Str) : Bool := containsCI s ("t1".data)

/-- Pattern `(FLAIR)`, IGNORECASE, under `re.match`: a prefix match. -/
def patFLAIR (s : Str) : Bool := startsWithCI s ("flair".data)

/-- Pattern `.*(CUBE).*`, IGNORECASE. -/
def patCUBE (s : Str) : Bool := containsCI s ("cube".data)

/-- Pattern `.*(BRAVO|FSPGR).*`, IGNORECASE. -/
def patBRAVO (s : Str) : Bool := containsCI s ("bravo".data) || containsCI s ("fspgr".data)

/-- Pattern `.*(T2).*`, IGNORECASE. -/
def patT2 (s : Str) : Bool := containsCI s ("t2".data)

/-- Pattern `(multi-Delay ASL SEQ)`, IGNORECASE, anchored prefix. -/
def patASLSEQ (s : Str) : Bool := startsWithCI s ("multi-delay asl seq".data)

/-- Pattern `([(]Transit delay[)])`, IGNORECASE, anchored prefix. -/
def patASLSEQATT (s : Str) : Bool := startsWithCI s ("(transit delay)".data)

/-- Pattern `([(]Color Transit delay[)])`, IGNORECASE, anchored prefix. -/
def patASLSEQATTColor (s : Str) : Bool := startsWithCI s ("(color transit delay)".data)

/-- Pattern `([(]Transit corrected CBF[)])`, IGNORECASE, anchored prefix. -/
def patASLSEQCBF (s : Str) : Bool := startsWithCI s ("(transit corrected cbf)".data)

/-- Pattern `([(]Color Transit corrected CBF[)])`, IGNORECASE. -/
def patASLSEQCBFColor (s : Str) : Bool := startsWithCI s ("(color transit corrected cbf)".data)

/-- Pattern `([(]per del, mean PW, REF[)])`, IGNORECASE, anchored prefix. -/
def patASLSEQPW (s : Str) : Bool := startsWithCI s ("(per del, mean pw, ref)".data)

/-- Pattern `.*(ASL).*`, IGNORECASE. -/
def patASLPROD (s : Str) : Bool := containsCI s ("asl".data)

/-- Pattern `.*((?<!r)CBF|Cerebral Blood Flow).*`, IGNORECASE: the
lookbehind guards only the first alternative. -/
def patASLPRODCBF (s : Str) : Bool :=
  (List.range (s.length + 1)).any (fun i =>
    (occursAtCI s ("cbf".data) i && notPrecededByCI s i 'r')
      || occursAtCI s ("cerebral blood flow".data) i)

/-- Pattern `.*((?<!r)CBF|SCREENSAVE).*`, IGNORECASE (ASL, absent
acquisition type). -/
def patASLPRODCBFColor (s : Str) : Bool :=
  (List.range (s.length + 1)).any (fun i =>
    (occursAtCI s ("cbf".data) i && notPrecededByCI s i 'r')
      || occursAtCI s ("screensave".data) i)

/-- Pattern `.*(AUTOPWI|Perfusion).*`, IGNORECASE. -/
def patDSC (s : Str) : Bool := containsCI s ("autopwi".data) || containsCI s ("perfusion".data)

/-- Pattern `.*(CBF).*`, IGNORECASE. -/
def patCBF (s : Str) : Bool := containsCI s ("cbf".data)

/-- Pattern `.*(CBV).*`, IGNORECASE. -/
def patCBV (s : Str) : Bool := containsCI s ("cbv".data)

/-- Pattern `.*(MTT).*`, IGNORECASE. -/
def patMTT (s : Str) : Bool := containsCI s ("mtt".data)

/-- Pattern `.*(CVR).*$`, IGNORECASE. -/
def patCVR (s : Str) : Bool := containsCI s ("cvr".data)

/-- Pattern `.*(resting).*$`, IGNORECASE. -/
def patRESTING (s : Str) : Bool := containsCI s ("resting".data)

/-- Pattern `.*(DTI).*`, IGNORECASE. -/
def patDTI (s : Str) : Bool := containsCI s ("dti".data)

/-! ## Attribute extractors

Shallow embedding of the `SeriesProcessingStrategy.process` methods of
`src/convert/base.py` and the `get_*` class methods of
`src/convert/dicom_rename_mr.py`.  An extractor that feeds an attribute
bag returns `PyR (List Attr)`: the empty list stands for `NullEnum.NULL`
(so nothing is added to the bag), a non-empty list is the returned enum
member or tuple of members. -/

/-- `ModalityProcessingStrategy.process` (base.py): compares the value of
tag (0008,0060) against the `ModalityEnum` members, in order CT, MR. -/
def modalityProcess (d : Dataset) : Attr :=
  match d tagModality with
  | some v =>
      if dvEqStr v ("CT".data) then .modCT
      else if dvEqStr v ("MR".data) then .modMR
      else .nullA
  | none => .nullA

/-- `MRAcquisitionTypeProcessingStrategy.process` (base.py): compares the
value of tag (0018,0023) against the `MRAcquisitionTypeEnum` members. -/
def mrAcqTypeProcess (d : Dataset) : Attr :=
  match d tagMRAcquisitionType with
  | some v =>
      if dvEqStr v ("2D".data) then .acqT2D
      else if dvEqStr v ("3D".data) then .acqT3D
      else .nullA
  | none => .nullA

/-- `ImageOrientationProcessingStrategy.process` (base.py): rounds the six
direction cosines of (0020,0037), takes absolute values, argsorts, and
classifies by the two largest positions; `NULL` when the tag is absent.
A non-numeric value makes `np.round`/`np.argsort` raise. -/
def imageOrientationProcess (d : Dataset) : PyR Attr :=
  match d tagImageOrientation with
  | none => .ok .nullA
  | some (.nums l) => do
      let idx := argsortStable ((l.map roundHalfEven).map (fun z => (z.natAbs : ℤ)))
      let mx ← listAt idx (-1)
      let snd ← listAt idx (-2)
      if (mx = 0 ∧ snd = 5) ∨ (mx = 5 ∧ snd = 0) then .ok .ornCOR
      else if (mx = 1 ∧ snd = 5) ∨ (mx = 5 ∧ snd = 1) then .ok .ornSAG
      else if (mx = 0 ∧ snd = 4) ∨ (mx = 4 ∧ snd = 0) then .ok .ornAXI
      else .ok .nullA
  | some _ => .error .typeErr

/-- `ContrastProcessingStrategy.process` (base.py).  The method reads the
series description with `.get(...).value` before any branch, so an absent
SeriesDescription raises `AttributeError` unconditionally. -/
def contrastProcess (d : Dataset) : PyR Attr :=
  match d tagSeriesDescription with
  | none => .error .attrErr
  | some sdv =>
      let m := modalityProcess d
      let contrastNonempty :=
        match d tagContrastAgent with
        | some cv => decide (0 < (pyStr cv).length)
        | none => false
      if m = .modMR then
        if contrastNonempty then .ok .conCE
        else
          match sdv with
          | .str sd =>
              if containsCI sd ("+c".data) || containsCI sd ("c+".data) then .ok .conCE
              else .ok .conNE
          | _ => .error .typeErr
      else if m = .modCT then
        if (d tagContrastAgent).isSome then .ok .conCE else .ok .conNE
      else .ok .nullA

/-- `get_image_orientation`, the identical class method of
`DwiProcessingStrategy`, `T1ProcessingStrategy` and `T2ProcessingStrategy`:
runs the base orientation extractor, then promotes to the reformatted
variant when `ImageType[2]` equals `REFORMATTED`.  `image_type` is indexed
without a presence check, so an absent (0008,0008) raises `TypeError`. -/
def getImageOrientationRef (d : Dataset) : PyR Attr := do
  let io ← imageOrientationProcess d
  match d tagImageType with
  | none => .error .typeErr
  | some itv => do
      let e ← dvIndex itv 2
      if dvEqStr e ("REFORMATTED".data) then
        if io = .ornAXI then .ok .ornAXIr
        else if io = .ornSAG then .ok .ornSAGr
        else if io = .ornCOR then .ok .ornCORr
        else .ok io
      else .ok io

/-- `DwiProcessingStrategy.get_b_values`: first element of (0043,1039),
converted with `int(...)` and compared to the values of `B_VALUES_0` and
`B_VALUES_1000`. -/
def dwiGetBValues (d : Dataset) : PyR (List Attr) :=
  match d tagBValues with
  | some v => do
      let b ← dvIndex v 0
      let bi ← pyInt b
      if bi = 0 then .ok [.mrsB_VALUES_0]
      else if bi = 1000 then .ok [.mrsB_VALUES_1000]
      else .ok []
  | none => .ok []

/-- Adapter from a single-enum extractor to a bag extractor: the target of
`series_group_set.add` when the result `is not NullEnum.NULL`. -/
def bagify (f : Dataset → PyR Attr) (d : Dataset) : PyR (List Attr) :=
  (f d).map (fun a => if a = .nullA then [] else [a])

/-- `T1ProcessingStrategy.get_flair`: reads TR and TE with `ds[tag]`, so an
absent tag raises `KeyError`; returns the tuple `(T1, FLAIR)`, the single
`T1`, or `NULL` according to the TR/TE inequalities. -/
def t1GetFlair (d : Dataset) : PyR (List Attr) := do
  let trv ← dsItem d tagRepetitionTime
  let tr ← pyFloat trv
  let tev ← dsItem d tagEchoTime
  let te ← pyFloat tev
  if qle 800 tr ∧ qle tr 3000 ∧ qle te 30 then .ok [.t1T1, .serFLAIR]
  else if qle tr 800 ∧ qle te 30 then .ok [.t1T1]
  else .ok []

/-- `T1ProcessingStrategy.get_cube`: (0019,109C) equals `cube`
case-insensitively. -/
def t1GetCube (d : Dataset) : PyR (List Attr) :=
  match d tagPulseSequenceName with
  | some v => if lowerStr (pyStr v) = ("cube".data) then .ok [.serCUBE] else .ok []
  | none => .ok []

/-- `T1ProcessingStrategy.get_bravo`: (0019,109C) equals `bravo` or
`efgre3d` case-insensitively; returns the tuple `(T1, BRAVO)`. -/
def t1GetBravo (d : Dataset) : PyR (List Attr) :=
  match d tagPulseSequenceName with
  | some v =>
      if lowerStr (pyStr v) = ("bravo".data) ∨ lowerStr (pyStr v) = ("efgre3d".data) then
        .ok [.t1T1, .serBRAVO]
      else .ok []
  | none => .ok []

/-- `T2ProcessingStrategy.get_flair`: reads TE with `ds[tag]` (`KeyError`
when absent) and checks the presence of the inversion time. -/
def t2GetFlair (d : Dataset) : PyR (List Attr) := do
  let tev ← dsItem d tagEchoTime
  let te ← pyFloat tev
  let ti := d tagInversionTime
  if qle 80 te ∧ ti.isSome then .ok [.t2T2, .serFLAIR]
  else if qle 80 te ∧ ti = none then .ok [.t2T2]
  else .ok []

/-- `T2ProcessingStrategy.get_cube`: `cube` occurs in (0019,109C)
case-insensitively (a substring test, unlike the T1 variant). -/
def t2GetCube (d : Dataset) : PyR (List Attr) :=
  match d tagPulseSequenceName with
  | some v => if containsCI (pyStr v) ("cube".data) then .ok [.serCUBE] else .ok []
  | none => .ok []

/-- `SWANProcessingStrategy.get_swan`: (0019,109C) equals `swan`. -/
def swanGetSwan (d : Dataset) : PyR (List Attr) :=
  match d tagPulseSequenceName with
  | some v => if lowerStr (pyStr v) = ("swan".data) then .ok [.serSWAN] else .ok []
  | none => .ok []

/-- `SWANProcessingStrategy.get_mIP`: when (0008,0008) and (0008,0013) are
present and `ImageType[-1]` equals `MIN IP`. -/
def swanGetMIP (d : Dataset) : PyR (List Attr) :=
  match d tagImageType, d tagInstanceCreationTime with
  | some itv, some _ => do
      let e ← dvIndex itv (-1)
      if dvEqStr e ("MIN IP".data) then .ok [.sermIP] else .ok []
  | _, _ => .ok []

/-- `SWANProcessingStrategy.get_mag`: (0043,102F) present with value equal
to `SeriesEnum.SWANPHASE.value`, the integer 1. -/
def swanGetMag (d : Dataset) : PyR (List Attr) :=
  match d tagSwanPhase with
  | some v => if dvEqNum v 1 then .ok [.serSWANPHASE] else .ok []
  | none => .ok []

/-- `ESWANProcessingStrategy.get_eswan`: (0019,109C) equals `eswan`. -/
def eswanGetEswan (d : Dataset) : PyR (List Attr) :=
  match d tagPulseSequenceName with
  | some v => if lowerStr (pyStr v) = ("eswan".data) then .ok [.sereSWAN] else .ok []
  | none => .ok []

/-- `ESWANProcessingStrategy.get_mIP`: `ImageType[-1]` equals `MIN IP` or
`REFORMATTED`, with (0008,0013) present. -/
def eswanGetMIP (d : Dataset) : PyR (List Attr) :=
  match d tagImageType, d tagInstanceCreationTime with
  | some itv, some _ => do
      let e ← dvIndex itv (-1)
      if dvEqStr e ("MIN IP".data) || dvEqStr e ("REFORMATTED".data) then .ok [.sermIP]
      else .ok []
  | _, _ => .ok []

/-- `ESWANProcessingStrategy.get_original`: `ImageType[0]` equals
`ORIGINAL` when (0008,0008) is present. -/
def eswanGetOriginal (d : Dataset) : PyR (List Attr) :=
  match d tagImageType with
  | some itv => do
      let e ← dvIndex itv 0
      if dvEqStr e ("ORIGINAL".data) then .ok [.serORIGINAL] else .ok []
  | none => .ok []

/-- `ASLProcessingStrategy.get_conversion_type`: any present (0008,0064)
yields `COLOR`. -/
def aslGetConversionType (d : Dataset) : PyR (List Attr) :=
  match d tagConversionType with
  | some _ => .ok [.aslCOLOR]
  | none => .ok []

/-- `ASLProcessingStrategy.get_asl`: (0019,109C) equals `asl`. -/
def aslGetAsl (d : Dataset) : PyR (List Attr) :=
  match d tagPulseSequenceName with
  | some v => if lowerStr (pyStr v) = ("asl".data) then .ok [.aslASL] else .ok []
  | none => .ok []

/-- `ASLProcessingStrategy.get_cbf`: (0051,1002) equals `cbf`. -/
def aslGetCbf (d : Dataset) : PyR (List Attr) :=
  match d tagFunctionalProcessingName with
  | some v => if lowerStr (pyStr v) = ("cbf".data) then .ok [.aslCBF] else .ok []
  | none => .ok []

/-- `DSCProcessingStrategy.get_functional_processing_name`: compares the
value of (0051,1002) against the names of the `DSCSeriesRenameEnum`
members, in order DSC, rCBF, rCBV, MTT. -/
def dscGetFPN (d : Dataset) : PyR (List Attr) :=
  match d tagFunctionalProcessingName with
  | some v =>
      if dvEqStr v ("DSC".data) then .ok [.dscDSC]
      else if dvEqStr v ("rCBF".data) then .ok [.dscrCBF]
      else if dvEqStr v ("rCBV".data) then .ok [.dscrCBV]
      else if dvEqStr v ("MTT".data) then .ok [.dscMTT]
      else .ok []
  | none => .ok []

/-- `CVRProcessingStrategy.get_repetition_time`: `str(ds[TR].value)`
compared to the literals 2000 and 1000; `KeyError` when TR is absent. -/
def cvrGetRepetitionTime (d : Dataset) : PyR (List Attr) := do
  let trv ← dsItem d tagRepetitionTime
  let tr := pyStr trv
  if tr = ("2000".data) then .ok [.repTR2000]
  else if tr = ("1000".data) then .ok [.repTR1000]
  else .ok []

/-- `CVRProcessingStrategy.get_description_ear`: `ear` occurs in the
series description, case-insensitively. -/
def cvrGetDescriptionEar (d : Dataset) : PyR (List Attr) :=
  match d tagSeriesDescription with
  | some v => if containsCI (pyStr v) ("ear".data) then .ok [.bodyEAR] else .ok []
  | none => .ok []

/-- `CVRProcessingStrategy.get_description_eye`: `eye` occurs in the
series description, case-insensitively. -/
def cvrGetDescriptionEye (d : Dataset) : PyR (List Attr) :=
  match d tagSeriesDescription with
  | some v => if containsCI (pyStr v) ("eye".data) then .ok [.bodyEYE] else .ok []
  | none => .ok []

/-- `RestingProcessingStrategy.get_repetition_time`: `str(ds[TR].value)`
compared to 2000 only; `KeyError` when TR is absent. -/
def restingGetRepetitionTime (d : Dataset) : PyR (List Attr) := do
  let trv ← dsItem d tagRepetitionTime
  if pyStr trv = ("2000".data) then .ok [.repTR2000] else .ok []

/-- `DTIProcessingStrategy.get_dti_diffusion`: compares the value of
(0019,10E0) against the `DTISeriesEnum` values 32 and 64. -/
def dtiGetDiffusion (d : Dataset) : PyR (List Attr) :=
  match d tagDtiDirections with
  | some v =>
      if dvEqNum v 32 then .ok [.dtiSDTI32D]
      else if dvEqNum v 64 then .ok [.dtiSDTI64D]
      else .ok []
  | none => .ok []
/-- Rename rules of `DwiProcessingStrategy.type_2D_series_rename_dict`. -/
def dwiDict2D : List (Attr × List Attr) := [
  (.mrsDWI0, [.mrsDWI, .mrsB_VALUES_0, .ornAXI]),
  (.mrsDWI1000, [.mrsDWI, .mrsB_VALUES_1000, .ornAXI])
]

/-- Rename rules of `T1ProcessingStrategy.type_2D_series_rename_dict`. -/
def t1Dict2D : List (Attr × List Attr) := [
  (.t1T1_AXI, [.t1T1, .ornAXI, .conNE]),
  (.t1T1_SAG, [.t1T1, .ornSAG, .conNE]),
  (.t1T1_COR, [.t1T1, .ornCOR, .conNE]),
  (.t1T1CE_AXI, [.t1T1, .ornAXI, .conCE]),
  (.t1T1CE_SAG, [.t1T1, .ornSAG, .conCE]),
  (.t1T1CE_COR, [.t1T1, .ornCOR, .conCE]),
  (.t1T1FLAIR_AXI, [.t1T1, .serFLAIR, .ornAXI, .conNE]),
  (.t1T1FLAIR_SAG, [.t1T1, .serFLAIR, .ornSAG, .conNE]),
  (.t1T1FLAIR_COR, [.t1T1, .serFLAIR, .ornCOR, .conNE]),
  (.t1T1FLAIRCE_AXI, [.t1T1, .serFLAIR, .ornAXI, .conCE]),
  (.t1T1FLAIRCE_SAG, [.t1T1, .serFLAIR, .ornSAG, .conCE]),
  (.t1T1FLAIRCE_COR, [.t1T1, .serFLAIR, .ornCOR, .conCE])
]

/-- Rename rules of `T1ProcessingStrategy.type_3D_series_rename_dict`. -/
def t1Dict3D : List (Attr × List Attr) := [
  (.t1T1CUBE_AXI, [.t1T1, .serCUBE, .ornAXI, .conNE]),
  (.t1T1CUBE_SAG, [.t1T1, .serCUBE, .ornSAG, .conNE]),
  (.t1T1CUBE_COR, [.t1T1, .serCUBE, .ornCOR, .conNE]),
  (.t1T1CUBECE_AXI, [.t1T1, .serCUBE, .ornAXI, .conCE]),
  (.t1T1CUBECE_SAG, [.t1T1, .serCUBE, .ornSAG, .conCE]),
  (.t1T1CUBECE_COR, [.t1T1, .serCUBE, .ornCOR, .conCE]),
  (.t1T1FLAIRCUBE_AXI, [.t1T1, .serFLAIR, .serCUBE, .ornAXI, .conNE]),
  (.t1T1FLAIRCUBE_SAG, [.t1T1, .serFLAIR, .serCUBE, .ornSAG, .conNE]),
  (.t1T1FLAIRCUBE_COR, [.t1T1, .serFLAIR, .serCUBE, .ornCOR, .conNE]),
  (.t1T1FLAIRCUBECE_AXI, [.t1T1, .serFLAIR, .serCUBE, .ornAXI, .conCE]),
  (.t1T1FLAIRCUBECE_SAG, [.t1T1, .serFLAIR, .serCUBE, .ornSAG, .conCE]),
  (.t1T1FLAIRCUBECE_COR, [.t1T1, .serFLAIR, .serCUBE, .ornCOR, .conCE]),
  (.t1T1BRAVO_AXI, [.t1T1, .serBRAVO, .ornAXI, .conNE]),
  (.t1T1BRAVO_SAG, [.t1T1, .serBRAVO, .ornSAG, .conNE]),
  (.t1T1BRAVO_COR, [.t1T1, .serBRAVO, .ornCOR, .conNE]),
  (.t1T1BRAVOCE_AXI, [.t1T1, .serBRAVO, .ornAXI, .conCE]),
  (.t1T1BRAVOCE_SAG, [.t1T1, .serBRAVO, .ornSAG, .conCE]),
  (.t1T1BRAVOCE_COR, [.t1T1, .serBRAVO, .ornCOR, .conCE]),
  (.t1T1CUBE_AXIr, [.t1T1, .serCUBE, .ornAXIr, .conNE]),
  (.t1T1CUBE_SAGr, [.t1T1, .serCUBE, .ornSAGr, .conNE]),
  (.t1T1CUBE_CORr, [.t1T1, .serCUBE, .ornCORr, .conNE]),
  (.t1T1CUBECE_AXIr, [.t1T1, .serCUBE, .ornAXIr, .conCE]),
  (.t1T1CUBECE_SAGr, [.t1T1, .serCUBE, .ornSAGr, .conCE]),
  (.t1T1CUBECE_CORr, [.t1T1, .serCUBE, .ornCORr, .conCE]),
  (.t1T1FLAIRCUBE_AXIr, [.t1T1, .serFLAIR, .serCUBE, .ornAXIr, .conNE]),
  (.t1T1FLAIRCUBE_SAGr, [.t1T1, .serFLAIR, .serCUBE, .ornSAGr, .conNE]),
  (.t1T1FLAIRCUBE_CORr, [.t1T1, .serFLAIR, .serCUBE, .ornCORr, .conNE]),
  (.t1T1FLAIRCUBECE_AXIr, [.t1T1, .serFLAIR, .serCUBE, .ornAXIr, .conCE]),
  (.t1T1FLAIRCUBECE_SAGr, [.t1T1, .serFLAIR, .serCUBE, .ornSAGr, .conCE]),
  (.t1T1FLAIRCUBECE_CORr, [.t1T1, .serFLAIR, .serCUBE, .ornCORr, .conCE]),
  (.t1T1BRAVO_AXIr, [.t1T1, .serBRAVO, .ornAXIr, .conNE]),
  (.t1T1BRAVO_SAGr, [.t1T1, .serBRAVO, .ornSAGr, .conNE]),
  (.t1T1BRAVO_CORr, [.t1T1, .serBRAVO, .ornCORr, .conNE]),
  (.t1T1BRAVOCE_AXIr, [.t1T1, .serBRAVO, .ornAXIr, .conCE]),
  (.t1T1BRAVOCE_SAGr, [.t1T1, .serBRAVO, .ornSAGr, .conCE]),
  (.t1T1BRAVOCE_CORr, [.t1T1, .serBRAVO, .ornCORr, .conCE])
]

/-- Rename rules of `T2ProcessingStrategy.type_2D_series_rename_dict`. -/
def t2Dict2D : List (Attr × List Attr) := [
  (.t2T2_AXI, [.t2T2, .ornAXI, .conNE]),
  (.t2T2_SAG, [.t2T2, .ornSAG, .conNE]),
  (.t2T2_COR, [.t2T2, .ornCOR, .conNE]),
  (.t2T2CE_AXI, [.t2T2, .ornAXI, .conCE]),
  (.t2T2CE_SAG, [.t2T2, .ornSAG, .conCE]),
  (.t2T2CE_COR, [.t2T2, .ornCOR, .conCE]),
  (.t2T2FLAIR_AXI, [.t2T2, .serFLAIR, .ornAXI, .conNE]),
  (.t2T2FLAIR_SAG, [.t2T2, .serFLAIR, .ornSAG, .conNE]),
  (.t2T2FLAIR_COR, [.t2T2, .serFLAIR, .ornCOR, .conNE]),
  (.t2T2FLAIRCE_AXI, [.t2T2, .serFLAIR, .ornAXI, .conCE]),
  (.t2T2FLAIRCE_SAG, [.t2T2, .serFLAIR, .ornSAG, .conCE]),
  (.t2T2FLAIRCE_COR, [.t2T2, .serFLAIR, .ornCOR, .conCE])
]

/-- Rename rules of `T2ProcessingStrategy.type_3D_series_rename_dict`. -/
def t2Dict3D : List (Attr × List Attr) := [
  (.t2T2CUBE_AXI, [.t2T2, .serCUBE, .ornAXI, .conNE]),
  (.t2T2CUBE_SAG, [.t2T2, .serCUBE, .ornSAG, .conNE]),
  (.t2T2CUBE_COR, [.t2T2, .serCUBE, .ornCOR, .conNE]),
  (.t2T2CUBECE_AXI, [.t2T2, .serCUBE, .ornAXI, .conCE]),
  (.t2T2CUBECE_SAG, [.t2T2, .serCUBE, .ornSAG, .conCE]),
  (.t2T2CUBECE_COR, [.t2T2, .serCUBE, .ornCOR, .conCE]),
  (.t2T2FLAIRCUBE_AXI, [.t2T2, .serFLAIR, .serCUBE, .ornAXI, .conNE]),
  (.t2T2FLAIRCUBE_SAG, [.t2T2, .serFLAIR, .serCUBE, .ornSAG, .conNE]),
  (.t2T2FLAIRCUBE_COR, [.t2T2, .serFLAIR, .serCUBE, .ornCOR, .conNE]),
  (.t2T2FLAIRCUBECE_AXI, [.t2T2, .serFLAIR, .serCUBE, .ornAXI, .conCE]),
  (.t2T2FLAIRCUBECE_SAG, [.t2T2, .serFLAIR, .serCUBE, .ornSAG, .conCE]),
  (.t2T2FLAIRCUBECE_COR, [.t2T2, .serFLAIR, .serCUBE, .ornCOR, .conCE]),
  (.t2T2CUBE_AXIr, [.t2T2, .serCUBE, .ornAXIr, .conNE]),
  (.t2T2CUBE_SAGr, [.t2T2, .serCUBE, .ornSAGr, .conNE]),
  (.t2T2CUBE_CORr, [.t2T2, .serCUBE, .ornCORr, .conNE]),
  (.t2T2CUBECE_AXIr, [.t2T2, .serCUBE, .ornAXIr, .conCE]),
  (.t2T2CUBECE_SAGr, [.t2T2, .serCUBE, .ornSAGr, .conCE]),
  (.t2T2CUBECE_CORr, [.t2T2, .serCUBE, .ornCORr, .conCE]),
  (.t2T2FLAIRCUBE_AXIr, [.t2T2, .serFLAIR, .serCUBE, .ornAXIr, .conNE]),
  (.t2T2FLAIRCUBE_SAGr, [.t2T2, .serFLAIR, .serCUBE, .ornSAGr, .conNE]),
  (.t2T2FLAIRCUBE_CORr, [.t2T2, .serFLAIR, .serCUBE, .ornCORr, .conNE]),
  (.t2T2FLAIRCUBECE_AXIr, [.t2T2, .serFLAIR, .serCUBE, .ornAXIr, .conCE]),
  (.t2T2FLAIRCUBECE_SAGr, [.t2T2, .serFLAIR, .serCUBE, .ornSAGr, .conCE]),
  (.t2T2FLAIRCUBECE_CORr, [.t2T2, .serFLAIR, .serCUBE, .ornCORr, .conCE])
]

/-- Rename rules of `SWANProcessingStrategy.series_rename_dict`. -/
def swanDict : List (Attr × List Attr) := [
  (.mrsSWAN, [.serSWAN]),
  (.mrsSWANmIP, [.serSWAN, .sermIP]),
  (.mrsSWANPHASE, [.serSWAN, .serSWANPHASE])
]

/-- Rename rules of `ESWANProcessingStrategy.series_rename_dict`. -/
def eswanDict : List (Attr × List Attr) := [
  (.mrseSWAN, [.sereSWAN, .serORIGINAL]),
  (.mrseSWANmIP, [.sereSWAN, .sermIP])
]

/-- Rename rules of `ASLProcessingStrategy.type_3D_series_rename_dict` (the members `ASL` and `CBF` are the ones absent from `config.py`). -/
def aslDict3D : List (Attr × List Attr) := [
  (.aslASLSEQ, [.aslASLSEQ]),
  (.aslASLSEQATT, [.aslASLSEQATT]),
  (.aslASLSEQATT_COLOR, [.aslASLSEQATT_COLOR]),
  (.aslASLSEQCBF, [.aslASLSEQCBF]),
  (.aslASLSEQCBF_COLOR, [.aslASLSEQCBF_COLOR]),
  (.aslASLSEQPW, [.aslASLSEQPW]),
  (.aslASLPROD, [.aslASLPROD, .aslASL]),
  (.aslASLPRODCBF, [.aslASLPRODCBF, .aslASL, .aslCBF])
]

/-- Rename rules of `ASLProcessingStrategy.type_null_series_rename_dict`. -/
def aslDictNull : List (Attr × List Attr) := [
  (.aslASLPRODCBF_COLOR, [.aslASLPRODCBF, .aslASL, .aslCBF, .aslCOLOR])
]

/-- Rename rules of `DSCProcessingStrategy.type_null_series_rename_dict`. -/
def dscDictNull : List (Attr × List Attr) := [
  (.dscrCBF, [.dscrCBF]),
  (.dscrCBV, [.dscrCBV]),
  (.dscMTT, [.dscMTT])
]

/-- Rename rules of `CVRProcessingStrategy.type_2D_series_rename_dict`. -/
def cvrDict2D : List (Attr × List Attr) := [
  (.mrsCVR2000_EAR, [.mrsCVR, .repTR2000, .bodyEAR]),
  (.mrsCVR2000_EYE, [.mrsCVR, .repTR2000, .bodyEYE]),
  (.mrsCVR2000, [.mrsCVR, .repTR2000]),
  (.mrsCVR1000, [.mrsCVR, .repTR1000]),
  (.mrsCVR, [.mrsCVR])
]

/-- Rename rules of `RestingProcessingStrategy.type_2D_series_rename_dict`. -/
def restingDict2D : List (Attr × List Attr) := [
  (.mrsRESTING2000, [.mrsRESTING, .repTR2000]),
  (.mrsRESTING, [.mrsRESTING])
]

/-- Rename rules of `DTIProcessingStrategy.series_rename_dict`. -/
def dtiDict : List (Attr × List Attr) := [
  (.mrsDTI32D, [.dtiSDTI32D]),
  (.mrsDTI64D, [.dtiSDTI64D])
]


/-! ## Attribute bags and the shared `type_process` loop

Python builds `series_group_set` as a `set` and compares it to each rule
set with `==`.  Bags and rule sets are modelled as duplicate-free lists;
`bagInsert` is `set.add` and `setEqv` is extensional set equality. -/

/-- `set.add`: insert an element unless already present. -/
def bagInsert (b : List Attr) (a : Attr) : List Attr := if a ∈ b then b else a :: b

def bagInsertAll (b : List Attr) (l : List Attr) : List Attr := l.foldl bagInsert b

/-- Python `==` between two sets: same elements. -/
def setEqv (a b : List Attr) : Bool := a.all (fun x => x ∈ b) && b.all (fun x => x ∈ a)

/-- Python `<=` (subset) between two sets. -/
def setSubset (a b : List Attr) : Bool := a.all (fun x => x ∈ b)

/-- Run of the `for series_group_fn in ...` loop: invoke each extractor and
collect every result that `is not NullEnum.NULL` into the bag. -/
def buildBag (fns : List (Dataset → PyR (List Attr))) (d : Dataset) (b : List Attr) :
    PyR (List Attr) :=
  match fns with
  | [] => .ok b
  | f :: rest => do
      let items ← f d
      buildBag rest d (bagInsertAll b items)

/-- Run of the `for series_rename_enum, series_rename_group_set in ...`
loop: first rule whose required set equals the bag. -/
def findEqRule (dict : List (Attr × List Attr)) (bag : List Attr) : Option Attr :=
  match dict with
  | [] => none
  | (v, req) :: rest => if setEqv bag req then some v else findEqRule rest bag

/-- One `type_process` body, shared by the DWI, T1, T2, ASL, DTI, CVR and
Resting strategies: iterate the description patterns; on a match, build the
attribute bag seeded with `seed` applied to the mapping key, return the
first rule whose set equals the bag, otherwise fall through to the next
pattern.  `fallbackLast` reproduces the CVR/Resting `return
series_rename_enum` after the rule loop, which through Python scoping
denotes the last key of the rule dict. -/
def typeProcessGo (seed : Attr → List Attr) (fns : List (Dataset → PyR (List Attr)))
    (dict : List (Attr × List Attr)) (fallbackLast : Bool) (d : Dataset) (sd : Str) :
    List (Attr × (Str → Bool)) → PyR Attr
  | [] => .ok .nullA
  | (k, pat) :: rest =>
      if pat sd then do
        let bag ← buildBag fns d (seed k)
        match findEqRule dict bag with
        | some v => .ok v
        | none =>
            if fallbackLast then .ok (((dict.map Prod.fst).getLast?).getD .nullA)
            else typeProcessGo seed fns dict fallbackLast d sd rest
      else typeProcessGo seed fns dict fallbackLast d sd rest

/-- Entry of `type_process`: reads the series description with
`.get(...).value`, so an absent description raises `AttributeError` and a
non-string one `TypeError` inside `re.match`. -/
def typeProcessG (seed : Attr → List Attr) (fns : List (Dataset → PyR (List Attr)))
    (mapping : List (Attr × (Str → Bool))) (dict : List (Attr × List Attr))
    (fallbackLast : Bool) (d : Dataset) : PyR Attr :=
  match d tagSeriesDescription with
  | none => .error .attrErr
  | some (.str sd) => typeProcessGo seed fns dict fallbackLast d sd mapping
  | some _ => .error .typeErr

/-! ## Description-pattern mappings of the strategies -/

/-- `DwiProcessingStrategy.type_2D_series_rename_mapping`. -/
def dwiMapping2D : List (Attr × (Str → Bool)) := [(.mrsDWI, patDWI)]

/-- `T1ProcessingStrategy.type_3D_series_rename_mapping`
(= `series_rename_mapping`). -/
def t1Mapping3D : List (Attr × (Str → Bool)) :=
  [(.t1T1, patT1), (.serFLAIR, patFLAIR), (.serCUBE, patCUBE), (.serBRAVO, patBRAVO)]

/-- `T1ProcessingStrategy.type_2D_series_rename_mapping`. -/
def t1Mapping2D : List (Attr × (Str → Bool)) :=
  [(.t1T1, patT1only), (.serFLAIR, patFLAIR)]

/-- `T2ProcessingStrategy.type_3D_series_rename_mapping`
(= `series_rename_mapping`). -/
def t2Mapping3D : List (Attr × (Str → Bool)) :=
  [(.t2T2, patT2), (.serFLAIR, patFLAIR), (.serCUBE, patCUBE)]

/-- `T2ProcessingStrategy.type_2D_series_rename_mapping`. -/
def t2Mapping2D : List (Attr × (Str → Bool)) :=
  [(.t2T2, patT2), (.serFLAIR, patFLAIR)]

/-- `SWANProcessingStrategy.series_rename_mapping`. -/
def swanMapping : List (Attr × (Str → Bool)) := [(.mrsSWAN, patSWAN)]

/-- `ESWANProcessingStrategy.series_rename_mapping`. -/
def eswanMapping : List (Attr × (Str → Bool)) := [(.mrseSWAN, patESWAN)]

/-- `ASLProcessingStrategy.type_3D_series_rename_mapping`. -/
def aslMapping3D : List (Attr × (Str → Bool)) :=
  [(.aslASLSEQ, patASLSEQ), (.aslASLSEQATT, patASLSEQATT),
   (.aslASLSEQATT_COLOR, patASLSEQATTColor), (.aslASLSEQCBF, patASLSEQCBF),
   (.aslASLSEQCBF_COLOR, patASLSEQCBFColor), (.aslASLSEQPW, patASLSEQPW),
   (.aslASLPROD, patASLPROD), (.aslASLPRODCBF, patASLPRODCBF)]

/-- `ASLProcessingStrategy.type_null_series_rename_mapping`. -/
def aslMappingNull : List (Attr × (Str → Bool)) :=
  [(.aslASLPRODCBF_COLOR, patASLPRODCBFColor)]

/-- `DSCProcessingStrategy.type_2D_series_rename_mapping`. -/
def dscMapping2D : List (Attr × (Str → Bool)) := [(.dscDSC, patDSC)]

/-- `DSCProcessingStrategy.type_null_series_rename_mapping`. -/
def dscMappingNull : List (Attr × (Str → Bool)) :=
  [(.dscrCBF, patCBF), (.dscrCBV, patCBV), (.dscMTT, patMTT)]

/-- `CVRProcessingStrategy.series_rename_mapping`. -/
def cvrMapping : List (Attr × (Str → Bool)) := [(.mrsCVR, patCVR)]

/-- `RestingProcessingStrategy.series_rename_mapping`. -/
def restingMapping : List (Attr × (Str → Bool)) := [(.mrsRESTING, patRESTING)]

/-- `DTIProcessingStrategy.series_rename_mapping`: two keys with the same
pattern. -/
def dtiMapping : List (Attr × (Str → Bool)) := [(.mrsDTI32D, patDTI), (.mrsDTI64D, patDTI)]

/-! ## Extractor lists (`series_group_fn_list`) of the strategies -/

def dwiFns : List (Dataset → PyR (List Attr)) :=
  [bagify getImageOrientationRef, dwiGetBValues]

def t1Fns : List (Dataset → PyR (List Attr)) :=
  [bagify getImageOrientationRef, bagify contrastProcess, t1GetFlair, t1GetCube, t1GetBravo]

def t2Fns : List (Dataset → PyR (List Attr)) :=
  [bagify getImageOrientationRef, bagify contrastProcess, t2GetFlair, t2GetCube]

def swanFns : List (Dataset → PyR (List Attr)) := [swanGetSwan, swanGetMIP, swanGetMag]

def eswanFns : List (Dataset → PyR (List Attr)) :=
  [eswanGetEswan, eswanGetMIP, eswanGetOriginal]

def aslFns : List (Dataset → PyR (List Attr)) :=
  [aslGetConversionType, aslGetAsl, aslGetCbf]

def dscFns : List (Dataset → PyR (List Attr)) := [dscGetFPN]

def cvrFns : List (Dataset → PyR (List Attr)) :=
  [cvrGetRepetitionTime, cvrGetDescriptionEar, cvrGetDescriptionEye]

def restingFns : List (Dataset → PyR (List Attr)) := [restingGetRepetitionTime]

def dtiFns : List (Dataset → PyR (List Attr)) := [dtiGetDiffusion]

/-! ## Strategy `process` methods -/

/-- Loop of the strategies that return the mapping key directly on a
description match (ADC, eADC, MRAVR, DSC 2D). -/
def patternOnlyGo (sd : Str) : List (Attr × (Str → Bool)) → Attr
  | [] => .nullA
  | (k, pat) :: rest => if pat sd then k else patternOnlyGo sd rest

/-- Pattern-only process: reads the series description with
`.value`, then returns the first matching mapping key. -/
def patternOnlyProcess (mapping : List (Attr × (Str → Bool))) (d : Dataset) : PyR Attr :=
  match d tagSeriesDescription with
  | none => .error .attrErr
  | some (.str sd) => .ok (patternOnlyGo sd mapping)
  | some _ => .error .typeErr

/-- `DwiProcessingStrategy.process`: 2D only; the bag is seeded with
`MRSeriesRenameEnum.DWI`. -/
def dwiProcess (d : Dataset) : PyR Attr :=
  if mrAcqTypeProcess d = .acqT2D then
    typeProcessG (fun _ => [.mrsDWI]) dwiFns dwiMapping2D dwiDict2D false d
  else .ok .nullA

/-- `ADCProcessingStrategy.process`: requires `ImageType[0] == DERIVED`
(raising `TypeError` when (0008,0008) is absent) and a present
InstanceCreationTime, then matches the description. -/
def adcProcess (d : Dataset) : PyR Attr :=
  match d tagImageType with
  | none => .error .typeErr
  | some itv => do
      let e0 ← dvIndex itv 0
      if dvEqStr e0 ("DERIVED".data) ∧ (d tagInstanceCreationTime).isSome then
        patternOnlyProcess [(.mrsADC, patADC)] d
      else .ok .nullA

/-- `EADCProcessingStrategy.process`. -/
def eadcProcess (d : Dataset) : PyR Attr :=
  patternOnlyProcess [(.mrseADC, patEADC)] d

/-- `SWANProcessingStrategy.process` (no internal acquisition-type check;
the dispatcher filters on 3D). -/
def swanProcess (d : Dataset) : PyR Attr :=
  typeProcessG (fun _ => []) swanFns swanMapping swanDict false d

/-- `ESWANProcessingStrategy.process`. -/
def eswanProcess (d : Dataset) : PyR Attr :=
  typeProcessG (fun _ => []) eswanFns eswanMapping eswanDict false d

/-- `MRABrainProcessingStrategy.process`: description match, then
`ImageType[0] == ORIGINAL` (raising `TypeError` when (0008,0008) is
absent). -/
def mraBrainProcess (d : Dataset) : PyR Attr :=
  match d tagSeriesDescription with
  | none => .error .attrErr
  | some (.str sd) =>
      if patMRABrain sd then
        match d tagImageType with
        | none => .error .typeErr
        | some itv => do
            let e0 ← dvIndex itv 0
            if dvEqStr e0 ("ORIGINAL".data) then .ok .mrsMRA_BRAIN else .ok .nullA
      else .ok .nullA
  | some _ => .error .typeErr

/-- `MRANeckProcessingStrategy.process`. -/
def mraNeckProcess (d : Dataset) : PyR Attr :=
  match d tagSeriesDescription with
  | none => .error .attrErr
  | some (.str sd) =>
      if patMRANeck sd then
        match d tagImageType with
        | none => .error .typeErr
        | some itv => do
            let e0 ← dvIndex itv 0
            if dvEqStr e0 ("ORIGINAL".data) then .ok .mrsMRA_NECK else .ok .nullA
      else .ok .nullA
  | some _ => .error .typeErr

/-- `MRAVRBrainProcessingStrategy.process`. -/
def mravrBrainProcess (d : Dataset) : PyR Attr :=
  patternOnlyProcess [(.mrsMRAVR_BRAIN, patMRAVRBrain)] d

/-- `MRAVRNeckProcessingStrategy.process`. -/
def mravrNeckProcess (d : Dataset) : PyR Attr :=
  patternOnlyProcess [(.mrsMRAVR_NECK, patMRAVRNeck)] d

/-- `T1ProcessingStrategy.process`: dispatches on the acquisition type to
the 2D or 3D mapping and rule dict. -/
def t1Process (d : Dataset) : PyR Attr :=
  if mrAcqTypeProcess d = .acqT2D then
    typeProcessG (fun _ => []) t1Fns t1Mapping2D t1Dict2D false d
  else if mrAcqTypeProcess d = .acqT3D then
    typeProcessG (fun _ => []) t1Fns t1Mapping3D t1Dict3D false d
  else .ok .nullA

/-- `T2ProcessingStrategy.process`. -/
def t2Process (d : Dataset) : PyR Attr :=
  if mrAcqTypeProcess d = .acqT2D then
    typeProcessG (fun _ => []) t2Fns t2Mapping2D t2Dict2D false d
  else if mrAcqTypeProcess d = .acqT3D then
    typeProcessG (fun _ => []) t2Fns t2Mapping3D t2Dict3D false d
  else .ok .nullA

/-- `ASLProcessingStrategy.process`: 3D mapping for 3D, the
`type_null` mapping when the acquisition type is absent; the bag is
seeded with the mapping key. -/
def aslProcess (d : Dataset) : PyR Attr :=
  if mrAcqTypeProcess d = .acqT3D then
    typeProcessG (fun k => [k]) aslFns aslMapping3D aslDict3D false d
  else if mrAcqTypeProcess d = .nullA then
    typeProcessG (fun k => [k]) aslFns aslMappingNull aslDictNull false d
  else .ok .nullA

/-- `DSCProcessingStrategy.process`: pattern-only for 2D, bag matching
against the null dict when the acquisition type is absent. -/
def dscProcess (d : Dataset) : PyR Attr :=
  if mrAcqTypeProcess d = .acqT2D then
    patternOnlyProcess dscMapping2D d
  else if mrAcqTypeProcess d = .nullA then
    typeProcessG (fun _ => []) dscFns dscMappingNull dscDictNull false d
  else .ok .nullA

/-- `CVRProcessingStrategy.process` (no internal acquisition check): bag
seeded with the key; falls back to the last rule-dict key when no rule
set equals the bag. -/
def cvrProcess (d : Dataset) : PyR Attr :=
  typeProcessG (fun k => [k]) cvrFns cvrMapping cvrDict2D true d

/-- `RestingProcessingStrategy.process`. -/
def restingProcess (d : Dataset) : PyR Attr :=
  typeProcessG (fun k => [k]) restingFns restingMapping restingDict2D true d

/-- `DTIProcessingStrategy.process`: 2D only. -/
def dtiProcess (d : Dataset) : PyR Attr :=
  if mrAcqTypeProcess d = .acqT2D then
    typeProcessG (fun _ => []) dtiFns dtiMapping dtiDict false d
  else .ok .nullA

/-! ## Dispatcher (`ConvertManager.rename_dicom_path`) -/

/-- Static data of one registered strategy: its accepted modality, its
`mr_acquisition_type` tuple, and its `process` method. -/
structure StrategySpec where
  modality : Attr
  acqTypes : List Attr
  proc : Dataset → PyR Attr

/-- The registry `ConvertManager.processing_strategy_list`, in registration
order, with each `mr_acquisition_type` tuple as written in the source
(the `T2ProcessingStrategy` override is misspelled
`mr_acquisition_typemr_acquisition_type`, so T2 keeps the inherited
`(TYPE_2D, TYPE_3D)` tuple). -/
def strategyList : List StrategySpec := [
  ⟨.modMR, [.acqT2D], dwiProcess⟩,
  ⟨.modMR, [.acqT2D, .nullA], adcProcess⟩,
  ⟨.modMR, [.acqT3D, .nullA], eadcProcess⟩,
  ⟨.modMR, [.acqT3D], swanProcess⟩,
  ⟨.modMR, [.acqT3D], eswanProcess⟩,
  ⟨.modMR, [.acqT3D], mraBrainProcess⟩,
  ⟨.modMR, [.acqT3D], mraNeckProcess⟩,
  ⟨.modMR, [.acqT3D], mravrBrainProcess⟩,
  ⟨.modMR, [.acqT3D], mravrNeckProcess⟩,
  ⟨.modMR, [.acqT3D, .acqT2D], t1Process⟩,
  ⟨.modMR, [.acqT2D, .acqT3D], t2Process⟩,
  ⟨.modMR, [.acqT3D, .nullA], aslProcess⟩,
  ⟨.modMR, [.acqT2D, .nullA], dscProcess⟩,
  ⟨.modMR, [.acqT2D], restingProcess⟩,
  ⟨.modMR, [.acqT2D], cvrProcess⟩,
  ⟨.modMR, [.acqT2D], dtiProcess⟩]

/-- Inner loop over one `mr_acquisition_type` tuple: on the first element
equal to the extracted acquisition type, run the strategy; a non-NULL
verdict is returned, a NULL one continues the loop. -/
def acqLoop (d : Dataset) (acq : Attr) (p : Dataset → PyR Attr) :
    List Attr → PyR (Option Attr)
  | [] => .ok none
  | a :: rest =>
      if acq = a then do
        let r ← p d
        if r ≠ .nullA then .ok (some r) else acqLoop d acq p rest
      else acqLoop d acq p rest

/-- Outer loop of `rename_dicom_path` over the registered strategies. -/
def dispatchLoop (d : Dataset) (m acq : Attr) : List StrategySpec → PyR Str
  | [] => .ok []
  | s :: rest =>
      if m = s.modality then do
        let r ← acqLoop d acq s.proc s.acqTypes
        match r with
        | some v => .ok (attrValue v)
        | none => dispatchLoop d m acq rest
      else dispatchLoop d m acq rest

/-- `ConvertManager.rename_dicom_path`: the classification function.  The
result is the `.value` string of the winning verdict, or the empty string
when no strategy matches. -/
def renameDicomPath (d : Dataset) : PyR Str :=
  dispatchLoop d (modalityProcess d) (mrAcqTypeProcess d) strategyList

/-! ## Part 2: NIfTI post-conversion normalizers

The normalizers of `python/src/processing/` rewrite one study folder in
place.  The folder is a list of named files; a `.nii.gz` file carries its
byte size and its NIfTI content (shape, affine, pixdim, the untouched rest
of the header, and the voxel data).  Effectful code runs in the state
monad `NM` over the folder; a raised exception carries the folder state at
the raise.  `FState.failing` injects file-operation failures (for the
failure-isolation claims); `FState.saveSizes` supplies the byte sizes of
files written by `nib.save`, which the source never inspects or controls
(compression makes them unpredictable), one per save in order. -/

abbrev FName := Str

/-- Content of a NIfTI volume: `get_fdata().shape`, the affine matrix, the
`pixdim` header field, an opaque remainder of the header, and the flat
voxel data. -/
structure Vol where
  shape : List ℕ
  affine : List (List ℚ)
  pixdim : List ℚ
  hrest : ℕ
  data : List ℚ
  deriving DecidableEq, Repr

/-- A file of the study folder: its byte size, and its volume when the
file is a NIfTI image (sidecars carry an irrelevant dummy volume). -/
structure FileRec where
  size : ℕ
  vol : Vol
  deriving DecidableEq, Repr

/-- Kinds of primitive file operations, for failure injection. -/
inductive OpKind
  | statOp
  | unlinkOp
  | renameOp
  | loadOp
  | saveOp
  deriving DecidableEq, Repr

/-- State of one study folder. -/
structure FState where
  files : List (FName × FileRec)
  failing : List (OpKind × FName)
  saveSizes : List ℕ
  deriving DecidableEq, Repr

/-- Errors of the normalizer layer: an OS or nibabel error from a file
operation, a Python exception from pure code, or the `ProcessingError`
wrapper the strategies re-raise. -/
inductive NErr
  | osError
  | pyExc (e : PyErr)
  | processingError
  deriving DecidableEq, Repr

/-- Outcome of an effectful step: result and state, or error and the state
at the raise. -/
inductive PRes (α : Type)
  | ok (a : α) (s : FState)
  | err (e : NErr) (s : FState)
  deriving Repr

/-- State-and-exception monad for the normalizer code. -/
def NM (α : Type) := FState → PRes α

def NM.pure (a : α) : NM α := fun s => .ok a s

def NM.bind (m : NM α) (f : α → NM β) : NM β := fun s =>
  match m s with
  | .ok a s1 => f a s1
  | .err e s1 => .err e s1

instance : Monad NM where
  pure := NM.pure
  bind := NM.bind

/-- Raise an exception. -/
def NM.throwE (e : NErr) : NM α := fun s => .err e s

/-- Lift pure fallible Python code. -/
def liftPyR (r : PyR α) : NM α := fun s =>
  match r with
  | .ok a => .ok a s
  | .error e => .err (.pyExc e) s

/-- Current directory listing (`study_path.iterdir()`), in folder order. -/
def listDir : NM (List FName) := fun s => .ok (s.files.map Prod.fst) s

def fsLookup (s : FState) (n : FName) : Option FileRec :=
  (s.files.find? (fun e => e.1 = n)).map Prod.snd

/-- `path.exists()`. -/
def fileExists (n : FName) : NM Bool := fun s => .ok (fsLookup s n).isSome s

/-- Injected-failure test for a primitive operation. -/
def opOk (k : OpKind) (n : FName) (s : FState) : Bool := (k, n) ∉ s.failing

/-- `path.stat().st_size`. -/
def statSize (n : FName) : NM ℕ := fun s =>
  if opOk .statOp n s then
    match fsLookup s n with
    | some f => .ok f.size s
    | none => .err .osError s
  else .err .osError s

/-- `path.unlink()`. -/
def unlinkFile (n : FName) : NM Unit := fun s =>
  if opOk .unlinkOp n s then
    match fsLookup s n with
    | some _ => .ok () { s with files := s.files.filter (fun e => e.1 ≠ n) }
    | none => .err .osError s
  else .err .osError s

/-- `old.rename(new)`: overwrites an existing `new`, keeps the
file content; the renamed entry moves to the end of the folder order. -/
def renameFsFile (old new : FName) : NM Unit := fun s =>
  if opOk .renameOp old s then
    match fsLookup s old with
    | some f =>
        .ok () { s with files := (s.files.filter (fun e => e.1 ≠ old ∧ e.1 ≠ new)) ++ [(new, f)] }
    | none => .err .osError s
  else .err .osError s

/-- `nib.load(path)` followed by the accesses the source makes. -/
def loadNii (n : FName) : NM Vol := fun s =>
  if opOk .loadOp n s then
    match fsLookup s n with
    | some f => .ok f.vol s
    | none => .err .osError s
  else .err .osError s

/-- `nib.save(img, path)`: writes or overwrites `path`; the size of the
written file is the next entry of `saveSizes` (0 when exhausted). -/
def saveNii (n : FName) (v : Vol) : NM Unit := fun s =>
  if opOk .saveOp n s then
    let sz := s.saveSizes.headD 0
    .ok () { s with
      files := (s.files.filter (fun e => e.1 ≠ n)) ++ [(n, ⟨sz, v⟩)],
      saveSizes := s.saveSizes.tail }
  else .err .osError s

/-! ## File-name patterns of the normalizers -/

def isLowerAlpha (c : Char) : Bool := 97 ≤ c.toNat && c.toNat ≤ 122

def isAsciiAlpha (c : Char) : Bool :=
  (97 ≤ c.toNat && c.toNat ≤ 122) || (65 ≤ c.toNat && c.toNat ≤ 90)

def endsWithStr (s suffix : Str) : Bool := suffix.isSuffixOf s

def startsWithStr (s p : Str) : Bool := p.isPrefixOf s

/-- Python `str.replace(pat, rep)`: replace every non-overlapping
occurrence, left to right.  Structured over a step counter so that the
recursion is structural (one character or one whole match is consumed per
step, so `s.length` steps always suffice); the counter never runs out. -/
def nameReplaceF (pat rep : Str) : ℕ → Str → Str
  | _, [] => []
  | 0, s => s
  | fuel + 1, c :: t =>
      if pat ≠ [] ∧ pat.isPrefixOf (c :: t) then
        rep ++ nameReplaceF pat rep fuel ((c :: t).drop pat.length)
      else c :: nameReplaceF pat rep fuel t

def nameReplace (pat rep : Str) (s : Str) : Str := nameReplaceF pat rep s.length s

/-- Longest run of lowercase letters at the end of a name. -/
def trailingLowerRun (s : Str) : Str := (s.reverse.takeWhile isLowerAlpha).reverse

/-- Decimal rendering of an integer, as in a Python f-string. -/
def intDigits (z : ℤ) : Str :=
  if z < 0 then '-' :: Nat.toDigits 10 (-z).toNat else Nat.toDigits 10 z.toNat

/-- `DwiNiftiProcessingStrategy.pattern`, `(DWI.*)(\.nii\.gz)$`
(case-sensitive): the owned files of the DWI normalizer. -/
def dwiOwned (n : FName) : Bool :=
  startsWithStr n ("DWI".data) && endsWithStr n (".nii.gz".data)

/-- `DwiNiftiProcessingStrategy.suffix_pattern`,
`(DWI.*)(?<![a-z])([a-z]{0,2}?)(\.nii\.gz)$`: splits a name into the stem
and its trailing run of at most two lowercase letters; no match when the
run is longer. -/
def dwiSuffixSplit (n : FName) : Option (Str × Str) :=
  if endsWithStr n (".nii.gz".data) then
    let base := n.take (n.length - 7)
    let t := trailingLowerRun base
    let g1 := base.take (base.length - t.length)
    if startsWithStr g1 ("DWI".data) ∧ t.length ≤ 2 then some (g1, t) else none
  else none

/-- Case-insensitive anchored split `(?<!e)(STEM)([a-z]{0,2}?)(\.nii\.gz)$`
with IGNORECASE (the ADC and SWAN suffix patterns; under IGNORECASE the
class `[a-z]` also matches capitals).  Returns the letter group. -/
def ciSuffixSplit (stem : Str) (n : FName) : Option (Str × Str) :=
  let k := stem.length
  if k + 7 ≤ n.length ∧ n.length ≤ k + 9 then
    let g1 := n.take k
    let mid := (n.drop k).take (n.length - k - 7)
    let tail := n.drop (n.length - 7)
    if lowerStr g1 = lowerStr stem ∧ mid.all isAsciiAlpha ∧ lowerStr tail = (".nii.gz".data) then
      some (g1, mid)
    else none
  else none

/-- `ADCNiftiProcessingStrategy.suffix_pattern` (and, with the letters
folded into the stem group, its `pattern`): `(?<!e)(ADC)([a-z]{0,2}?)(\.nii\.gz)$`,
IGNORECASE.  The lookbehind is vacuous under `re.match`. -/
def adcSuffixSplit (n : FName) : Option (Str × Str) := ciSuffixSplit ("ADC".data) n

def adcOwned (n : FName) : Bool := (adcSuffixSplit n).isSome

/-- `ADCNiftiProcessingStrategy.dwi_pattern`, `(DWI0)(.*\.nii\.gz)$`,
IGNORECASE. -/
def dwi0Pat (n : FName) : Bool :=
  decide (11 ≤ n.length) && lowerStr (n.take 4) = ("dwi0".data)
    && lowerStr (n.drop (n.length - 7)) = (".nii.gz".data)

/-- `SWANNiftiProcessingStrategy.suffix_pattern`:
`(?<!e)(SWAN)([a-z]{0,2}?)(\.nii\.gz)$`, IGNORECASE. -/
def swanSuffixSplit (n : FName) : Option (Str × Str) := ciSuffixSplit ("SWAN".data) n

def swanOwned (n : FName) : Bool := (swanSuffixSplit n).isSome

/-- `T1NiftiProcessingStrategy.pattern`, `(T1.*)(\.nii\.gz)$`. -/
def t1Owned (n : FName) : Bool :=
  startsWithStr n ("T1".data) && endsWithStr n (".nii.gz".data)

/-- `T2NiftiProcessingStrategy.pattern`, `(T2.*)(\.nii\.gz)$`. -/
def t2Owned (n : FName) : Bool :=
  startsWithStr n ("T2".data) && endsWithStr n (".nii.gz".data)

/-- Orientation token test used by the T1/T2 suffix patterns. -/
def orientTokenAt (base : Str) (p : ℕ) : Option Str :=
  if occursAt base ("AXI".data) p then some ("AXI".data)
  else if occursAt base ("COR".data) p then some ("COR".data)
  else if occursAt base ("SAG".data) p then some ("SAG".data)
  else none

/-- T1/T2 suffix pattern `(W.*)(AXIr?|CORr?|SAGr?)([a-z]{0,1})(\.nii\.gz)$`
for a weighting prefix `w` (`T1` or `T2`), case-sensitive.  Backtracking
prefers the longest first group, then a consumed `r`, then a letter group
of length one; the three viable token positions are the last three. -/
def wSuffixSplit (w : Str) (n : FName) : Option (Str × Str × Str) :=
  if endsWithStr n (".nii.gz".data) then
    let base := n.take (n.length - 7)
    let len := base.length
    if startsWithStr base w then
      if 2 + 3 ≤ len ∧ (orientTokenAt base (len - 3)).isSome then
        (orientTokenAt base (len - 3)).map (fun tok => (base.take (len - 3), tok, []))
      else if 2 + 4 ≤ len ∧ (orientTokenAt base (len - 4)).isSome then
        match orientTokenAt base (len - 4), base.drop (len - 1) with
        | some tok, [c] =>
            if c = 'r' then some (base.take (len - 4), tok ++ ['r'], [])
            else if isLowerAlpha c then some (base.take (len - 4), tok, [c])
            else
              if 2 + 5 ≤ len ∧ (orientTokenAt base (len - 5)).isSome then
                match orientTokenAt base (len - 5), base.drop (len - 2) with
                | some tok5, [r, c5] =>
                    if r = 'r' ∧ isLowerAlpha c5 then
                      some (base.take (len - 5), tok5 ++ ['r'], [c5])
                    else none
                | _, _ => none
              else none
        | _, _ => none
      else if 2 + 5 ≤ len ∧ (orientTokenAt base (len - 5)).isSome then
        match orientTokenAt base (len - 5), base.drop (len - 2) with
        | some tok, [r, c] =>
            if r = 'r' ∧ isLowerAlpha c then some (base.take (len - 5), tok ++ ['r'], [c])
            else none
        | _, _ => none
      else none
    else none
  else none

/-- Position of the last dot of a name, if any. -/
def lastDotIdx (n : FName) : Option ℕ :=
  ((List.range n.length).filter (fun i => n.get? i = some '.')).getLast?

/-- `pathlib.Path.stem`: the name up to its last extension.  Note that the
stem of `X.nii.gz` is `X.nii`, not `X`. -/
def pathStem (n : FName) : Str :=
  match lastDotIdx n with
  | none => n
  | some i => n.take i

/-- `pathlib.Path.suffix`: the last extension, with its dot. -/
def pathSuffix (n : FName) : Str :=
  match lastDotIdx n with
  | none => []
  | some i => n.drop i

/-! ## Shared normalizer operations (`python/src/processing/base.py`) -/

/-- Loop body of `NiftiProcessingStrategy.delete_small_files` over the
snapshot of owned files: a file below the limit is deleted together with
its `.json` sidecar. -/
def deleteSmallGo (limit : ℕ) : List FName → NM Unit
  | [] => pure ()
  | n :: rest => do
      let sz ← statSize n
      if sz < limit then do
        let jsonName := nameReplace (".nii.gz".data) (".json".data) n
        let je ← fileExists jsonName
        if je then unlinkFile jsonName else pure ()
        let ne ← fileExists n
        if ne then unlinkFile n else pure ()
        deleteSmallGo limit rest
      else deleteSmallGo limit rest

/-- `NiftiProcessingStrategy.delete_small_files`. -/
def deleteSmallFiles (owned : FName → Bool) (limit : ℕ) : NM Unit := do
  let names ← listDir
  deleteSmallGo limit (names.filter owned)

/-- `NiftiProcessingStrategy.rename_file_with_suffix` over a split of the
name into `(stem, letters)`: a nonempty letter group `c` maps to
`stem_<ord(c) - 95>.nii.gz`; `ord` of a two-letter group raises
`TypeError`. -/
def renameWithSuffix (split : FName → Option (Str × Str)) (n : FName) :
    PyR (Option FName) :=
  match split n with
  | none => .ok none
  | some (g1, g2) =>
      match g2 with
      | [] => .ok none
      | [c] => .ok (some (g1 ++ ('_' :: intDigits ((c.toNat : ℤ) - 95)) ++ (".nii.gz".data)))
      | _ => .error .typeErr

/-- `NiftiProcessingStrategy.rename_file_without_suffix`: the stem group
alone, with the extension restored. -/
def renameWithoutSuffix (split : FName → Option (Str × Str)) (n : FName) : Option FName :=
  (split n).map (fun p => p.1 ++ (".nii.gz".data))

/-- Loop of `NiftiProcessingStrategy.rename_related_files` over the
directory snapshot: every file other than the image itself whose
`Path.stem` equals the image name without `.nii.gz` moves to the new base
name with its own extension. -/
def renameRelatedGo (old : FName) (oldBase newBase : Str) : List FName → NM Unit
  | [] => pure ()
  | f :: rest => do
      if pathStem f = oldBase ∧ f ≠ old then
        renameFsFile f (newBase ++ pathSuffix f)
      else pure ()
      renameRelatedGo old oldBase newBase rest

/-- `NiftiProcessingStrategy.rename_related_files`. -/
def renameRelatedFiles (old new : FName) : NM Unit := do
  let names ← listDir
  renameRelatedGo old (nameReplace (".nii.gz".data) [] old)
    (nameReplace (".nii.gz".data) [] new) names

/-- Strategy errors are wrapped: `except Exception as e: raise
ProcessingError(...)`. -/
def wrapProcErr (m : NM α) : NM α := fun s =>
  match m s with
  | .ok a s1 => .ok a s1
  | .err _ s1 => .err .processingError s1

/-! ## The five normalizer strategies
(`python/src/processing/nifti/strategies.py`) -/

/-- Rename loop shared verbatim by `_rename_dwi_files`,
`_rename_swan_files`, `_rename_t1_files` and `_rename_t2_files`: for each
owned file of the entry snapshot that still exists, compute the new name
(single-file snapshots strip the letter, larger ones add the numeric
suffix), then rename the sidecars and the file. -/
def renameFamilyGo (single : FName → Option FName) (multi : FName → PyR (Option FName))
    (isSingle : Bool) : List FName → NM Unit
  | [] => pure ()
  | n :: rest => do
      let e ← fileExists n
      if e then do
        let newOpt ← (if isSingle then pure (single n) else liftPyR (multi n))
        match newOpt with
        | some nf => do
            renameRelatedFiles n nf
            renameFsFile n nf
            renameFamilyGo single multi isSingle rest
        | none => renameFamilyGo single multi isSingle rest
      else renameFamilyGo single multi isSingle rest

/-- Collect the owned files and run the rename loop. -/
def renameFamilyFiles (owned : FName → Bool) (single : FName → Option FName)
    (multi : FName → PyR (Option FName)) : NM Unit := do
  let names ← listDir
  let fams := names.filter owned
  renameFamilyGo single multi (fams.length = 1) fams

/-- `DwiNiftiProcessingStrategy.process`: delete small files, then rename;
any exception is re-raised as `ProcessingError`. -/
def dwiNiftiProcess : NM Unit :=
  wrapProcErr (do
    deleteSmallFiles dwiOwned (550 * 1024)
    renameFamilyFiles dwiOwned (renameWithoutSuffix dwiSuffixSplit)
      (renameWithSuffix dwiSuffixSplit))

/-- `SWANNiftiProcessingStrategy.process`. -/
def swanNiftiProcess : NM Unit :=
  wrapProcErr (do
    deleteSmallFiles swanOwned (800 * 1024)
    renameFamilyFiles swanOwned (renameWithoutSuffix swanSuffixSplit)
      (renameWithSuffix swanSuffixSplit))

/-- `T1NiftiProcessingStrategy._rename_t1_file_with_suffix` (and the T2
copy): the letter group follows the orientation token and has length at
most one. -/
def wRenameWithSuffix (w : Str) (n : FName) : Option FName :=
  match wSuffixSplit w n with
  | some (g1, g2, [c]) =>
      some (g1 ++ g2 ++ ('_' :: intDigits ((c.toNat : ℤ) - 95)) ++ (".nii.gz".data))
  | _ => none

/-- `T1NiftiProcessingStrategy._rename_t1_file_without_suffix` (and the T2
copy). -/
def wRenameWithoutSuffix (w : Str) (n : FName) : Option FName :=
  (wSuffixSplit w n).map (fun p => p.1 ++ p.2.1 ++ (".nii.gz".data))

/-- `T1NiftiProcessingStrategy.process`. -/
def t1NiftiProcess : NM Unit :=
  wrapProcErr (do
    deleteSmallFiles t1Owned (800 * 1024)
    renameFamilyFiles t1Owned (wRenameWithoutSuffix ("T1".data))
      (fun n => .ok (wRenameWithSuffix ("T1".data) n)))

/-- `T2NiftiProcessingStrategy.process`. -/
def t2NiftiProcess : NM Unit :=
  wrapProcErr (do
    deleteSmallFiles t2Owned (800 * 1024)
    renameFamilyFiles t2Owned (wRenameWithoutSuffix ("T2".data))
      (fun n => .ok (wRenameWithSuffix ("T2".data) n)))

/-! ## The ADC normalizer -/

/-- Inner loop of `ADCNiftiProcessingStrategy._update_adc_headers`: for a
fixed DWI volume, overwrite every shape-matched ADC file with a volume
whose pixdim and affine come from the DWI and whose data and remaining
header come from the ADC. -/
def updateHeadersInner (dvol : Vol) : List FName → NM Unit
  | [] => pure ()
  | adc :: rest => do
      let avol ← loadNii adc
      if dvol.shape = avol.shape then
        saveNii adc ⟨avol.shape, dvol.affine, dvol.pixdim, avol.hrest, avol.data⟩
      else pure ()
      updateHeadersInner dvol rest

/-- Outer loop of `_update_adc_headers` over the DWI files. -/
def updateHeadersOuter (adcs : List FName) : List FName → NM Unit
  | [] => pure ()
  | dwi :: rest => do
      let dvol ← loadNii dwi
      updateHeadersInner dvol adcs
      updateHeadersOuter adcs rest

/-- `ADCNiftiProcessingStrategy._update_adc_headers`.  The collection loop
uses `elif`, so a name matching the ADC pattern is not tested against the
DWI pattern. -/
def adcUpdateHeaders : NM Unit := do
  let names ← listDir
  let adcs := names.filter adcOwned
  let dwis := names.filter (fun n => !(adcOwned n) && dwi0Pat n)
  if dwis ≠ [] ∧ adcs ≠ [] then updateHeadersOuter adcs dwis else pure ()

/-- `np.float64 → np.int32` conversion of an integral value, modelled as a
32-bit wrap (in-range values are unchanged). -/
def int32cast (z : ℤ) : ℤ := ((z + 2147483648) % 4294967296) - 2147483648

/-- `ADCNiftiProcessingStrategy._handle_related_files`: for `.bval` and
`.bvec`, rename `old.stem + ext` to `new.stem + ext` when it exists.
`Path.stem` of `X.nii.gz` is `X.nii`. -/
def adcHandleRelated (old new : FName) : NM Unit := do
  let b1 := pathStem old ++ (".bval".data)
  let e1 ← fileExists b1
  if e1 then renameFsFile b1 (pathStem new ++ (".bval".data)) else pure ()
  let b2 := pathStem old ++ (".bvec".data)
  let e2 ← fileExists b2
  if e2 then renameFsFile b2 (pathStem new ++ (".bvec".data)) else pure ()

/-- Pairing loop of `ADCNiftiProcessingStrategy._pair_adc_with_dwi`: on
the first DWI file whose affine equals the ADC affine, delete the ADC
file, save the rounded volume under the DWI name with `DWI0` replaced by
`ADC`, move the `.bval`/`.bvec` sidecars, and stop. -/
def pairLoop (adc : FName) (avol : Vol) (rdata : List ℚ) : List FName → NM Unit
  | [] => pure ()
  | dwi :: rest => do
      let dvol ← loadNii dwi
      if dvol.affine = avol.affine then do
        unlinkFile adc
        let newName := nameReplace ("DWI0".data) ("ADC".data) dwi
        saveNii newName ⟨avol.shape, avol.affine, avol.pixdim, avol.hrest, rdata⟩
        adcHandleRelated adc newName
      else pairLoop adc avol rdata rest

/-- `ADCNiftiProcessingStrategy._pair_adc_with_dwi`: voxel data is rounded
(`round(0)`, half to even) and cast to signed 32-bit before pairing. -/
def pairAdcWithDwi (adc : FName) (dwis : List FName) : NM Unit := do
  let avol ← loadNii adc
  let rdata := avol.data.map (fun q => ((int32cast (roundHalfEven q) : ℤ) : ℚ))
  pairLoop adc avol rdata dwis

/-- Per-file loop of `ADCNiftiProcessingStrategy._rename_adc_files`. -/
def adcRenameGo (isSingle : Bool) (dwis : List FName) : List FName → NM Unit
  | [] => pure ()
  | adc :: rest => do
      let e ← fileExists adc
      if e then
        if isSingle then do
          match renameWithoutSuffix adcSuffixSplit adc with
          | some nf => do
              renameRelatedFiles adc nf
              renameFsFile adc nf
              adcRenameGo isSingle dwis rest
          | none => adcRenameGo isSingle dwis rest
        else do
          pairAdcWithDwi adc dwis
          adcRenameGo isSingle dwis rest
      else adcRenameGo isSingle dwis rest

/-- `ADCNiftiProcessingStrategy._rename_adc_files`. -/
def adcRenameFiles : NM Unit := do
  let names ← listDir
  let adcs := names.filter adcOwned
  let dwis := names.filter (fun n => !(adcOwned n) && dwi0Pat n)
  adcRenameGo (adcs.length = 1) dwis adcs

/-- `ADCNiftiProcessingStrategy.process`: header update then renaming;
note there is no small-file deletion step. -/
def adcNiftiProcess : NM Unit :=
  wrapProcErr (do
    adcUpdateHeaders
    adcRenameFiles)

/-! ## The post-processing manager
(`python/src/processing/nifti/postprocess.py`) -/

/-- `NiftiPostProcessManager._delete_json_files`: unlink every `.json`
file of the snapshot. -/
def deleteJsonGo : List FName → NM Unit
  | [] => pure ()
  | n :: rest => do
      unlinkFile n
      deleteJsonGo rest

def deleteJsonFiles : NM Unit := do
  let names ← listDir
  deleteJsonGo (names.filter (fun n => endsWithStr n (".json".data)))

/-- The strategy registry `_processing_strategies`, in order. -/
def niftiStrategies : List (NM Unit) :=
  [dwiNiftiProcess, adcNiftiProcess, swanNiftiProcess, t1NiftiProcess, t2NiftiProcess]

/-- Loop of `post_process_study` over the strategies: each strategy runs in
sequence, and an exception aborts the remaining ones. -/
def runStrategiesGo : List (NM Unit) → NM Unit
  | [] => pure ()
  | m :: rest => do
      m
      runStrategiesGo rest

/-- `NiftiPostProcessManager.post_process_study`: delete the json
sidecars, run the five strategies, and re-raise any exception as
`ProcessingError`. -/
def postProcessStudy : NM Unit :=
  wrapProcErr (do
    deleteJsonFiles
    runStrategiesGo niftiStrategies)

/-- Outcome of `NiftiPostProcessManager.run` over a list of study folders:
either every study was processed, or an exception aborted the run, leaving
the remaining studies untouched. -/
inductive RunOutcome
  | done (studies : List FState)
  | aborted (studies : List FState)
  deriving Repr

/-- `NiftiPostProcessManager.run`: the studies are processed in order
inside a single `try`, so the first failure aborts the loop. -/
def runStudies : List FState → RunOutcome
  | [] => .done []
  | s :: rest =>
      match postProcessStudy s with
      | .ok _ s1 =>
          match runStudies rest with
          | .done l => .done (s1 :: l)
          | .aborted l => .aborted (s1 :: l)
      | .err _ s1 => .aborted (s1 :: rest)

/-! ## Classification-phase output writing
(`ConvertManager.rename_process`, `get_output_study`,
`get_study_folder_name`)

The output tree is a flat map from joined paths
`study folder/series folder/instance name` to an abstract content value;
directories are implicit.  `rename_process` parses one instance,
classifies it and copies the file; the surrounding `try` turns any
exception into a no-op on the filesystem (only a log line). -/

abbrev OutFS := List (Str × ℕ)

def outLookup (fs : OutFS) (p : Str) : Option ℕ := ((fs.find? (fun e => e.1 = p))).map Prod.snd

/-- `ConvertManager.get_study_folder_name`: Modality, PatientID and
AccessionNumber are read with `ds[tag]` (`KeyError` when absent), StudyDate
with `.get`; an absent StudyDate yields `None`, otherwise
`PatientID_StudyDate_Modality_AccessionNumber`. -/
def getStudyFolderName (d : Dataset) : PyR (Option Str) := do
  let mv ← dsItem d tagModality
  let pv ← dsItem d tagPatientID
  let av ← dsItem d tagAccessionNumber
  match d tagStudyDate with
  | none => .ok none
  | some sv =>
      .ok (some (pyStr pv ++ ('_' :: pyStr sv) ++ ('_' :: pyStr mv) ++ ('_' :: pyStr av)))

/-- Destination path of one instance, when `rename_process` reaches the
copy: a study folder was produced and the classification is non-empty.
`none` collects every silent skip: a raised `KeyError` from the folder
name, an absent StudyDate, a classification exception (all caught by the
`except` clauses), and the empty verdict. -/
def renameProcessDest (d : Dataset) (instName : Str) : Option Str :=
  match getStudyFolderName d with
  | .error _ => none
  | .ok none => none
  | .ok (some study) =>
      match renameDicomPath d with
      | .error _ => none
      | .ok series =>
          if 0 < series.length then some (study ++ ('/' :: series) ++ ('/' :: instName))
          else none

/-- File effect of `ConvertManager.rename_process` on the output tree:
when the destination exists the copy is skipped (`pass`), otherwise the
source content is copied there. -/
def renameProcessRun (d : Dataset) (content : ℕ) (instName : Str) (fs : OutFS) : OutFS :=
  match renameProcessDest d instName with
  | none => fs
  | some dest =>
      if (outLookup fs dest).isSome then fs else (dest, content) :: fs

/-! ## Concrete datasets and folders used by the claim theorems -/

/-- Empty dataset: every tag absent. -/
def dsEmpty : Dataset := fun _ => none

/-- S1-style DWI dataset used by the C10 witness. -/
def dsW10 : Dataset := fun t =>
  if t = tagModality then some (.str ("MR".data))
  else if t = tagMRAcquisitionType then some (.str ("2D".data))
  else if t = tagSeriesDescription then some (.str ("Ax DWI".data))
  else if t = tagBValues then some (.nums [0, 5, 7])
  else if t = tagImageOrientation then some (.nums [1, 0, 0, 0, 1, 0])
  else if t = tagImageType then
    some (.strs [("ORIGINAL".data), ("PRIMARY".data), ("OTHER".data)])
  else if t = tagPatientID then some (.str ("P1".data))
  else if t = tagStudyDate then some (.str ("20160722".data))
  else if t = tagAccessionNumber then some (.str ("A1".data))
  else none

/-- Destination of `dsW10`: study folder, `DWI0` series, instance name. -/
def destW10 : Str :=
  ("P1_20160722_MR_A1".data) ++ ('/' :: ("DWI0".data)) ++ ('/' :: ("i1.dcm".data))

/-- Output tree that already holds the destination of `dsW10` with
content 5. -/
def fsW10 : OutFS := [(destW10, 5)]

/-! ## Tag sets for the determinism claim -/

/-- The read-subset of tags enumerated in the external-interface table of
the specification. -/
def spec6Tags : List Tag :=
  [tagImageType, tagInstanceCreationTime, tagStudyDate, tagAccessionNumber,
   tagModality, tagSeriesDescription, tagPatientID, tagContrastAgent,
   tagMRAcquisitionType, tagRepetitionTime, tagEchoTime, tagInversionTime,
   tagPulseSequenceName, tagDtiDirections, tagImageOrientation, tagBValues,
   tagSwanPhase, tagFunctionalProcessingName]

/-- The tags the classification dispatcher actually reads: the table of
the specification plus Conversion Type (0008,0064), consulted by
`ASLProcessingStrategy.get_conversion_type`. -/
def classifyReadTags : List Tag := spec6Tags ++ [tagConversionType]

/-- Agreement of two datasets on a set of tags. -/
def agreeOn (d1 d2 : Dataset) (ts : List Tag) : Prop := ∀ t ∈ ts, d1 t = d2 t

/-- ASL dataset: MR, 3D, description `ASL`, pulse sequence name `ASL`,
Conversion Type absent. -/
def dsC2a : Dataset := fun t =>
  if t = tagModality then some (.str ("MR".data))
  else if t = tagMRAcquisitionType then some (.str ("3D".data))
  else if t = tagSeriesDescription then some (.str ("ASL".data))
  else if t = tagPulseSequenceName then some (.str ("ASL".data))
  else none

/-- The same dataset with Conversion Type (0008,0064) present — a tag
outside the specification's read table. -/
def dsC2b : Dataset := fun t =>
  if t = tagConversionType then some (.str ("WSD".data)) else dsC2a t

/-- The dataset `dsC2a` with an unrelated tag (7FE0,0010), which no part
of the engine reads, added. -/
def dsC2c : Dataset := fun t =>
  if t = ((0x7FE0, 0x10) : Tag) then some (.str ("pixels".data)) else dsC2a t

/-- An MR dataset with no other tags: the acquisition type (0018,0023) and
the series description (0008,103E) are both absent. -/
def dsC3 : Dataset := fun t =>
  if t = tagModality then some (.str ("MR".data)) else none


/-- The orientation classification as the specification words it
(spec-modelled comparison definition): round the six cosines to nearest
integers, take absolute values, argsort by magnitude, and classify the two
dominant indices as an unordered pair: {0,4} is AXI, {0,5} is COR, {1,5}
is SAG, anything else Null. -/
def orientClassifySpec (l : List ℚ) : Attr :=
  let idx := argsortStable ((l.map roundHalfEven).map (fun z => (z.natAbs : ℤ)))
  let dom := idx.drop (idx.length - 2)
  if dom = [0, 4] ∨ dom = [4, 0] then .ornAXI
  else if dom = [0, 5] ∨ dom = [5, 0] then .ornCOR
  else if dom = [1, 5] ∨ dom = [5, 1] then .ornSAG
  else .nullA

/-- Promotion of a base orientation to its reformatted variant, the inner
if-chain of `get_image_orientation`. -/
def promoteReformatted (a : Attr) : Attr :=
  if a = .ornAXI then .ornAXIr
  else if a = .ornSAG then .ornSAGr
  else if a = .ornCOR then .ornCORr
  else a

/-- Axial direction cosines (1,0,0,0,1,0). -/
def qOrientAx : List ℚ := [1, 0, 0, 0, 1, 0]

/-- Dataset with a valid image orientation but no ImageType tag. -/
def dsC5 : Dataset := fun t =>
  if t = tagImageOrientation then some (.nums qOrientAx) else none

/-- Dataset with axial orientation and `ImageType[2] = REFORMATTED`. -/
def dsC5w : Dataset := fun t =>
  if t = tagImageOrientation then some (.nums qOrientAx)
  else if t = tagImageType then
    some (.strs [("DERIVED".data), ("PRIMARY".data), ("REFORMATTED".data)])
  else none


/-- Folder holding two large ADC images (and no DWI files): the multi-ADC
configuration of the ADC normalizer. -/
def fsC6 : FState :=
  { files := [(("ADCa.nii.gz").data, ⟨200000, ⟨[2, 2], [[1]], [1], 0, []⟩⟩),
              (("ADCb.nii.gz").data, ⟨200000, ⟨[2, 2], [[1]], [1], 0, []⟩⟩)],
    failing := [], saveSizes := [] }


/-- Shared DWI/ADC volume (equal affines), a mismatched volume, and a
sidecar dummy. -/
def volA : Vol := ⟨[2, 2], [[1, 0], [0, 1]], [1, 1], 0, [7, 7, 7, 7]⟩

def volB : Vol := ⟨[3, 3], [[2, 0], [0, 2]], [1, 1], 0, []⟩

def volS : Vol := ⟨[0], [], [], 0, []⟩

/-- Folder for the ADC rebinding case: one large DWI-zero file, a
shape-matched ADC `ADCa.nii.gz` with its conventional sidecar `ADCa.bval`,
and a second ADC of a different shape (so the header repair leaves its
affine unmatched and the folder stays in the multi-ADC case). -/
def fsC7 : FState :=
  { files := [(("DWI0.nii.gz").data, ⟨600 * 1024, volA⟩),
              (("ADCa.nii.gz").data, ⟨200 * 1024, volA⟩),
              (("ADCb.nii.gz").data, ⟨200 * 1024, volB⟩),
              (("ADCa.bval").data, ⟨100, volS⟩)],
    failing := [], saveSizes := [200000, 200000] }

/-- Folder state after `post_process_study` on `fsC7`: `ADCa.nii.gz` was
rebound to `ADC.nii.gz`, but its sidecar `ADCa.bval` was not renamed,
because `_handle_related_files` looks for `Path.stem + '.bval'` =
`ADCa.nii.bval`, which never exists for a `.nii.gz` image. -/
def fsC7post : FState :=
  { files := [(("ADCb.nii.gz").data, ⟨204800, volB⟩),
              (("ADCa.bval").data, ⟨100, volS⟩),
              (("DWI0.nii.gz").data, ⟨614400, volA⟩),
              (("ADC.nii.gz").data, ⟨200000, volA⟩)],
    failing := [], saveSizes := [] }


/-- Folder holding a single 50000-byte ADC image (claimed ADC threshold:
100 KiB). -/
def fsC8 : FState :=
  { files := [(("ADCa.nii.gz").data, ⟨50000, volB⟩)], failing := [], saveSizes := [] }

/-- `fsC8` after the pipeline: the small file survives (renamed by the
single-ADC branch). -/
def fsC8post : FState :=
  { files := [(("ADC.nii.gz").data, ⟨50000, volB⟩)], failing := [], saveSizes := [] }

/-- Folder with one undersized DWI image, for the delete-step witness. -/
def fsC8w : FState :=
  { files := [(("DWI0.nii.gz").data, ⟨100, volA⟩)], failing := [], saveSizes := [] }


/-- Folder state with every entry named `n` removed (the effect of a
successful `unlink`). -/
def eraseName (s : FState) (n : FName) : FState :=
  { s with files := s.files.filter (fun e => e.1 ≠ n) }


/-- Folder with two large DWI files and an injected failure of the rename
of the first: the multi-DWI rename raises mid-family. -/
def fsC9 : FState :=
  { files := [(("DWI0a.nii.gz").data, ⟨600 * 1024, volA⟩),
              (("DWI0b.nii.gz").data, ⟨600 * 1024, volB⟩)],
    failing := [(.renameOp, ("DWI0a.nii.gz").data)], saveSizes := [] }


/-- Descending insertion by required-set size (spec-modelled: the claim
orders rules by descending rule-specificity). -/
def insertDesc (p : Attr × List Attr) : List (Attr × List Attr) → List (Attr × List Attr)
  | [] => [p]
  | q :: t => if q.2.length ≤ p.2.length then p :: q :: t else q :: insertDesc p t

/-- Rule list sorted by descending required-set size (spec-modelled). -/
def sortRulesDesc (dict : List (Attr × List Attr)) : List (Attr × List Attr) :=
  dict.foldr insertDesc []

/-- First rule whose required set is a SUBSET of the bag (spec-modelled:
the claim's firing criterion; the code uses equality). -/
def findSubsetRule (dict : List (Attr × List Attr)) (bag : List Attr) : Option Attr :=
  match dict with
  | [] => none
  | (v, req) :: rest => if setSubset req bag then some v else findSubsetRule rest bag

/-- MR 2D dataset with description `T1`, TR 500, TE 20, pulse sequence
`cube`, axial orientation, no contrast: its extracted bag strictly
contains the `T1_AXI` rule set. -/
def dsC1 : Dataset := fun t =>
  if t = tagModality then some (.str ("MR".data))
  else if t = tagMRAcquisitionType then some (.str ("2D".data))
  else if t = tagSeriesDescription then some (.str ("T1".data))
  else if t = tagRepetitionTime then some (.num 500)
  else if t = tagEchoTime then some (.num 20)
  else if t = tagPulseSequenceName then some (.str ("cube".data))
  else if t = tagImageOrientation then some (.nums [1, 0, 0, 0, 1, 0])
  else if t = tagImageType then
    some (.strs [("ORIGINAL".data), ("PRIMARY".data), ("OTHER".data)])
  else none

/-- The attribute bag the T1 strategy extracts from `dsC1`. -/
def bagC1 : List Attr := [.serCUBE, .conNE, .ornAXI, .t1T1]


/-- Multi-DWI folder with a `.bval` sidecar: two large DWI files and the
sidecar `DWI0a.bval` sharing the stem of the first. -/
def fsC6m : FState :=
  { files := [(("DWI0a.nii.gz").data, ⟨600 * 1024, volA⟩),
              (("DWI0b.nii.gz").data, ⟨600 * 1024, volB⟩),
              (("DWI0a.bval").data, ⟨120, volS⟩)],
    failing := [], saveSizes := [] }

/-- `fsC6m` after the pipeline: the multi-file case renamed `a` to `_2`
and `b` to `_3`, and the sidecar followed the renamed stem. -/
def fsC6mpost : FState :=
  { files := [(("DWI0_2.bval").data, ⟨120, volS⟩),
              (("DWI0_2.nii.gz").data, ⟨600 * 1024, volA⟩),
              (("DWI0_3.nii.gz").data, ⟨600 * 1024, volB⟩)],
    failing := [], saveSizes := [] }

/-- Folder with one SWAN file, one T1 file and two T2 files, all large:
the single-file branch applies to SWAN and T1, the multi-file branch to
T2. -/
def fsC6w2 : FState :=
  { files := [(("SWANa.nii.gz").data, ⟨900 * 1024, volA⟩),
              (("T1AXIa.nii.gz").data, ⟨900 * 1024, volA⟩),
              (("T2AXIb.nii.gz").data, ⟨900 * 1024, volA⟩),
              (("T2AXIc.nii.gz").data, ⟨900 * 1024, volB⟩)],
    failing := [], saveSizes := [] }

/-- `fsC6w2` after the pipeline: the single SWAN and T1 files had their
trailing letter stripped, the two T2 files got the numeric suffixes
`ord(b) - 95 = 3` and `ord(c) - 95 = 4` after the kept orientation
token. -/
def fsC6w2post : FState :=
  { files := [(("SWAN.nii.gz").data, ⟨900 * 1024, volA⟩),
              (("T1AXI.nii.gz").data, ⟨900 * 1024, volA⟩),
              (("T2AXI_3.nii.gz").data, ⟨900 * 1024, volA⟩),
              (("T2AXI_4.nii.gz").data, ⟨900 * 1024, volB⟩)],
    failing := [], saveSizes := [] }


/-! # Claims -/

/-! ## C10: the classification phase never overwrites existing outputs -/

/-- Claim C10 (confirmed).  For every instance processed by
`ConvertManager.rename_process`: (i) when the destination path already
exists the filesystem is left completely unchanged; (ii) every
already-existing output file keeps its content, so re-running the phase
over the same input leaves previously produced outputs byte-identical;
(iii) the step is idempotent. -/
theorem renameProcess_never_overwrites (d : Dataset) (content : ℕ) (instName : Str)
    (fs : OutFS) :
    (∀ dest, renameProcessDest d instName = some dest → (outLookup fs dest).isSome →
       renameProcessRun d content instName fs = fs) ∧
    (∀ p, (outLookup fs p).isSome →
       outLookup (renameProcessRun d content instName fs) p = outLookup fs p) ∧
    renameProcessRun d content instName (renameProcessRun d content instName fs) =
      renameProcessRun d content instName fs := by
  refine ⟨?_, ?_, ?_⟩
  · intro dest hdest hsome
    simp only [renameProcessRun, hdest, hsome, if_true]
  · intro p hp
    unfold renameProcessRun
    cases hdest : renameProcessDest d instName with
    | none => rfl
    | some dest =>
        by_cases hex : (outLookup fs dest).isSome
        · simp [hex]
        · simp only [hex, if_false, Bool.false_eq_true]
          unfold outLookup at hp hex ⊢
          simp only [List.find?_cons]
          have hne : dest ≠ p := by
            intro h
            subst h
            rw [Option.isSome_iff_exists] at hp
            obtain ⟨c, hc⟩ := hp
            simp [hc] at hex
          simp [decide_eq_true_eq, hne]
  · unfold renameProcessRun
    cases hdest : renameProcessDest d instName with
    | none => rfl
    | some dest =>
        by_cases hex : (outLookup fs dest).isSome
        · simp [hex]
        · simp only [hex, if_false, Bool.false_eq_true]
          have : (outLookup ((dest, content) :: fs) dest).isSome := by
            simp [outLookup]
          simp [this]

/-- Witness for C10 at a concrete dataset, instance and filesystem: the
destination of the S1-style instance already exists, and the run leaves
the filesystem untouched and idempotent. -/
theorem renameProcess_never_overwrites_witness :
    (renameProcessRun dsW10 7 ("i1.dcm".data) fsW10 = fsW10) ∧
    outLookup (renameProcessRun dsW10 7 ("i1.dcm".data) fsW10) (destW10) = some 5 ∧
    renameProcessRun dsW10 7 ("i1.dcm".data) (renameProcessRun dsW10 7 ("i1.dcm".data) fsW10) =
      renameProcessRun dsW10 7 ("i1.dcm".data) fsW10 := by
  have h := renameProcess_never_overwrites dsW10 7 ("i1.dcm".data) fsW10
  have hdest : renameProcessDest dsW10 ("i1.dcm".data) = some destW10 := by rfl
  have hsome : (outLookup fsW10 destW10).isSome = true := by rfl
  refine ⟨h.1 destW10 hdest hsome, ?_, h.2.2⟩
  rw [h.1 destW10 hdest hsome]
  rfl

/-! ## C2: what the classifier depends on

Congruence lemmas: every component of the classifier yields equal results
on datasets that agree on `classifyReadTags`. -/

theorem dsItem_congr (d1 d2 : Dataset) (t : Tag) (h : d1 t = d2 t) :
    dsItem d1 t = dsItem d2 t := by
  unfold dsItem; rw [h]

theorem modalityProcess_congr (d1 d2 : Dataset) (h : agreeOn d1 d2 classifyReadTags) :
    modalityProcess d1 = modalityProcess d2 := by
  unfold modalityProcess; rw [h tagModality (by decide)]

theorem mrAcqTypeProcess_congr (d1 d2 : Dataset) (h : agreeOn d1 d2 classifyReadTags) :
    mrAcqTypeProcess d1 = mrAcqTypeProcess d2 := by
  unfold mrAcqTypeProcess; rw [h tagMRAcquisitionType (by decide)]

theorem imageOrientationProcess_congr (d1 d2 : Dataset)
    (h : agreeOn d1 d2 classifyReadTags) :
    imageOrientationProcess d1 = imageOrientationProcess d2 := by
  unfold imageOrientationProcess; rw [h tagImageOrientation (by decide)]

theorem contrastProcess_congr (d1 d2 : Dataset) (h : agreeOn d1 d2 classifyReadTags) :
    contrastProcess d1 = contrastProcess d2 := by
  unfold contrastProcess
  rw [h tagSeriesDescription (by decide), h tagContrastAgent (by decide),
    modalityProcess_congr d1 d2 h]

theorem getImageOrientationRef_congr (d1 d2 : Dataset)
    (h : agreeOn d1 d2 classifyReadTags) :
    getImageOrientationRef d1 = getImageOrientationRef d2 := by
  unfold getImageOrientationRef
  rw [h tagImageType (by decide), imageOrientationProcess_congr d1 d2 h]

theorem dwiGetBValues_congr (d1 d2 : Dataset) (h : agreeOn d1 d2 classifyReadTags) :
    dwiGetBValues d1 = dwiGetBValues d2 := by
  unfold dwiGetBValues; rw [h tagBValues (by decide)]

theorem bagify_congr (f : Dataset → PyR Attr) (d1 d2 : Dataset)
    (h : f d1 = f d2) : bagify f d1 = bagify f d2 := by
  unfold bagify; rw [h]

theorem t1GetFlair_congr (d1 d2 : Dataset) (h : agreeOn d1 d2 classifyReadTags) :
    t1GetFlair d1 = t1GetFlair d2 := by
  unfold t1GetFlair
  rw [dsItem_congr d1 d2 tagRepetitionTime (h _ (by decide)),
    dsItem_congr d1 d2 tagEchoTime (h _ (by decide))]

theorem t1GetCube_congr (d1 d2 : Dataset) (h : agreeOn d1 d2 classifyReadTags) :
    t1GetCube d1 = t1GetCube d2 := by
  unfold t1GetCube; rw [h tagPulseSequenceName (by decide)]

theorem t1GetBravo_congr (d1 d2 : Dataset) (h : agreeOn d1 d2 classifyReadTags) :
    t1GetBravo d1 = t1GetBravo d2 := by
  unfold t1GetBravo; rw [h tagPulseSequenceName (by decide)]

theorem t2GetFlair_congr (d1 d2 : Dataset) (h : agreeOn d1 d2 classifyReadTags) :
    t2GetFlair d1 = t2GetFlair d2 := by
  unfold t2GetFlair
  rw [dsItem_congr d1 d2 tagEchoTime (h _ (by decide)), h tagInversionTime (by decide)]

theorem t2GetCube_congr (d1 d2 : Dataset) (h : agreeOn d1 d2 classifyReadTags) :
    t2GetCube d1 = t2GetCube d2 := by
  unfold t2GetCube; rw [h tagPulseSequenceName (by decide)]

theorem swanGetSwan_congr (d1 d2 : Dataset) (h : agreeOn d1 d2 classifyReadTags) :
    swanGetSwan d1 = swanGetSwan d2 := by
  unfold swanGetSwan; rw [h tagPulseSequenceName (by decide)]

theorem swanGetMIP_congr (d1 d2 : Dataset) (h : agreeOn d1 d2 classifyReadTags) :
    swanGetMIP d1 = swanGetMIP d2 := by
  unfold swanGetMIP
  rw [h tagImageType (by decide), h tagInstanceCreationTime (by decide)]

theorem swanGetMag_congr (d1 d2 : Dataset) (h : agreeOn d1 d2 classifyReadTags) :
    swanGetMag d1 = swanGetMag d2 := by
  unfold swanGetMag; rw [h tagSwanPhase (by decide)]

theorem eswanGetEswan_congr (d1 d2 : Dataset) (h : agreeOn d1 d2 classifyReadTags) :
    eswanGetEswan d1 = eswanGetEswan d2 := by
  unfold eswanGetEswan; rw [h tagPulseSequenceName (by decide)]

theorem eswanGetMIP_congr (d1 d2 : Dataset) (h : agreeOn d1 d2 classifyReadTags) :
    eswanGetMIP d1 = eswanGetMIP d2 := by
  unfold eswanGetMIP
  rw [h tagImageType (by decide), h tagInstanceCreationTime (by decide)]

theorem eswanGetOriginal_congr (d1 d2 : Dataset) (h : agreeOn d1 d2 classifyReadTags) :
    eswanGetOriginal d1 = eswanGetOriginal d2 := by
  unfold eswanGetOriginal; rw [h tagImageType (by decide)]

theorem aslGetConversionType_congr (d1 d2 : Dataset)
    (h : agreeOn d1 d2 classifyReadTags) :
    aslGetConversionType d1 = aslGetConversionType d2 := by
  unfold aslGetConversionType; rw [h tagConversionType (by decide)]

theorem aslGetAsl_congr (d1 d2 : Dataset) (h : agreeOn d1 d2 classifyReadTags) :
    aslGetAsl d1 = aslGetAsl d2 := by
  unfold aslGetAsl; rw [h tagPulseSequenceName (by decide)]

theorem aslGetCbf_congr (d1 d2 : Dataset) (h : agreeOn d1 d2 classifyReadTags) :
    aslGetCbf d1 = aslGetCbf d2 := by
  unfold aslGetCbf; rw [h tagFunctionalProcessingName (by decide)]

theorem dscGetFPN_congr (d1 d2 : Dataset) (h : agreeOn d1 d2 classifyReadTags) :
    dscGetFPN d1 = dscGetFPN d2 := by
  unfold dscGetFPN; rw [h tagFunctionalProcessingName (by decide)]

theorem cvrGetRepetitionTime_congr (d1 d2 : Dataset)
    (h : agreeOn d1 d2 classifyReadTags) :
    cvrGetRepetitionTime d1 = cvrGetRepetitionTime d2 := by
  unfold cvrGetRepetitionTime
  rw [dsItem_congr d1 d2 tagRepetitionTime (h _ (by decide))]

theorem cvrGetDescriptionEar_congr (d1 d2 : Dataset)
    (h : agreeOn d1 d2 classifyReadTags) :
    cvrGetDescriptionEar d1 = cvrGetDescriptionEar d2 := by
  unfold cvrGetDescriptionEar; rw [h tagSeriesDescription (by decide)]

theorem cvrGetDescriptionEye_congr (d1 d2 : Dataset)
    (h : agreeOn d1 d2 classifyReadTags) :
    cvrGetDescriptionEye d1 = cvrGetDescriptionEye d2 := by
  unfold cvrGetDescriptionEye; rw [h tagSeriesDescription (by decide)]

theorem restingGetRepetitionTime_congr (d1 d2 : Dataset)
    (h : agreeOn d1 d2 classifyReadTags) :
    restingGetRepetitionTime d1 = restingGetRepetitionTime d2 := by
  unfold restingGetRepetitionTime
  rw [dsItem_congr d1 d2 tagRepetitionTime (h _ (by decide))]

theorem dtiGetDiffusion_congr (d1 d2 : Dataset) (h : agreeOn d1 d2 classifyReadTags) :
    dtiGetDiffusion d1 = dtiGetDiffusion d2 := by
  unfold dtiGetDiffusion; rw [h tagDtiDirections (by decide)]

theorem buildBag_congr (fns : List (Dataset → PyR (List Attr))) (d1 d2 : Dataset)
    (h : ∀ f ∈ fns, f d1 = f d2) (b : List Attr) :
    buildBag fns d1 b = buildBag fns d2 b := by
  induction fns generalizing b with
  | nil => rfl
  | cons f rest ih =>
      unfold buildBag
      rw [h f (List.mem_cons_self f rest)]
      cases f d2 with
      | error e => rfl
      | ok items =>
          exact ih (fun g hg => h g (List.mem_cons_of_mem f hg)) _

theorem typeProcessGo_congr (seed : Attr → List Attr)
    (fns : List (Dataset → PyR (List Attr))) (dict : List (Attr × List Attr))
    (fb : Bool) (d1 d2 : Dataset) (sd : Str)
    (h : ∀ f ∈ fns, f d1 = f d2) (mapping : List (Attr × (Str → Bool))) :
    typeProcessGo seed fns dict fb d1 sd mapping =
      typeProcessGo seed fns dict fb d2 sd mapping := by
  induction mapping with
  | nil => rfl
  | cons kp rest ih =>
      obtain ⟨k, pat⟩ := kp
      unfold typeProcessGo
      by_cases hpat : pat sd
      · simp only [hpat, if_true]
        rw [buildBag_congr fns d1 d2 h (seed k)]
        cases buildBag fns d2 (seed k) with
        | error e => rfl
        | ok bag =>
            show (match findEqRule dict bag with
              | some v => Except.ok v
              | none => if fb then Except.ok (((dict.map Prod.fst).getLast?).getD .nullA)
                  else typeProcessGo seed fns dict fb d1 sd rest)
              = (match findEqRule dict bag with
              | some v => Except.ok v
              | none => if fb then Except.ok (((dict.map Prod.fst).getLast?).getD .nullA)
                  else typeProcessGo seed fns dict fb d2 sd rest)
            cases findEqRule dict bag with
            | some v => rfl
            | none =>
                cases fb
                · exact ih
                · rfl
      · simp only [hpat, if_false]
        exact ih

theorem typeProcessG_congr (seed : Attr → List Attr)
    (fns : List (Dataset → PyR (List Attr))) (mapping : List (Attr × (Str → Bool)))
    (dict : List (Attr × List Attr)) (fb : Bool) (d1 d2 : Dataset)
    (hdesc : d1 tagSeriesDescription = d2 tagSeriesDescription)
    (h : ∀ f ∈ fns, f d1 = f d2) :
    typeProcessG seed fns mapping dict fb d1 = typeProcessG seed fns mapping dict fb d2 := by
  unfold typeProcessG
  rw [hdesc]
  cases d2 tagSeriesDescription with
  | none => rfl
  | some v =>
      cases v with
      | str sd => exact typeProcessGo_congr seed fns dict fb d1 d2 sd h mapping
      | num q => rfl
      | strs l => rfl
      | nums l => rfl

theorem patternOnlyProcess_congr (mapping : List (Attr × (Str → Bool))) (d1 d2 : Dataset)
    (hdesc : d1 tagSeriesDescription = d2 tagSeriesDescription) :
    patternOnlyProcess mapping d1 = patternOnlyProcess mapping d2 := by
  unfold patternOnlyProcess; rw [hdesc]

theorem dwiProcess_congr (d1 d2 : Dataset) (h : agreeOn d1 d2 classifyReadTags) :
    dwiProcess d1 = dwiProcess d2 := by
  unfold dwiProcess
  rw [mrAcqTypeProcess_congr d1 d2 h]
  by_cases ha : mrAcqTypeProcess d2 = .acqT2D
  · simp only [ha, if_true]
    refine typeProcessG_congr _ _ _ _ _ d1 d2 (h _ (by decide)) ?_
    intro f hf
    simp only [dwiFns, List.mem_cons, List.not_mem_nil, or_false] at hf
    rcases hf with h1 | h1 <;> subst h1
    · exact bagify_congr _ d1 d2 (getImageOrientationRef_congr d1 d2 h)
    · exact dwiGetBValues_congr d1 d2 h
  · simp only [ha, if_false]

theorem adcProcess_congr (d1 d2 : Dataset) (h : agreeOn d1 d2 classifyReadTags) :
    adcProcess d1 = adcProcess d2 := by
  unfold adcProcess
  rw [h tagImageType (by decide), h tagInstanceCreationTime (by decide),
    patternOnlyProcess_congr [(.mrsADC, patADC)] d1 d2 (h _ (by decide))]

theorem eadcProcess_congr (d1 d2 : Dataset) (h : agreeOn d1 d2 classifyReadTags) :
    eadcProcess d1 = eadcProcess d2 := by
  unfold eadcProcess
  exact patternOnlyProcess_congr _ d1 d2 (h _ (by decide))

theorem swanProcess_congr (d1 d2 : Dataset) (h : agreeOn d1 d2 classifyReadTags) :
    swanProcess d1 = swanProcess d2 := by
  unfold swanProcess
  refine typeProcessG_congr _ _ _ _ _ d1 d2 (h _ (by decide)) ?_
  intro f hf
  simp only [swanFns, List.mem_cons, List.not_mem_nil, or_false] at hf
  rcases hf with h1 | h1 | h1 <;> subst h1
  · exact swanGetSwan_congr d1 d2 h
  · exact swanGetMIP_congr d1 d2 h
  · exact swanGetMag_congr d1 d2 h

theorem eswanProcess_congr (d1 d2 : Dataset) (h : agreeOn d1 d2 classifyReadTags) :
    eswanProcess d1 = eswanProcess d2 := by
  unfold eswanProcess
  refine typeProcessG_congr _ _ _ _ _ d1 d2 (h _ (by decide)) ?_
  intro f hf
  simp only [eswanFns, List.mem_cons, List.not_mem_nil, or_false] at hf
  rcases hf with h1 | h1 | h1 <;> subst h1
  · exact eswanGetEswan_congr d1 d2 h
  · exact eswanGetMIP_congr d1 d2 h
  · exact eswanGetOriginal_congr d1 d2 h

theorem mraBrainProcess_congr (d1 d2 : Dataset) (h : agreeOn d1 d2 classifyReadTags) :
    mraBrainProcess d1 = mraBrainProcess d2 := by
  unfold mraBrainProcess
  rw [h tagSeriesDescription (by decide), h tagImageType (by decide)]

theorem mraNeckProcess_congr (d1 d2 : Dataset) (h : agreeOn d1 d2 classifyReadTags) :
    mraNeckProcess d1 = mraNeckProcess d2 := by
  unfold mraNeckProcess
  rw [h tagSeriesDescription (by decide), h tagImageType (by decide)]

theorem mravrBrainProcess_congr (d1 d2 : Dataset) (h : agreeOn d1 d2 classifyReadTags) :
    mravrBrainProcess d1 = mravrBrainProcess d2 := by
  unfold mravrBrainProcess
  exact patternOnlyProcess_congr _ d1 d2 (h _ (by decide))

theorem mravrNeckProcess_congr (d1 d2 : Dataset) (h : agreeOn d1 d2 classifyReadTags) :
    mravrNeckProcess d1 = mravrNeckProcess d2 := by
  unfold mravrNeckProcess
  exact patternOnlyProcess_congr _ d1 d2 (h _ (by decide))

theorem t1Fns_congr (d1 d2 : Dataset) (h : agreeOn d1 d2 classifyReadTags) :
    ∀ f ∈ t1Fns, f d1 = f d2 := by
  intro f hf
  simp only [t1Fns, List.mem_cons, List.not_mem_nil, or_false] at hf
  rcases hf with h1 | h1 | h1 | h1 | h1 <;> subst h1
  · exact bagify_congr _ d1 d2 (getImageOrientationRef_congr d1 d2 h)
  · exact bagify_congr _ d1 d2 (contrastProcess_congr d1 d2 h)
  · exact t1GetFlair_congr d1 d2 h
  · exact t1GetCube_congr d1 d2 h
  · exact t1GetBravo_congr d1 d2 h

theorem t1Process_congr (d1 d2 : Dataset) (h : agreeOn d1 d2 classifyReadTags) :
    t1Process d1 = t1Process d2 := by
  unfold t1Process
  rw [mrAcqTypeProcess_congr d1 d2 h]
  by_cases h2 : mrAcqTypeProcess d2 = .acqT2D
  · simp only [h2, if_true]
    exact typeProcessG_congr _ _ _ _ _ d1 d2 (h _ (by decide)) (t1Fns_congr d1 d2 h)
  · simp only [h2, if_false]
    by_cases h3 : mrAcqTypeProcess d2 = .acqT3D
    · simp only [h3, if_true]
      exact typeProcessG_congr _ _ _ _ _ d1 d2 (h _ (by decide)) (t1Fns_congr d1 d2 h)
    · simp only [h3, if_false]

theorem t2Fns_congr (d1 d2 : Dataset) (h : agreeOn d1 d2 classifyReadTags) :
    ∀ f ∈ t2Fns, f d1 = f d2 := by
  intro f hf
  simp only [t2Fns, List.mem_cons, List.not_mem_nil, or_false] at hf
  rcases hf with h1 | h1 | h1 | h1 <;> subst h1
  · exact bagify_congr _ d1 d2 (getImageOrientationRef_congr d1 d2 h)
  · exact bagify_congr _ d1 d2 (contrastProcess_congr d1 d2 h)
  · exact t2GetFlair_congr d1 d2 h
  · exact t2GetCube_congr d1 d2 h

theorem t2Process_congr (d1 d2 : Dataset) (h : agreeOn d1 d2 classifyReadTags) :
    t2Process d1 = t2Process d2 := by
  unfold t2Process
  rw [mrAcqTypeProcess_congr d1 d2 h]
  by_cases h2 : mrAcqTypeProcess d2 = .acqT2D
  · simp only [h2, if_true]
    exact typeProcessG_congr _ _ _ _ _ d1 d2 (h _ (by decide)) (t2Fns_congr d1 d2 h)
  · simp only [h2, if_false]
    by_cases h3 : mrAcqTypeProcess d2 = .acqT3D
    · simp only [h3, if_true]
      exact typeProcessG_congr _ _ _ _ _ d1 d2 (h _ (by decide)) (t2Fns_congr d1 d2 h)
    · simp only [h3, if_false]

theorem aslFns_congr (d1 d2 : Dataset) (h : agreeOn d1 d2 classifyReadTags) :
    ∀ f ∈ aslFns, f d1 = f d2 := by
  intro f hf
  simp only [aslFns, List.mem_cons, List.not_mem_nil, or_false] at hf
  rcases hf with h1 | h1 | h1 <;> subst h1
  · exact aslGetConversionType_congr d1 d2 h
  · exact aslGetAsl_congr d1 d2 h
  · exact aslGetCbf_congr d1 d2 h

theorem aslProcess_congr (d1 d2 : Dataset) (h : agreeOn d1 d2 classifyReadTags) :
    aslProcess d1 = aslProcess d2 := by
  unfold aslProcess
  rw [mrAcqTypeProcess_congr d1 d2 h]
  by_cases h2 : mrAcqTypeProcess d2 = .acqT3D
  · simp only [h2, if_true]
    exact typeProcessG_congr _ _ _ _ _ d1 d2 (h _ (by decide)) (aslFns_congr d1 d2 h)
  · simp only [h2, if_false]
    by_cases h3 : mrAcqTypeProcess d2 = .nullA
    · simp only [h3, if_true]
      exact typeProcessG_congr _ _ _ _ _ d1 d2 (h _ (by decide)) (aslFns_congr d1 d2 h)
    · simp only [h3, if_false]

theorem dscProcess_congr (d1 d2 : Dataset) (h : agreeOn d1 d2 classifyReadTags) :
    dscProcess d1 = dscProcess d2 := by
  unfold dscProcess
  rw [mrAcqTypeProcess_congr d1 d2 h]
  by_cases h2 : mrAcqTypeProcess d2 = .acqT2D
  · simp only [h2, if_true]
    exact patternOnlyProcess_congr _ d1 d2 (h _ (by decide))
  · simp only [h2, if_false]
    by_cases h3 : mrAcqTypeProcess d2 = .nullA
    · simp only [h3, if_true]
      refine typeProcessG_congr _ _ _ _ _ d1 d2 (h _ (by decide)) ?_
      intro f hf
      simp only [dscFns, List.mem_cons, List.not_mem_nil, or_false] at hf
      subst hf
      exact dscGetFPN_congr d1 d2 h
    · simp only [h3, if_false]

theorem cvrProcess_congr (d1 d2 : Dataset) (h : agreeOn d1 d2 classifyReadTags) :
    cvrProcess d1 = cvrProcess d2 := by
  unfold cvrProcess
  refine typeProcessG_congr _ _ _ _ _ d1 d2 (h _ (by decide)) ?_
  intro f hf
  simp only [cvrFns, List.mem_cons, List.not_mem_nil, or_false] at hf
  rcases hf with h1 | h1 | h1 <;> subst h1
  · exact cvrGetRepetitionTime_congr d1 d2 h
  · exact cvrGetDescriptionEar_congr d1 d2 h
  · exact cvrGetDescriptionEye_congr d1 d2 h

theorem restingProcess_congr (d1 d2 : Dataset) (h : agreeOn d1 d2 classifyReadTags) :
    restingProcess d1 = restingProcess d2 := by
  unfold restingProcess
  refine typeProcessG_congr _ _ _ _ _ d1 d2 (h _ (by decide)) ?_
  intro f hf
  simp only [restingFns, List.mem_cons, List.not_mem_nil, or_false] at hf
  subst hf
  exact restingGetRepetitionTime_congr d1 d2 h

theorem dtiProcess_congr (d1 d2 : Dataset) (h : agreeOn d1 d2 classifyReadTags) :
    dtiProcess d1 = dtiProcess d2 := by
  unfold dtiProcess
  rw [mrAcqTypeProcess_congr d1 d2 h]
  by_cases h2 : mrAcqTypeProcess d2 = .acqT2D
  · simp only [h2, if_true]
    refine typeProcessG_congr _ _ _ _ _ d1 d2 (h _ (by decide)) ?_
    intro f hf
    simp only [dtiFns, List.mem_cons, List.not_mem_nil, or_false] at hf
    subst hf
    exact dtiGetDiffusion_congr d1 d2 h
  · simp only [h2, if_false]

theorem acqLoop_congr (d1 d2 : Dataset) (acq : Attr) (p : Dataset → PyR Attr)
    (hp : p d1 = p d2) (l : List Attr) :
    acqLoop d1 acq p l = acqLoop d2 acq p l := by
  induction l with
  | nil => rfl
  | cons a rest ih =>
      unfold acqLoop
      by_cases ha : acq = a
      · simp only [ha, if_true]
        rw [hp]
        cases p d2 with
        | error e => rfl
        | ok r =>
            show (if r ≠ .nullA then Except.ok (some r) else acqLoop d1 a p rest)
              = (if r ≠ .nullA then Except.ok (some r) else acqLoop d2 a p rest)
            by_cases hr : r = Attr.nullA
            · simpa [hr, ha] using ih
            · simp [hr]
      · simp only [ha, if_false]
        exact ih

theorem strategyList_proc_congr (d1 d2 : Dataset) (h : agreeOn d1 d2 classifyReadTags) :
    ∀ s ∈ strategyList, s.proc d1 = s.proc d2 := by
  intro s hs
  simp only [strategyList, List.mem_cons, List.not_mem_nil, or_false] at hs
  rcases hs with h1|h1|h1|h1|h1|h1|h1|h1|h1|h1|h1|h1|h1|h1|h1|h1 <;> subst h1
  · exact dwiProcess_congr d1 d2 h
  · exact adcProcess_congr d1 d2 h
  · exact eadcProcess_congr d1 d2 h
  · exact swanProcess_congr d1 d2 h
  · exact eswanProcess_congr d1 d2 h
  · exact mraBrainProcess_congr d1 d2 h
  · exact mraNeckProcess_congr d1 d2 h
  · exact mravrBrainProcess_congr d1 d2 h
  · exact mravrNeckProcess_congr d1 d2 h
  · exact t1Process_congr d1 d2 h
  · exact t2Process_congr d1 d2 h
  · exact aslProcess_congr d1 d2 h
  · exact dscProcess_congr d1 d2 h
  · exact restingProcess_congr d1 d2 h
  · exact cvrProcess_congr d1 d2 h
  · exact dtiProcess_congr d1 d2 h

theorem dispatchLoop_congr (d1 d2 : Dataset) (m acq : Attr) (L : List StrategySpec)
    (hL : ∀ s ∈ L, s.proc d1 = s.proc d2) :
    dispatchLoop d1 m acq L = dispatchLoop d2 m acq L := by
  induction L with
  | nil => rfl
  | cons s rest ih =>
      unfold dispatchLoop
      by_cases hm : m = s.modality
      · simp only [hm, if_true]
        rw [acqLoop_congr d1 d2 acq s.proc (hL s (List.mem_cons_self s rest)) s.acqTypes]
        cases acqLoop d2 acq s.proc s.acqTypes with
        | error e => rfl
        | ok r =>
            cases r with
            | some v => rfl
            | none =>
                show dispatchLoop d1 s.modality acq rest = dispatchLoop d2 s.modality acq rest
                rw [← hm]
                exact ih (fun t ht => hL t (List.mem_cons_of_mem s ht))
      · simp only [hm, if_false]
        exact ih (fun t ht => hL t (List.mem_cons_of_mem s ht))

/-! ## C2: classification determinism over the read tag set -/

/-- Claim C2 (corrected), counterexample to the stated tag table.  The
datasets `dsC2a` and `dsC2b` agree on every tag of the specification's
external-interface table (`spec6Tags`) and differ only in Conversion Type
(0008,0064), yet classify differently: without the tag the verdict is
`ASLPROD`, with it the dispatcher returns the empty string, because
`ASLProcessingStrategy.get_conversion_type` reads (0008,0064). -/
theorem classify_reads_conversion_type :
    agreeOn dsC2a dsC2b spec6Tags
      ∧ renameDicomPath dsC2a = .ok ("ASLPROD".data)
      ∧ renameDicomPath dsC2b = .ok [] := by
  refine ⟨by unfold agreeOn; decide, ?_, ?_⟩ <;> rfl

/-- Claim C2 (amended).  Classification is a deterministic function of the
specification's tag table EXTENDED with Conversion Type (0008,0064): two
datasets agreeing on `classifyReadTags` receive the same verdict. -/
theorem classify_deterministic_on_read_tags (d1 d2 : Dataset)
    (h : agreeOn d1 d2 classifyReadTags) :
    renameDicomPath d1 = renameDicomPath d2 := by
  unfold renameDicomPath
  rw [modalityProcess_congr d1 d2 h, mrAcqTypeProcess_congr d1 d2 h]
  exact dispatchLoop_congr d1 d2 _ _ strategyList (strategyList_proc_congr d1 d2 h)

/-- Witness for C2: `dsC2c` adds pixel data (7FE0,0010), a tag outside the
read set, to `dsC2a`; the amended theorem applies and both classify alike. -/
theorem classify_deterministic_on_read_tags_witness :
    agreeOn dsC2a dsC2c classifyReadTags
      ∧ renameDicomPath dsC2a = renameDicomPath dsC2c :=
  ⟨by unfold agreeOn; decide,
    classify_deterministic_on_read_tags dsC2a dsC2c (by unfold agreeOn; decide)⟩

/-! ## C3: strategies entered for a dataset with no acquisition type -/

theorem mem_bagInsert (b : List Attr) (a x : Attr) (hx : x ∈ b) : x ∈ bagInsert b a := by
  unfold bagInsert
  split
  · exact hx
  · exact List.mem_cons_of_mem a hx

theorem mem_bagInsertAll (b l : List Attr) (x : Attr) (hx : x ∈ b) :
    x ∈ bagInsertAll b l := by
  induction l generalizing b with
  | nil => exact hx
  | cons a rest ih => exact ih (bagInsert b a) (mem_bagInsert b a x hx)

theorem buildBag_total_mem (fns : List (Dataset → PyR (List Attr))) (d : Dataset)
    (hf : ∀ f ∈ fns, ∃ l, f d = .ok l) :
    ∀ b, ∃ bag, buildBag fns d b = .ok bag ∧ ∀ x ∈ b, x ∈ bag := by
  induction fns with
  | nil => exact fun b => ⟨b, rfl, fun x hx => hx⟩
  | cons f rest ih =>
      intro b
      obtain ⟨l, hl⟩ := hf f (List.mem_cons_self f rest)
      obtain ⟨bag, hbag, hmem⟩ :=
        ih (fun g hg => hf g (List.mem_cons_of_mem f hg)) (bagInsertAll b l)
      refine ⟨bag, ?_, fun x hx => hmem x (mem_bagInsertAll b l x hx)⟩
      show (do
        let items ← f d
        buildBag rest d (bagInsertAll b items)) = .ok bag
      rw [hl]
      exact hbag

theorem aslFns_total (d : Dataset) : ∀ f ∈ aslFns, ∃ l, f d = .ok l := by
  intro f hf
  simp only [aslFns, List.mem_cons, List.not_mem_nil, or_false] at hf
  rcases hf with h1 | h1 | h1 <;> subst h1
  · unfold aslGetConversionType
    cases d tagConversionType <;> exact ⟨_, rfl⟩
  · unfold aslGetAsl
    cases d tagPulseSequenceName with
    | none => exact ⟨_, rfl⟩
    | some v =>
        show ∃ l, (if lowerStr (pyStr v) = ("asl".data) then Except.ok [Attr.aslASL]
          else Except.ok ([] : List Attr)) = .ok l
        split
        · exact ⟨_, rfl⟩
        · exact ⟨_, rfl⟩
  · unfold aslGetCbf
    cases d tagFunctionalProcessingName with
    | none => exact ⟨_, rfl⟩
    | some v =>
        show ∃ l, (if lowerStr (pyStr v) = ("cbf".data) then Except.ok [Attr.aslCBF]
          else Except.ok ([] : List Attr)) = .ok l
        split
        · exact ⟨_, rfl⟩
        · exact ⟨_, rfl⟩

theorem mem_of_setEqv (a b : List Attr) (h : setEqv a b = true) : ∀ x ∈ a, x ∈ b := by
  unfold setEqv at h
  rw [Bool.and_eq_true] at h
  intro x hx
  exact of_decide_eq_true (List.all_eq_true.mp h.1 x hx)

theorem findEqRule_aslNull_none (bag : List Attr)
    (hm : Attr.aslASLPRODCBF_COLOR ∈ bag) : findEqRule aslDictNull bag = none := by
  show (if setEqv bag [.aslASLPRODCBF, .aslASL, .aslCBF, .aslCOLOR] then
      some Attr.aslASLPRODCBF_COLOR else findEqRule [] bag) = none
  rw [if_neg]
  · rfl
  · intro hq
    have := mem_of_setEqv _ _ (of_decide_eq_true (decide_eq_true hq)) _ hm
    simp only [List.mem_cons, List.not_mem_nil, or_false] at this
    rcases this with h1 | h1 | h1 | h1 <;> exact absurd h1 (by decide)

theorem acqLoop_skip (d : Dataset) (acq : Attr) (p : Dataset → PyR Attr)
    (ts : List Attr) (hn : acq ∉ ts) : acqLoop d acq p ts = .ok none := by
  induction ts with
  | nil => rfl
  | cons a rest ih =>
      unfold acqLoop
      rw [if_neg (fun hq => hn (by rw [hq]; exact List.mem_cons_self a rest))]
      exact ih (fun hr => hn (List.mem_cons_of_mem a hr))

theorem aslProcess_null_acq (d : Dataset) (h : mrAcqTypeProcess d = .nullA) :
    (∃ e, aslProcess d = .error e) ∨ aslProcess d = .ok .nullA := by
  unfold aslProcess
  rw [if_neg (by rw [h]; decide), if_pos h]
  unfold typeProcessG
  cases d tagSeriesDescription with
  | none => exact Or.inl ⟨.attrErr, rfl⟩
  | some v =>
      cases v with
      | str sd =>
          show (∃ e, (if patASLPRODCBFColor sd then (do
                  let bag ← buildBag aslFns d [Attr.aslASLPRODCBF_COLOR]
                  match findEqRule aslDictNull bag with
                  | some v => Except.ok v
                  | none => Except.ok Attr.nullA)
                else Except.ok Attr.nullA) = Except.error e)
            ∨ (if patASLPRODCBFColor sd then (do
                  let bag ← buildBag aslFns d [Attr.aslASLPRODCBF_COLOR]
                  match findEqRule aslDictNull bag with
                  | some v => Except.ok v
                  | none => Except.ok Attr.nullA)
                else Except.ok Attr.nullA) = Except.ok Attr.nullA
          obtain ⟨bag, hbag, hmem⟩ := buildBag_total_mem aslFns d (aslFns_total d)
            [.aslASLPRODCBF_COLOR]
          have step : (do
              let bag2 ← buildBag aslFns d [Attr.aslASLPRODCBF_COLOR]
              match findEqRule aslDictNull bag2 with
              | some v => Except.ok v
              | none => Except.ok Attr.nullA) = Except.ok Attr.nullA := by
            rw [hbag]
            show (match findEqRule aslDictNull bag with
              | some v => Except.ok v
              | none => Except.ok Attr.nullA) = Except.ok Attr.nullA
            rw [findEqRule_aslNull_none bag (hmem _ (List.mem_cons_self _ _))]
          refine Or.inr ?_
          split
          · exact step
          · rfl
      | num q => exact Or.inl ⟨.typeErr, rfl⟩
      | strs l => exact Or.inl ⟨.typeErr, rfl⟩
      | nums l => exact Or.inl ⟨.typeErr, rfl⟩

/-- Claim C3 (corrected), counterexample.  The registered strategy at index
11 is the ASL strategy, and its `mr_acquisition_type` tuple is
`(TYPE_3D, NULL)`: it accepts Null, contrary to the claim that only ADC,
eADC and DSC do.  On the MR dataset `dsC3` with no acquisition type the ASL
strategy does not skip: it runs and raises `AttributeError` on the absent
series description. -/
theorem asl_strategy_accepts_null :
    (strategyList.map (fun s => s.acqTypes.contains Attr.nullA))
        = [false, true, true, false, false, false, false, false, false, false,
           false, true, true, false, false, false]
      ∧ strategyList.get? 11 = some ⟨.modMR, [.acqT3D, .nullA], aslProcess⟩
      ∧ mrAcqTypeProcess dsC3 = .nullA
      ∧ aslProcess dsC3 = .error .attrErr :=
  ⟨rfl, rfl, rfl, rfl⟩

/-- Claim C3 (amended).  For every MR dataset whose MRAcquisitionType tag
(0018,0023) is absent: the strategies whose acquisition tuple contains Null
are exactly ADC, eADC, ASL and DSC (registry indices 1, 2, 11, 12); every
strategy whose tuple lacks Null skips the dataset (its acquisition loop
returns no verdict without invoking the strategy); and the ASL strategy,
although invoked, never yields a verdict on such a dataset — it raises or
returns Null — so verdicts can only come from ADC, eADC and DSC. -/
theorem null_acq_dispatch (d : Dataset) (h : mrAcqTypeProcess d = .nullA) :
    ((strategyList.map (fun s => s.acqTypes.contains Attr.nullA))
        = [false, true, true, false, false, false, false, false, false, false,
           false, true, true, false, false, false])
      ∧ (∀ s ∈ strategyList, Attr.nullA ∉ s.acqTypes →
          acqLoop d (mrAcqTypeProcess d) s.proc s.acqTypes = .ok none)
      ∧ ((∃ e, aslProcess d = .error e) ∨ aslProcess d = .ok .nullA) := by
  refine ⟨rfl, ?_, aslProcess_null_acq d h⟩
  intro s _ hn
  rw [h]
  exact acqLoop_skip d .nullA s.proc s.acqTypes hn

/-- Witness for the amended C3 at the concrete dataset `dsC3`. -/
theorem null_acq_dispatch_witness :
    mrAcqTypeProcess dsC3 = .nullA
      ∧ ((∃ e, aslProcess dsC3 = .error e) ∨ aslProcess dsC3 = .ok .nullA) :=
  ⟨rfl, (null_acq_dispatch dsC3 rfl).2.2⟩

/-! ## C4: extractor behavior on missing input -/

/-- Claim C4 (corrected), counterexample.  Three extractors throw on the
empty dataset: `ContrastProcessingStrategy.process` dereferences the
absent series description (`AttributeError`), `T1ProcessingStrategy.
get_flair` reads TR with `ds[tag]` (`KeyError`), and
`get_image_orientation` subscripts the absent ImageType (`TypeError`). -/
theorem extractors_can_throw :
    contrastProcess dsEmpty = .error .attrErr
      ∧ t1GetFlair dsEmpty = .error .keyErr
      ∧ getImageOrientationRef dsEmpty = .error .typeErr :=
  ⟨rfl, rfl, rfl⟩

/-- Claim C4 (amended).  On missing input the extractors split in two
groups.  The pattern-style extractors honour the contract and return the
Null variant (the empty bag contribution) when their tag is absent; but
`get_flair` (T1 and T2), `get_repetition_time` (CVR and Resting) raise
`KeyError` on an absent TR/TE, `ContrastProcessingStrategy.process` raises
`AttributeError` on an absent series description, and
`get_image_orientation` raises `TypeError` on an absent ImageType. -/
theorem extractor_missing_input (d : Dataset) :
    (d tagSeriesDescription = none → contrastProcess d = .error .attrErr)
      ∧ (d tagRepetitionTime = none → t1GetFlair d = .error .keyErr)
      ∧ (d tagEchoTime = none → t2GetFlair d = .error .keyErr)
      ∧ (d tagRepetitionTime = none → cvrGetRepetitionTime d = .error .keyErr)
      ∧ (d tagRepetitionTime = none → restingGetRepetitionTime d = .error .keyErr)
      ∧ (d tagImageOrientation = none → d tagImageType = none →
          getImageOrientationRef d = .error .typeErr)
      ∧ (d tagPulseSequenceName = none →
          t1GetCube d = .ok [] ∧ t1GetBravo d = .ok [] ∧ t2GetCube d = .ok []
            ∧ swanGetSwan d = .ok [] ∧ eswanGetEswan d = .ok []
            ∧ aslGetAsl d = .ok [])
      ∧ (d tagConversionType = none → aslGetConversionType d = .ok [])
      ∧ (d tagFunctionalProcessingName = none →
          aslGetCbf d = .ok [] ∧ dscGetFPN d = .ok [])
      ∧ (d tagImageType = none →
          swanGetMIP d = .ok [] ∧ eswanGetMIP d = .ok []
            ∧ eswanGetOriginal d = .ok [])
      ∧ (d tagSeriesDescription = none →
          cvrGetDescriptionEar d = .ok [] ∧ cvrGetDescriptionEye d = .ok [])
      ∧ (d tagDtiDirections = none → dtiGetDiffusion d = .ok [])
      ∧ (d tagBValues = none → dwiGetBValues d = .ok []) := by
  refine ⟨?_, ?_, ?_, ?_, ?_, ?_, ?_, ?_, ?_, ?_, ?_, ?_, ?_⟩
  · intro h; unfold contrastProcess; rw [h]
  · intro h; unfold t1GetFlair dsItem; rw [h]; rfl
  · intro h; unfold t2GetFlair dsItem; rw [h]; rfl
  · intro h; unfold cvrGetRepetitionTime dsItem; rw [h]; rfl
  · intro h; unfold restingGetRepetitionTime dsItem; rw [h]; rfl
  · intro h1 h2
    unfold getImageOrientationRef imageOrientationProcess
    rw [h1, h2]
    rfl
  · intro h
    unfold t1GetCube t1GetBravo t2GetCube swanGetSwan eswanGetEswan aslGetAsl
    rw [h]
    exact ⟨rfl, rfl, rfl, rfl, rfl, rfl⟩
  · intro h; unfold aslGetConversionType; rw [h]
  · intro h
    unfold aslGetCbf dscGetFPN
    rw [h]
    exact ⟨rfl, rfl⟩
  · intro h
    unfold swanGetMIP eswanGetMIP eswanGetOriginal
    rw [h]
    exact ⟨rfl, rfl, rfl⟩
  · intro h
    unfold cvrGetDescriptionEar cvrGetDescriptionEye
    rw [h]
    exact ⟨rfl, rfl⟩
  · intro h; unfold dtiGetDiffusion; rw [h]
  · intro h; unfold dwiGetBValues; rw [h]

/-- Witness for the amended C4 at the empty dataset: one thrower and one
Null-returning extractor, both read off the theorem. -/
theorem extractor_missing_input_witness :
    t2GetFlair dsEmpty = .error .keyErr ∧ dtiGetDiffusion dsEmpty = .ok [] :=
  ⟨(extractor_missing_input dsEmpty).2.2.1 rfl,
    (extractor_missing_input dsEmpty).2.2.2.2.2.2.2.2.2.2.2.1 rfl⟩

/-! ## C5: the orientation extractor -/

theorem insertAsc_length (p : ℤ × ℕ) (t : List (ℤ × ℕ)) :
    (insertAsc p t).length = t.length + 1 := by
  induction t with
  | nil => rfl
  | cons q r ih =>
      unfold insertAsc
      split
      · rfl
      · simp only [List.length_cons, ih]

theorem foldr_insertAsc_length (ps : List (ℤ × ℕ)) :
    (ps.foldr insertAsc []).length = ps.length := by
  induction ps with
  | nil => rfl
  | cons p r ih => simp only [List.foldr_cons, insertAsc_length, ih, List.length_cons]

theorem argsortStable_length (l : List ℤ) : (argsortStable l).length = l.length := by
  unfold argsortStable
  rw [List.length_map, foldr_insertAsc_length, List.length_zip, List.length_range]
  exact Nat.min_self _

/-- Claim C5 (corrected), counterexample.  A dataset with a valid
orientation (0020,0037) but no ImageType: the extractor does not classify
and promote-or-not — it raises `TypeError`, because `get_image_orientation`
subscripts `ImageType` without a presence check. -/
theorem orientation_missing_imagetype :
    dsC5 tagImageOrientation = some (.nums qOrientAx)
      ∧ getImageOrientationRef dsC5 = .error .typeErr :=
  ⟨rfl, rfl⟩

/-- Claim C5 (amended).  For a dataset whose (0020,0037) holds six numeric
cosines AND whose ImageType is present with a readable element [2]: the
base extractor returns exactly the specification's classification
(`orientClassifySpec`), and the result is promoted to its reformatted
variant iff `ImageType[2]` equals the literal `REFORMATTED`. -/
theorem orientation_classification (d : Dataset) (l : List ℚ)
    (hl : d tagImageOrientation = some (.nums l)) (h6 : l.length = 6)
    (itv : DVal) (hit : d tagImageType = some itv) (e : DVal)
    (he : dvIndex itv 2 = .ok e) :
    imageOrientationProcess d = .ok (orientClassifySpec l)
      ∧ getImageOrientationRef d
          = .ok (if dvEqStr e ("REFORMATTED".data)
              then promoteReformatted (orientClassifySpec l)
              else orientClassifySpec l) := by
  have hbase : imageOrientationProcess d = .ok (orientClassifySpec l) := by
    unfold imageOrientationProcess
    rw [hl]
    show (do
        let mx ← listAt (argsortStable
          ((l.map roundHalfEven).map (fun (z : ℤ) => (z.natAbs : ℤ)))) (-1)
        let snd ← listAt (argsortStable
          ((l.map roundHalfEven).map (fun (z : ℤ) => (z.natAbs : ℤ)))) (-2)
        if (mx = 0 ∧ snd = 5) ∨ (mx = 5 ∧ snd = 0) then Except.ok Attr.ornCOR
        else if (mx = 1 ∧ snd = 5) ∨ (mx = 5 ∧ snd = 1) then Except.ok Attr.ornSAG
        else if (mx = 0 ∧ snd = 4) ∨ (mx = 4 ∧ snd = 0) then Except.ok Attr.ornAXI
        else Except.ok Attr.nullA)
      = .ok (orientClassifySpec l)
    unfold orientClassifySpec
    have hlen : (argsortStable
        ((l.map roundHalfEven).map (fun (z : ℤ) => (z.natAbs : ℤ)))).length = 6 := by
      rw [argsortStable_length, List.length_map, List.length_map, h6]
    generalize (argsortStable
      ((l.map roundHalfEven).map (fun (z : ℤ) => (z.natAbs : ℤ)))) = idx at hlen ⊢
    rcases idx with _ | ⟨x0, _ | ⟨x1, _ | ⟨x2, _ | ⟨x3, _ | ⟨x4, _ | ⟨x5, _ | ⟨x6, rest⟩⟩⟩⟩⟩⟩⟩ <;>
      simp only [List.length_cons, List.length_nil] at hlen <;>
      try omega
    show (if (x5 = 0 ∧ x4 = 5) ∨ (x5 = 5 ∧ x4 = 0) then Except.ok Attr.ornCOR
          else if (x5 = 1 ∧ x4 = 5) ∨ (x5 = 5 ∧ x4 = 1) then Except.ok Attr.ornSAG
          else if (x5 = 0 ∧ x4 = 4) ∨ (x5 = 4 ∧ x4 = 0) then Except.ok Attr.ornAXI
          else Except.ok Attr.nullA)
        = Except.ok
          (if [x4, x5] = [0, 4] ∨ [x4, x5] = [4, 0] then Attr.ornAXI
          else if [x4, x5] = [0, 5] ∨ [x4, x5] = [5, 0] then Attr.ornCOR
          else if [x4, x5] = [1, 5] ∨ [x4, x5] = [5, 1] then Attr.ornSAG
          else Attr.nullA)
    simp only [List.cons.injEq, and_true]
    split_ifs <;> first | rfl | (exfalso; omega)
  refine ⟨hbase, ?_⟩
  unfold getImageOrientationRef
  rw [hbase]
  show (match d tagImageType with
    | none => Except.error PyErr.typeErr
    | some itv => do
        let e ← dvIndex itv 2
        if dvEqStr e ("REFORMATTED".data) then
          if orientClassifySpec l = .ornAXI then Except.ok Attr.ornAXIr
          else if orientClassifySpec l = .ornSAG then Except.ok Attr.ornSAGr
          else if orientClassifySpec l = .ornCOR then Except.ok Attr.ornCORr
          else Except.ok (orientClassifySpec l)
        else Except.ok (orientClassifySpec l))
    = Except.ok (if dvEqStr e ("REFORMATTED".data)
        then promoteReformatted (orientClassifySpec l)
        else orientClassifySpec l)
  rw [hit]
  show (do
      let e2 ← dvIndex itv 2
      if dvEqStr e2 ("REFORMATTED".data) then
        if orientClassifySpec l = .ornAXI then Except.ok Attr.ornAXIr
        else if orientClassifySpec l = .ornSAG then Except.ok Attr.ornSAGr
        else if orientClassifySpec l = .ornCOR then Except.ok Attr.ornCORr
        else Except.ok (orientClassifySpec l)
      else Except.ok (orientClassifySpec l))
    = Except.ok (if dvEqStr e ("REFORMATTED".data)
        then promoteReformatted (orientClassifySpec l)
        else orientClassifySpec l)
  rw [he]
  show (if dvEqStr e ("REFORMATTED".data) then
      if orientClassifySpec l = .ornAXI then Except.ok Attr.ornAXIr
      else if orientClassifySpec l = .ornSAG then Except.ok Attr.ornSAGr
      else if orientClassifySpec l = .ornCOR then Except.ok Attr.ornCORr
      else Except.ok (orientClassifySpec l)
    else Except.ok (orientClassifySpec l))
    = Except.ok (if dvEqStr e ("REFORMATTED".data)
        then promoteReformatted (orientClassifySpec l)
        else orientClassifySpec l)
  unfold promoteReformatted
  split_ifs <;> rfl

/-- Witness for the amended C5 on the axial dataset `dsC5w`. -/
theorem orientation_classification_witness :
    imageOrientationProcess dsC5w = .ok (orientClassifySpec qOrientAx)
      ∧ getImageOrientationRef dsC5w
          = .ok (if dvEqStr (.str ("REFORMATTED".data)) ("REFORMATTED".data)
              then promoteReformatted (orientClassifySpec qOrientAx)
              else orientClassifySpec qOrientAx) :=
  orientation_classification dsC5w qOrientAx rfl rfl
    (.strs [("DERIVED".data), ("PRIMARY".data), ("REFORMATTED".data)]) rfl
    (.str ("REFORMATTED".data)) rfl

/-! ## C6: the per-family rename step -/

/-- Evaluation of a monadic bind at a state where the first step
succeeds. -/
theorem nmBind_ok (m : NM α) (f : α → NM β) (s s1 : FState) (a : α)
    (h : m s = .ok a s1) : (m >>= f) s = f a s1 := by
  show NM.bind m f s = f a s1
  unfold NM.bind
  rw [h]

/-- Evaluation of a monadic bind at a state where the first step raises. -/
theorem nmBind_err (m : NM α) (f : α → NM β) (s s1 : FState) (e : NErr)
    (h : m s = .err e s1) : (m >>= f) s = .err e s1 := by
  show NM.bind m f s = .err e s1
  unfold NM.bind
  rw [h]

theorem trailingLowerRun_append_single (base : Str) (c : Char)
    (hc : isLowerAlpha c = true) (hb : trailingLowerRun base = []) :
    trailingLowerRun (base ++ [c]) = [c] := by
  unfold trailingLowerRun at *
  have hb2 : base.reverse.takeWhile isLowerAlpha = [] :=
    List.reverse_eq_nil_iff.mp hb
  rw [List.reverse_append]
  show ((c :: base.reverse).takeWhile isLowerAlpha).reverse = [c]
  rw [List.takeWhile_cons_of_pos hc, hb2]
  rfl

theorem dwiSuffixSplit_shape (base : Str) (c : Char)
    (hB : startsWithStr base ("DWI".data) = true)
    (hRun : trailingLowerRun base = []) (hc : isLowerAlpha c = true) :
    dwiSuffixSplit (base ++ [c] ++ (".nii.gz".data)) = some (base, [c]) := by
  have hends : endsWithStr (base ++ [c] ++ (".nii.gz".data)) (".nii.gz".data) = true := by
    unfold endsWithStr
    rw [List.isSuffixOf_iff_suffix]
    exact List.suffix_append (base ++ [c]) _
  have hlen : (base ++ [c] ++ (".nii.gz".data)).length - 7 = (base ++ [c]).length := by
    simp [List.length_append]
  have htake : (base ++ [c] ++ (".nii.gz".data)).take
      ((base ++ [c] ++ (".nii.gz".data)).length - 7) = base ++ [c] := by
    rw [hlen]
    exact List.take_left _ _
  have hrun2 : trailingLowerRun (base ++ [c]) = [c] :=
    trailingLowerRun_append_single base c hc hRun
  have htake2 : (base ++ [c]).take ((base ++ [c]).length - 1) = base := by
    have : (base ++ [c]).length - 1 = base.length := by simp
    rw [this]
    exact List.take_left _ _
  unfold dwiSuffixSplit
  rw [hends, if_pos rfl, htake]
  simp only [hrun2, List.length_singleton, htake2]
  split
  · rfl
  · rename_i hcond
    exact absurd ⟨hB, by simp⟩ hcond

theorem adcRenameGo_no_dwi (s : FState) (adcs : List FName)
    (h : ∀ a ∈ adcs, opOk .loadOp a s = true ∧ (fsLookup s a).isSome = true) :
    adcRenameGo false [] adcs s = .ok () s := by
  induction adcs with
  | nil => rfl
  | cons a rest ih =>
      obtain ⟨hop, hsome⟩ := h a (List.mem_cons_self a rest)
      obtain ⟨f, hf⟩ := Option.isSome_iff_exists.mp hsome
      have hfe : fileExists a s = .ok true s := by
        unfold fileExists
        rw [hf]
        rfl
      have hload : loadNii a s = .ok f.vol s := by
        unfold loadNii
        rw [hop, if_pos rfl, hf]
      have hpair : pairAdcWithDwi a [] s = .ok () s := by
        unfold pairAdcWithDwi
        rw [nmBind_ok _ _ s s f.vol hload]
        rfl
      show (do
          let e ← fileExists a
          if e then do
            pairAdcWithDwi a []
            adcRenameGo false [] rest
          else adcRenameGo false [] rest) s = .ok () s
      rw [nmBind_ok _ _ s s true hfe]
      show (do
          pairAdcWithDwi a []
          adcRenameGo false [] rest) s = .ok () s
      rw [nmBind_ok _ _ s s () hpair]
      exact ih (fun x hx => h x (List.mem_cons_of_mem a hx))

/-- Claim C6 (corrected), counterexample.  The ADC normalizer does not
follow the per-family suffix scheme: on a folder holding exactly two large
ADC images (and no DWI files) the whole post-processing pipeline returns
with the folder unchanged — the claim predicts renames to `ADC_2.nii.gz`
and `ADC_3.nii.gz`. -/
theorem adc_multi_no_suffix_rename :
    adcOwned (("ADCa.nii.gz").data) = true
      ∧ adcOwned (("ADCb.nii.gz").data) = true
      ∧ postProcessStudy fsC6 = .ok () fsC6 :=
  ⟨rfl, rfl, rfl⟩

/-! ## C7: the ADC rebinding step and its sidecars -/

/-- Claim C7 (code bug).  On `fsC7` the multi-ADC rebinding works as
claimed for the image file — `ADCa.nii.gz` is deleted and the rounded
volume is saved as `ADC.nii.gz` (`DWI0` replaced by `ADC` in the matched
DWI name), and the shape-mismatched `ADCb.nii.gz` is left untouched — but
the claimed `.bval` sidecar rename never happens: `ADCa.bval` survives
untouched and no `ADC.bval` exists, because `_handle_related_files`
computes the old sidecar name from `Path.stem` of `ADCa.nii.gz`, which is
`ADCa.nii`, and so looks for the nonexistent `ADCa.nii.bval`. -/
theorem adc_sidecar_rename_misses :
    postProcessStudy fsC7 = .ok () fsC7post
      ∧ fsLookup fsC7post (("ADC.nii.gz").data) = some ⟨200000, volA⟩
      ∧ fsLookup fsC7post (("ADCa.nii.gz").data) = none
      ∧ fsLookup fsC7post (("ADCa.bval").data) = some ⟨100, volS⟩
      ∧ fsLookup fsC7post (("ADC.bval").data) = none
      ∧ fsLookup fsC7post (("ADCb.nii.gz").data) = some ⟨204800, volB⟩ :=
  ⟨rfl, rfl, rfl, rfl, rfl, rfl⟩

/-! ## C8: the size thresholds -/

theorem find?_filter_ne (l : List (FName × FileRec)) (n m : FName) (hm : m ≠ n) :
    (l.filter (fun e => e.1 ≠ n)).find? (fun e => e.1 = m)
      = l.find? (fun e => e.1 = m) := by
  induction l with
  | nil => rfl
  | cons e t ih =>
      by_cases h1 : e.1 = n
      · rw [List.filter_cons]
        have hpe : decide (e.1 ≠ n) = true → False := by simp [h1]
        rw [if_neg (by exact fun hh => hpe hh)]
        rw [List.find?_cons]
        have hnm : decide (e.1 = m) = false := by
          simp only [decide_eq_false_iff_not]
          exact fun hh => hm ((hh.symm.trans h1))
        rw [hnm]
        exact ih
      · rw [List.filter_cons]
        have hpe : decide (e.1 ≠ n) = true := by simp [h1]
        rw [hpe, if_pos rfl, List.find?_cons, List.find?_cons]
        by_cases h2 : e.1 = m
        · rw [decide_eq_true h2]
        · rw [decide_eq_false h2]
          exact ih

theorem fsLookup_erase (s : FState) (n m : FName) (hm : m ≠ n) :
    fsLookup { s with files := s.files.filter (fun e => e.1 ≠ n) } m = fsLookup s m := by
  unfold fsLookup
  rw [find?_filter_ne s.files n m hm]

theorem fsLookup_erase_self (s : FState) (n : FName) :
    fsLookup { s with files := s.files.filter (fun e => e.1 ≠ n) } n = none := by
  unfold fsLookup
  rw [List.find?_eq_none.mpr]
  · rfl
  · intro e he
    have := (List.mem_filter.mp he).2
    simp only [decide_eq_true_eq] at this ⊢
    exact this

theorem mem_of_fsLookup (s : FState) (n : FName) (f : FileRec)
    (h : fsLookup s n = some f) : (n, f) ∈ s.files := by
  unfold fsLookup at h
  obtain ⟨e, he, hmap⟩ := Option.map_eq_some.mp h  -- wait name; fix below
  have hmem := List.mem_of_find?_eq_some he
  have hpred := List.find?_some he
  simp only [decide_eq_true_eq] at hpred
  cases e with
  | mk a b =>
      cases hpred
      cases hmap
      exact hmem

theorem fsLookup_isSome_of_mem_names (s : FState) (n : FName)
    (h : n ∈ s.files.map Prod.fst) : (fsLookup s n).isSome = true := by
  obtain ⟨e, he, hfst⟩ := List.mem_map.mp h
  have hs : (s.files.find? (fun e => e.1 = n)).isSome = true :=
    List.find?_isSome.mpr ⟨e, he, by simp [hfst]⟩
  obtain ⟨x, hx⟩ := Option.isSome_iff_exists.mp hs
  unfold fsLookup
  rw [hx]
  rfl

theorem find?_of_mem_nodup (l : List (FName × FileRec))
    (hnd : (l.map Prod.fst).Nodup) (n : FName) (f : FileRec)
    (h : (n, f) ∈ l) : l.find? (fun e => e.1 = n) = some (n, f) := by
  induction l with
  | nil => cases h
  | cons e t ih =>
      rw [List.find?_cons]
      rcases List.mem_cons.mp h with h1 | h1
      · subst h1
        rw [decide_eq_true rfl]
      · have hne : e.1 ≠ n := by
          intro hq
          have hmem : n ∈ t.map Prod.fst := List.mem_map.mpr ⟨(n, f), h1, rfl⟩
          rw [List.map_cons, hq] at hnd
          exact (List.nodup_cons.mp hnd).1 hmem
        rw [decide_eq_false hne]
        rw [List.map_cons] at hnd
        exact ih (List.nodup_cons.mp hnd).2 h1

theorem fsLookup_of_mem (s : FState) (hnd : (s.files.map Prod.fst).Nodup)
    (n : FName) (f : FileRec) (h : (n, f) ∈ s.files) : fsLookup s n = some f := by
  unfold fsLookup
  rw [find?_of_mem_nodup s.files hnd n f h]
  rfl

theorem statSize_ok (s : FState) (n : FName) (f : FileRec)
    (hfail : s.failing = []) (hf : fsLookup s n = some f) :
    statSize n s = .ok f.size s := by
  unfold statSize opOk
  rw [hfail]
  rw [if_pos (by simp), hf]

theorem unlinkFile_eval (s : FState) (n : FName) (f : FileRec)
    (hfail : s.failing = []) (hf : fsLookup s n = some f) :
    unlinkFile n s = .ok () { s with files := s.files.filter (fun e => e.1 ≠ n) } := by
  unfold unlinkFile opOk
  rw [hfail]
  rw [if_pos (by simp), hf]

theorem nodup_names_filter (l : List (FName × FileRec)) (p : FName × FileRec → Bool)
    (h : (l.map Prod.fst).Nodup) : ((l.filter p).map Prod.fst).Nodup :=
  List.Nodup.sublist (List.Sublist.map Prod.fst (List.filter_sublist l)) h

theorem filter_ne_eq_self_of_absent (s : FState) (J : FName)
    (h : (fsLookup s J).isSome = false) :
    s.files.filter (fun e => e.1 ≠ J) = s.files := by
  apply List.filter_eq_self.mpr
  intro e he
  simp only [decide_eq_true_eq]
  intro hq
  have : (s.files.find? (fun e => e.1 = J)).isSome = true :=
    List.find?_isSome.mpr ⟨e, he, by simp [hq]⟩
  unfold fsLookup at h
  rw [Option.isSome_map'] at h
  rw [this] at h
  cases h

theorem fsLookup_eraseName (s : FState) (n m : FName) (hm : m ≠ n) :
    fsLookup (eraseName s n) m = fsLookup s m :=
  fsLookup_erase s n m hm

theorem fsLookup_eraseName_self (s : FState) (n : FName) :
    fsLookup (eraseName s n) n = none :=
  fsLookup_erase_self s n

theorem mem_eraseName (s : FState) (n : FName) (e : FName × FileRec)
    (h : e ∈ (eraseName s n).files) : e ∈ s.files :=
  List.mem_of_mem_filter h

theorem eraseName_nodup (s : FState) (n : FName)
    (h : (s.files.map Prod.fst).Nodup) :
    ((eraseName s n).files.map Prod.fst).Nodup :=
  nodup_names_filter _ _ h

/-- One `if exists: unlink` statement of `delete_small_files`, in the
join-point shape the `do` block elaborates to. -/
theorem unlinkIfExists_jp (J : FName) (s : FState) (hfail : s.failing = [])
    (K : Unit → NM Unit) :
    (fileExists J >>= fun je =>
      if je then unlinkFile J >>= fun y => K y else pure () >>= fun y => K y) s
      = K () (eraseName s J) := by
  by_cases hje : (fsLookup s J).isSome = true
  · obtain ⟨fj, hfj⟩ := Option.isSome_iff_exists.mp hje
    rw [nmBind_ok _ _ s s true (by unfold fileExists; rw [hfj]; rfl)]
    show (unlinkFile J >>= fun y => K y) s = _
    rw [nmBind_ok _ _ s _ () (unlinkFile_eval s J fj hfail hfj)]
    rfl
  · have hje2 : (fsLookup s J).isSome = false := by simpa using hje
    rw [nmBind_ok _ _ s s false (by unfold fileExists; rw [hje2])]
    show K () s = _
    unfold eraseName
    rw [filter_ne_eq_self_of_absent s J hje2]

theorem deleteSmallGo_spec (limit : ℕ) (L : List FName) :
    ∀ s : FState, s.failing = [] → (s.files.map Prod.fst).Nodup →
    (∀ n ∈ L, (fsLookup s n).isSome = true) →
    (∀ n ∈ L, nameReplace (".nii.gz".data) (".json".data) n ∉ L) →
    L.Nodup →
    ∃ s2, deleteSmallGo limit L s = .ok () s2
      ∧ (∀ e, e ∈ s2.files → e ∈ s.files)
      ∧ (∀ n f, (n, f) ∈ s2.files → n ∈ L → limit ≤ f.size) := by
  induction L with
  | nil =>
      intro s h1 h2 h3 h4 h5
      exact ⟨s, rfl, fun e he => he,
        fun n f _ hn => absurd hn (List.not_mem_nil n)⟩
  | cons a rest ih =>
      intro s hfail hnd hsome hjson hnodup
      obtain ⟨f, hf⟩ := Option.isSome_iff_exists.mp (hsome a (List.mem_cons_self a rest))
      have hstat := statSize_ok s a f hfail hf
      have hrest_json : ∀ n ∈ rest,
          nameReplace (".nii.gz".data) (".json".data) n ∉ rest :=
        fun n hn hmem =>
          hjson n (List.mem_cons_of_mem a hn) (List.mem_cons_of_mem a hmem)
      have hrest_nodup : rest.Nodup := (List.nodup_cons.mp hnodup).2
      by_cases hsz : f.size < limit
      · have hrun : deleteSmallGo limit (a :: rest) s
            = deleteSmallGo limit rest
              (eraseName (eraseName s
                (nameReplace (".nii.gz".data) (".json".data) a)) a) := by
          show (statSize a >>= fun sz =>
            if sz < limit then
              (fileExists (nameReplace (".nii.gz".data) (".json".data) a) >>= fun je =>
                if je then
                  unlinkFile (nameReplace (".nii.gz".data) (".json".data) a) >>= fun y =>
                    (fileExists a >>= fun ne2 =>
                      if ne2 then unlinkFile a >>= fun y2 => deleteSmallGo limit rest
                      else pure () >>= fun y2 => deleteSmallGo limit rest)
                else
                  pure () >>= fun y =>
                    (fileExists a >>= fun ne2 =>
                      if ne2 then unlinkFile a >>= fun y2 => deleteSmallGo limit rest
                      else pure () >>= fun y2 => deleteSmallGo limit rest))
            else deleteSmallGo limit rest) s = _
          rw [nmBind_ok _ _ s s f.size hstat]
          rw [if_pos hsz]
          rw [unlinkIfExists_jp
            (nameReplace (".nii.gz".data) (".json".data) a) s hfail _]
          rw [unlinkIfExists_jp a
            (eraseName s (nameReplace (".nii.gz".data) (".json".data) a)) hfail _]
        have hlookA : ∀ n ∈ rest, fsLookup
            (eraseName (eraseName s
              (nameReplace (".nii.gz".data) (".json".data) a)) a) n
            = fsLookup s n := by
          intro n hn
          have hna : n ≠ a :=
            fun hq => (List.nodup_cons.mp hnodup).1 (hq ▸ hn)
          have hnj : n ≠ nameReplace (".nii.gz".data) (".json".data) a := by
            intro hq
            exact hjson a (List.mem_cons_self a rest)
              (by rw [← hq]; exact List.mem_cons_of_mem a hn)
          rw [fsLookup_eraseName _ a n hna, fsLookup_eraseName s _ n hnj]
        obtain ⟨s2, h2run, h2sub, h2size⟩ := ih
          (eraseName (eraseName s
            (nameReplace (".nii.gz".data) (".json".data) a)) a)
          hfail (eraseName_nodup _ a (eraseName_nodup _ _ hnd))
          (fun n hn => (hlookA n hn) ▸ hsome n (List.mem_cons_of_mem a hn))
          hrest_json hrest_nodup
        refine ⟨s2, hrun.trans h2run,
          fun e he => mem_eraseName _ _ e (mem_eraseName _ a e (h2sub e he)), ?_⟩
        intro n g hmem hn
        rcases List.mem_cons.mp hn with h1 | h1
        · subst h1
          have hmemA := h2sub _ hmem
          have hlkA : fsLookup
              (eraseName (eraseName s
                (nameReplace (".nii.gz".data) (".json".data) n)) n) n = some g :=
            fsLookup_of_mem _ (eraseName_nodup _ n (eraseName_nodup _ _ hnd)) n g hmemA
          rw [fsLookup_eraseName_self _ n] at hlkA
          cases hlkA
        · exact h2size n g hmem h1
      · have hrun : deleteSmallGo limit (a :: rest) s = deleteSmallGo limit rest s := by
          show (statSize a >>= fun sz =>
            if sz < limit then
              (fileExists (nameReplace (".nii.gz".data) (".json".data) a) >>= fun je =>
                if je then
                  unlinkFile (nameReplace (".nii.gz".data) (".json".data) a) >>= fun y =>
                    (fileExists a >>= fun ne2 =>
                      if ne2 then unlinkFile a >>= fun y2 => deleteSmallGo limit rest
                      else pure () >>= fun y2 => deleteSmallGo limit rest)
                else
                  pure () >>= fun y =>
                    (fileExists a >>= fun ne2 =>
                      if ne2 then unlinkFile a >>= fun y2 => deleteSmallGo limit rest
                      else pure () >>= fun y2 => deleteSmallGo limit rest))
            else deleteSmallGo limit rest) s = _
          rw [nmBind_ok _ _ s s f.size hstat]
          rw [if_neg hsz]
        obtain ⟨s2, h2run, h2sub, h2size⟩ := ih s hfail hnd
          (fun n hn => hsome n (List.mem_cons_of_mem a hn))
          hrest_json hrest_nodup
        refine ⟨s2, hrun.trans h2run, h2sub, ?_⟩
        intro n g hmem hn
        rcases List.mem_cons.mp hn with h1 | h1
        · subst h1
          have hg : fsLookup s n = some g := fsLookup_of_mem s hnd n g (h2sub _ hmem)
          rw [hf] at hg
          cases hg
          omega
        · exact h2size n g hmem h1

/-- Claim C8 (corrected), counterexample.  The ADC normalizer never
deletes by size: a 50000-byte ADC image (claimed threshold 100 KiB =
102400 bytes) survives the whole pipeline, merely renamed by the
single-ADC branch. -/
theorem small_adc_survives :
    postProcessStudy fsC8 = .ok () fsC8post
      ∧ adcOwned (("ADC.nii.gz").data) = true
      ∧ fsLookup fsC8post (("ADC.nii.gz").data) = some ⟨50000, volB⟩
      ∧ 50000 < 100 * 1024 :=
  ⟨rfl, rfl, rfl, by decide⟩

/-- Claim C8 (amended).  `delete_small_files` — the step every family
except ADC runs first, with limits DWI 550 KiB and SWAN/T1/T2 800 KiB —
enforces the claim for its own family: on a folder with no injected
failures, duplicate-free names, and owned names whose `.json` companions
are not themselves owned, it succeeds, only ever removes files, and
afterwards every remaining owned file has at least the limit in bytes.
The ADC family runs no such step, and its claimed 100 KiB threshold is
not enforced anywhere. -/
theorem delete_small_enforces_thresholds (owned : FName → Bool) (limit : ℕ)
    (s : FState) (hfail : s.failing = []) (hnd : (s.files.map Prod.fst).Nodup)
    (hjson : ∀ n ∈ (s.files.map Prod.fst).filter owned,
        nameReplace (".nii.gz".data) (".json".data) n
          ∉ (s.files.map Prod.fst).filter owned) :
    ∃ s2, deleteSmallFiles owned limit s = .ok () s2
      ∧ (∀ e, e ∈ s2.files → e ∈ s.files)
      ∧ (∀ n f, (n, f) ∈ s2.files → owned n = true → limit ≤ f.size) := by
  have hsome : ∀ n ∈ (s.files.map Prod.fst).filter owned,
      (fsLookup s n).isSome = true :=
    fun n hn => fsLookup_isSome_of_mem_names s n (List.mem_of_mem_filter hn)
  have hnodupL : ((s.files.map Prod.fst).filter owned).Nodup := hnd.filter _
  obtain ⟨s2, hrun, hsub, hsize⟩ := deleteSmallGo_spec limit
    ((s.files.map Prod.fst).filter owned) s hfail hnd hsome hjson hnodupL
  refine ⟨s2, ?_, hsub, ?_⟩
  · show (listDir >>= fun names =>
      deleteSmallGo limit (names.filter owned)) s = .ok () s2
    have hld : listDir s = .ok (s.files.map Prod.fst) s := rfl
    rw [nmBind_ok _ _ s s (s.files.map Prod.fst) hld]
    exact hrun
  · intro n f hmem hown
    apply hsize n f hmem
    apply List.mem_filter.mpr
    exact ⟨List.mem_map.mpr ⟨(n, f), hsub _ hmem, rfl⟩, hown⟩

/-- Witness for the amended C8: one undersized DWI file, the DWI limit. -/
theorem delete_small_enforces_thresholds_witness :
    ∃ s2, deleteSmallFiles dwiOwned (550 * 1024) fsC8w = .ok () s2
      ∧ (∀ e, e ∈ s2.files → e ∈ fsC8w.files)
      ∧ (∀ n f, (n, f) ∈ s2.files → dwiOwned n = true → 550 * 1024 ≤ f.size) :=
  delete_small_enforces_thresholds dwiOwned (550 * 1024) fsC8w rfl
    (by decide) (by decide)

/-! ## C9: failure isolation -/

/-- Claim C9 (corrected), counterexample.  An injected rename failure on
`DWI0a.nii.gz` makes the whole study raise `ProcessingError`: neither DWI
file is renamed (the sibling `DWI0b.nii.gz` is never processed), and a
second study queued after this one is not processed either. -/
theorem rename_failure_blocks_siblings :
    postProcessStudy fsC9 = .err .processingError fsC9
      ∧ fsLookup fsC9 (("DWI0_2.nii.gz").data) = none
      ∧ fsLookup fsC9 (("DWI0_3.nii.gz").data) = none
      ∧ fsLookup fsC9 (("DWI0b.nii.gz").data) = some ⟨600 * 1024, volB⟩
      ∧ runStudies [fsC9, fsC6] = .aborted [fsC9, fsC6] :=
  ⟨rfl, rfl, rfl, rfl, rfl⟩

/-- Claim C9 (amended).  The normalizers do NOT isolate per-file
exceptions; failures propagate at every level: (i) a raising strategy
aborts the remaining strategies of the study; (ii) a raising study aborts
the remaining studies of the run; (iii) every strategy-level exception is
re-raised as `ProcessingError`; (iv) within a family rename loop, a
failing rename aborts the loop before the sibling files are processed. -/
theorem failure_propagation :
    (∀ (m : NM Unit) (rest : List (NM Unit)) (s s1 : FState) (e : NErr),
        m s = .err e s1 → runStrategiesGo (m :: rest) s = .err e s1)
      ∧ (∀ (st : FState) (rest : List FState) (e : NErr) (s1 : FState),
          postProcessStudy st = .err e s1 →
          runStudies (st :: rest) = .aborted (s1 :: rest))
      ∧ (∀ (α : Type) (m : NM α) (s s1 : FState) (e : NErr),
          m s = .err e s1 → wrapProcErr m s = .err .processingError s1)
      ∧ (∀ (single : FName → Option FName) (multi : FName → PyR (Option FName))
          (isSingle : Bool) (n : FName) (rest : List FName) (s s1 : FState)
          (nf : FName) (e : NErr),
          fileExists n s = .ok true s →
          (if isSingle then pure (single n) else liftPyR (multi n)) s
            = .ok (some nf) s →
          renameRelatedFiles n nf s = .ok () s1 →
          renameFsFile n nf s1 = .err e s1 →
          renameFamilyGo single multi isSingle (n :: rest) s = .err e s1) := by
  refine ⟨?_, ?_, ?_, ?_⟩
  · intro m rest s s1 e h
    show (m >>= fun _ => runStrategiesGo rest) s = .err e s1
    exact nmBind_err _ _ s s1 e h
  · intro st rest e s1 h
    unfold runStudies
    rw [h]
  · intro α m s s1 e h
    unfold wrapProcErr
    rw [h]
  · intro single multi isSingle n rest s s1 nf e hex hopt hrel hrn
    show (fileExists n >>= fun e2 =>
      if e2 then
        ((if isSingle then pure (single n) else liftPyR (multi n)) >>= fun newOpt =>
          match newOpt with
          | some nf2 =>
              renameRelatedFiles n nf2 >>= fun _ =>
                renameFsFile n nf2 >>= fun _ =>
                  renameFamilyGo single multi isSingle rest
          | none => renameFamilyGo single multi isSingle rest)
      else renameFamilyGo single multi isSingle rest) s = .err e s1
    rw [nmBind_ok _ _ s s true hex]
    show ((if isSingle then pure (single n) else liftPyR (multi n)) >>= fun newOpt =>
      match newOpt with
      | some nf2 =>
          renameRelatedFiles n nf2 >>= fun _ =>
            renameFsFile n nf2 >>= fun _ =>
              renameFamilyGo single multi isSingle rest
      | none => renameFamilyGo single multi isSingle rest) s = .err e s1
    rw [nmBind_ok _ _ s s (some nf) hopt]
    show (renameRelatedFiles n nf >>= fun _ =>
      renameFsFile n nf >>= fun _ =>
        renameFamilyGo single multi isSingle rest) s = .err e s1
    rw [nmBind_ok _ _ s s1 () hrel]
    exact nmBind_err _ _ s1 s1 e hrn

/-- Witness for the amended C9: the failing study `fsC9` aborts the run,
leaving the queued study untouched. -/
theorem failure_propagation_witness :
    runStudies (fsC9 :: [fsC6]) = .aborted (fsC9 :: [fsC6]) :=
  failure_propagation.2.1 fsC9 [fsC6] .processingError fsC9 rfl

/-! ## C1: how a rename rule fires -/

/-- Claim C1 (corrected), counterexample.  On `dsC1` the T1 strategy
builds the bag `{CUBE, NE, AXI, T1}`.  Under the claim's procedure
(descending size, subset fires) the rule `T1_AXI` — whose required set
`{T1, AXI, NE}` is a strict subset of the bag — would fire; the code
compares with `==`, no rule set equals the bag, and the strategy returns
Null, so the dataset classifies to the empty verdict. -/
theorem rules_fire_on_equality_not_subset :
    modalityProcess dsC1 = .modMR
      ∧ mrAcqTypeProcess dsC1 = .acqT2D
      ∧ buildBag t1Fns dsC1 [.t1T1] = .ok bagC1
      ∧ findSubsetRule (sortRulesDesc t1Dict2D) bagC1 = some .t1T1_AXI
      ∧ findEqRule t1Dict2D bagC1 = none
      ∧ t1Process dsC1 = .ok .nullA
      ∧ renameDicomPath dsC1 = .ok [] :=
  ⟨rfl, rfl, rfl, rfl, rfl, rfl, rfl⟩

/-- Claim C1 (amended).  (i) For the DWI strategy (whose bag is the same
for every matching pattern), a matching description makes the verdict
exactly the first rule of the dict — in insertion order, not sorted by
size — whose required set EQUALS the extracted bag, with Null (not the
bare family) as the fallback.  (ii) Equality is stronger than the claim's
criterion: whenever the code fires a rule, that rule's required set is in
particular a subset of the bag (and conversely the bag a subset of it). -/
theorem type_process_fires_on_equality :
    (∀ (d : Dataset) (sd : Str) (B : List Attr),
        d tagSeriesDescription = some (.str sd) →
        mrAcqTypeProcess d = .acqT2D →
        patDWI sd = true →
        buildBag dwiFns d [.mrsDWI] = .ok B →
        dwiProcess d = .ok ((findEqRule dwiDict2D B).getD .nullA))
      ∧ (∀ (dict : List (Attr × List Attr)) (B : List Attr) (v : Attr),
          findEqRule dict B = some v →
          ∃ req, (v, req) ∈ dict ∧ setSubset req B = true
            ∧ setSubset B req = true) := by
  constructor
  · intro d sd B hsd hacq hpat hB
    unfold dwiProcess
    rw [if_pos hacq]
    unfold typeProcessG
    rw [hsd]
    show (if patDWI sd = true then (do
        let bag ← buildBag dwiFns d [.mrsDWI]
        match findEqRule dwiDict2D bag with
        | some v => Except.ok v
        | none =>
            if false then
              Except.ok (((dwiDict2D.map Prod.fst).getLast?).getD .nullA)
            else typeProcessGo (fun _ => [.mrsDWI]) dwiFns dwiDict2D false d sd [])
      else Except.ok Attr.nullA)
      = Except.ok ((findEqRule dwiDict2D B).getD .nullA)
    rw [if_pos hpat]
    show (do
        let bag ← buildBag dwiFns d [.mrsDWI]
        match findEqRule dwiDict2D bag with
        | some v => Except.ok v
        | none =>
            if false then
              Except.ok (((dwiDict2D.map Prod.fst).getLast?).getD .nullA)
            else typeProcessGo (fun _ => [.mrsDWI]) dwiFns dwiDict2D false d sd [])
      = Except.ok ((findEqRule dwiDict2D B).getD .nullA)
    rw [hB]
    show (match findEqRule dwiDict2D B with
      | some v => Except.ok v
      | none =>
          if false then
            Except.ok (((dwiDict2D.map Prod.fst).getLast?).getD .nullA)
          else typeProcessGo (fun _ => [.mrsDWI]) dwiFns dwiDict2D false d sd [])
      = Except.ok ((findEqRule dwiDict2D B).getD .nullA)
    cases findEqRule dwiDict2D B with
    | some v => rfl
    | none => rfl
  · intro dict B v h
    induction dict with
    | nil => cases h
    | cons p rest ih =>
        obtain ⟨v2, req⟩ := p
        rw [show findEqRule ((v2, req) :: rest) B
          = (if setEqv B req then some v2 else findEqRule rest B) from rfl] at h
        by_cases hq : setEqv B req = true
        · rw [if_pos hq] at h
          cases h
          unfold setEqv at hq
          rw [Bool.and_eq_true] at hq
          obtain ⟨hs1, hs2⟩ := hq
          exact ⟨req, List.mem_cons_self _ _, hs2, hs1⟩
        · rw [if_neg hq] at h
          obtain ⟨req2, hmem, hsub1, hsub2⟩ := ih h
          exact ⟨req2, List.mem_cons_of_mem _ hmem, hsub1, hsub2⟩

/-- Witness for the amended C1 at the S1-style DWI dataset. -/
theorem type_process_fires_on_equality_witness :
    dwiProcess dsW10 = .ok ((findEqRule dwiDict2D
        [.mrsB_VALUES_0, .ornAXI, .mrsDWI]).getD .nullA)
      ∧ ∃ req, (Attr.mrsDWI0, req) ∈ dwiDict2D
          ∧ setSubset req [.mrsB_VALUES_0, .ornAXI, .mrsDWI] = true
          ∧ setSubset [.mrsB_VALUES_0, .ornAXI, .mrsDWI] req = true :=
  ⟨type_process_fires_on_equality.1 dsW10 ("Ax DWI".data)
      [.mrsB_VALUES_0, .ornAXI, .mrsDWI] rfl rfl rfl rfl,
    type_process_fires_on_equality.2 dwiDict2D
      [.mrsB_VALUES_0, .ornAXI, .mrsDWI] Attr.mrsDWI0 rfl⟩

/-! ## C6 continued: the SWAN, T1/T2 maps, sidecars and dispatch -/

theorem ciSuffixSplit_shape (stem g : Str) (c : Char)
    (hlg : lowerStr g = lowerStr stem) (hc : isAsciiAlpha c = true) :
    ciSuffixSplit stem (g ++ [c] ++ (".nii.gz".data)) = some (g, [c]) := by
  have hglen : g.length = stem.length := by
    have hl := congrArg List.length hlg
    simpa [lowerStr] using hl
  have hnlen : (g ++ [c] ++ (".nii.gz".data)).length = stem.length + 8 := by
    simp [List.length_append, hglen]
  have htake : (g ++ [c] ++ (".nii.gz".data)).take stem.length = g := by
    rw [List.append_assoc]
    exact List.take_left' hglen
  have hdropk : (g ++ [c] ++ (".nii.gz".data)).drop stem.length
      = [c] ++ (".nii.gz".data) := by
    rw [List.append_assoc]
    exact List.drop_left' hglen
  have hmidlen : (g ++ [c] ++ (".nii.gz".data)).length - stem.length - 7 = 1 := by
    rw [hnlen]
    omega
  have htail : (g ++ [c] ++ (".nii.gz".data)).drop
      ((g ++ [c] ++ (".nii.gz".data)).length - 7) = (".nii.gz".data) := by
    have h1 : (g ++ [c] ++ (".nii.gz".data)).length - 7 = (g ++ [c]).length := by
      rw [hnlen]
      simp [List.length_append, hglen]
    rw [h1]
    exact List.drop_left _ _
  show (if stem.length + 7 ≤ (g ++ [c] ++ (".nii.gz".data)).length
        ∧ (g ++ [c] ++ (".nii.gz".data)).length ≤ stem.length + 9 then
      if lowerStr ((g ++ [c] ++ (".nii.gz".data)).take stem.length) = lowerStr stem
          ∧ (((g ++ [c] ++ (".nii.gz".data)).drop stem.length).take
              ((g ++ [c] ++ (".nii.gz".data)).length - stem.length - 7)).all isAsciiAlpha
          ∧ lowerStr ((g ++ [c] ++ (".nii.gz".data)).drop
              ((g ++ [c] ++ (".nii.gz".data)).length - 7)) = (".nii.gz".data) then
        some ((g ++ [c] ++ (".nii.gz".data)).take stem.length,
          ((g ++ [c] ++ (".nii.gz".data)).drop stem.length).take
            ((g ++ [c] ++ (".nii.gz".data)).length - stem.length - 7))
      else none
    else none) = some (g, [c])
  rw [if_pos (by rw [hnlen]; omega : stem.length + 7 ≤ _ ∧ _ ≤ stem.length + 9)]
  rw [htake, hdropk, hmidlen]
  rw [if_pos ⟨hlg, by simp [hc], by rw [htail]; rfl⟩]
  rfl

theorem wSuffixSplit_shape (w base tok : Str) (c : Char)
    (htok : tok = ("AXI".data) ∨ tok = ("COR".data) ∨ tok = ("SAG".data))
    (hW : startsWithStr (base ++ tok ++ [c]) w = true)
    (hb2 : 2 ≤ base.length)
    (h3 : orientTokenAt (base ++ tok ++ [c]) (base.length + 1) = none)
    (h4 : orientTokenAt (base ++ tok ++ [c]) base.length = some tok)
    (hcr : c ≠ 'r') (hc : isLowerAlpha c = true) :
    wSuffixSplit w (base ++ tok ++ [c] ++ (".nii.gz".data))
      = some (base, tok, [c]) := by
  have htoklen : tok.length = 3 := by
    rcases htok with h | h | h <;> subst h <;> rfl
  have hnblen : (base ++ tok ++ [c]).length = base.length + 4 := by
    simp [List.length_append, htoklen]
  have hnlen : (base ++ tok ++ [c] ++ (".nii.gz".data)).length = base.length + 11 := by
    simp [List.length_append, htoklen]
  have htake7 : (base ++ tok ++ [c] ++ (".nii.gz".data)).take
      ((base ++ tok ++ [c] ++ (".nii.gz".data)).length - 7) = base ++ tok ++ [c] := by
    rw [hnlen]
    rw [show base.length + 11 - 7 = (base ++ tok ++ [c]).length from by rw [hnblen]; omega]
    exact List.take_left _ _
  have hends : endsWithStr (base ++ tok ++ [c] ++ (".nii.gz".data))
      (".nii.gz".data) = true := by
    unfold endsWithStr
    rw [List.isSuffixOf_iff_suffix]
    exact List.suffix_append _ _
  have e3 : (base ++ tok ++ [c]).length - 3 = base.length + 1 := by rw [hnblen]; omega
  have e4 : (base ++ tok ++ [c]).length - 4 = base.length := by rw [hnblen]; omega
  have hdrop1 : (base ++ tok ++ [c]).drop ((base ++ tok ++ [c]).length - 1) = [c] := by
    rw [show (base ++ tok ++ [c]).length - 1 = (base ++ tok).length from by
      rw [hnblen]; simp only [List.length_append, htoklen]; omega]
    exact List.drop_left _ _
  have htake4 : (base ++ tok ++ [c]).take base.length = base := by
    rw [List.append_assoc]
    exact List.take_left' rfl
  unfold wSuffixSplit
  rw [hends, if_pos rfl, htake7]
  show (if startsWithStr (base ++ tok ++ [c]) w = true then
      if 2 + 3 ≤ (base ++ tok ++ [c]).length
          ∧ (orientTokenAt (base ++ tok ++ [c])
              ((base ++ tok ++ [c]).length - 3)).isSome then
        (orientTokenAt (base ++ tok ++ [c]) ((base ++ tok ++ [c]).length - 3)).map
          (fun tok2 => ((base ++ tok ++ [c]).take ((base ++ tok ++ [c]).length - 3),
            tok2, []))
      else if 2 + 4 ≤ (base ++ tok ++ [c]).length
          ∧ (orientTokenAt (base ++ tok ++ [c])
              ((base ++ tok ++ [c]).length - 4)).isSome then
        match orientTokenAt (base ++ tok ++ [c]) ((base ++ tok ++ [c]).length - 4),
            (base ++ tok ++ [c]).drop ((base ++ tok ++ [c]).length - 1) with
        | some tok2, [c2] =>
            if c2 = 'r' then
              some ((base ++ tok ++ [c]).take ((base ++ tok ++ [c]).length - 4),
                tok2 ++ ['r'], [])
            else if isLowerAlpha c2 then
              some ((base ++ tok ++ [c]).take ((base ++ tok ++ [c]).length - 4),
                tok2, [c2])
            else
              if 2 + 5 ≤ (base ++ tok ++ [c]).length
                  ∧ (orientTokenAt (base ++ tok ++ [c])
                      ((base ++ tok ++ [c]).length - 5)).isSome then
                match orientTokenAt (base ++ tok ++ [c])
                    ((base ++ tok ++ [c]).length - 5),
                    (base ++ tok ++ [c]).drop ((base ++ tok ++ [c]).length - 2) with
                | some tok5, [r, c5] =>
                    if r = 'r' ∧ isLowerAlpha c5 then
                      some ((base ++ tok ++ [c]).take
                        ((base ++ tok ++ [c]).length - 5), tok5 ++ ['r'], [c5])
                    else none
                | _, _ => none
              else none
        | _, _ => none
      else if 2 + 5 ≤ (base ++ tok ++ [c]).length
          ∧ (orientTokenAt (base ++ tok ++ [c])
              ((base ++ tok ++ [c]).length - 5)).isSome then
        match orientTokenAt (base ++ tok ++ [c]) ((base ++ tok ++ [c]).length - 5),
            (base ++ tok ++ [c]).drop ((base ++ tok ++ [c]).length - 2) with
        | some tok2, [r, c2] =>
            if r = 'r' ∧ isLowerAlpha c2 then
              some ((base ++ tok ++ [c]).take ((base ++ tok ++ [c]).length - 5),
                tok2 ++ ['r'], [c2])
            else none
        | _, _ => none
      else none
    else none) = some (base, tok, [c])
  rw [if_pos hW]
  rw [if_neg (by
    intro hcontra
    have hs := hcontra.2
    rw [e3, h3] at hs
    cases hs)]
  rw [if_pos ⟨by rw [hnblen]; omega, by rw [e4, h4]; rfl⟩]
  rw [e4, h4, hdrop1]
  split
  · rename_i tok2 c2 heq1 heq2
    injection heq1 with heq1
    injection heq2 with heq2 heq3
    subst heq1
    subst heq2
    rw [if_neg hcr, if_pos hc, htake4]
  · rename_i hmiss
    exact absurd rfl (fun hq => hmiss tok c hq rfl)

theorem renameRelatedGo_nomatch (old : FName) (oldBase newBase : Str)
    (L : List FName) :
    ∀ s : FState, (∀ f ∈ L, ¬(pathStem f = oldBase ∧ f ≠ old)) →
    renameRelatedGo old oldBase newBase L s = .ok () s := by
  induction L with
  | nil => intro s h; rfl
  | cons f rest ih =>
      intro s h
      show (if pathStem f = oldBase ∧ f ≠ old then
          renameFsFile f (newBase ++ pathSuffix f) >>= fun y =>
            renameRelatedGo old oldBase newBase rest
        else pure () >>= fun y => renameRelatedGo old oldBase newBase rest) s = .ok () s
      rw [if_neg (h f (List.mem_cons_self f rest))]
      show renameRelatedGo old oldBase newBase rest s = .ok () s
      exact ih s (fun x hx => h x (List.mem_cons_of_mem f hx))

theorem renameRelatedGo_sidecar (old f : FName) (oldBase newBase : Str)
    (s : FState) (g : FileRec)
    (hmatch : pathStem f = oldBase) (hne : f ≠ old) (hfail : s.failing = [])
    (hf : fsLookup s f = some g) :
    renameRelatedGo old oldBase newBase [f] s
      = .ok () { s with files := (s.files.filter
          (fun e => e.1 ≠ f ∧ e.1 ≠ newBase ++ pathSuffix f))
          ++ [(newBase ++ pathSuffix f, g)] } := by
  show (if pathStem f = oldBase ∧ f ≠ old then
      renameFsFile f (newBase ++ pathSuffix f) >>= fun y =>
        renameRelatedGo old oldBase newBase []
    else pure () >>= fun y => renameRelatedGo old oldBase newBase []) s = _
  rw [if_pos ⟨hmatch, hne⟩]
  have hrn : renameFsFile f (newBase ++ pathSuffix f) s
      = .ok () { s with files := (s.files.filter
          (fun e => e.1 ≠ f ∧ e.1 ≠ newBase ++ pathSuffix f))
          ++ [(newBase ++ pathSuffix f, g)] } := by
    unfold renameFsFile opOk
    rw [hfail]
    rw [if_pos (by simp), hf]
  rw [nmBind_ok _ _ s _ () hrn]
  rfl

theorem renameFamilyFiles_single (owned : FName → Bool)
    (single : FName → Option FName) (multi : FName → PyR (Option FName))
    (s : FState) (n nf : FName) (g : FileRec)
    (hsnap : (s.files.map Prod.fst).filter owned = [n])
    (hfail : s.failing = []) (hg : fsLookup s n = some g)
    (hsingle : single n = some nf)
    (hnoside : ∀ f ∈ s.files.map Prod.fst,
      ¬(pathStem f = nameReplace (".nii.gz".data) [] n ∧ f ≠ n)) :
    renameFamilyFiles owned single multi s
      = .ok () { s with files := (s.files.filter
          (fun e => e.1 ≠ n ∧ e.1 ≠ nf)) ++ [(nf, g)] } := by
  have hld : listDir s = .ok (s.files.map Prod.fst) s := rfl
  show (listDir >>= fun names =>
    renameFamilyGo single multi ((names.filter owned).length = 1)
      (names.filter owned)) s = _
  rw [nmBind_ok _ _ s s (s.files.map Prod.fst) hld]
  rw [hsnap]
  show renameFamilyGo single multi true [n] s = _
  show (fileExists n >>= fun e =>
    if e then
      ((if true then pure (single n) else liftPyR (multi n)) >>= fun newOpt =>
        match newOpt with
        | some nf2 =>
            renameRelatedFiles n nf2 >>= fun _ =>
              renameFsFile n nf2 >>= fun _ =>
                renameFamilyGo single multi true []
        | none => renameFamilyGo single multi true [])
    else renameFamilyGo single multi true []) s = _
  rw [nmBind_ok _ _ s s true (by unfold fileExists; rw [hg]; rfl)]
  show ((if true then pure (single n) else liftPyR (multi n)) >>= fun newOpt =>
    match newOpt with
    | some nf2 =>
        renameRelatedFiles n nf2 >>= fun _ =>
          renameFsFile n nf2 >>= fun _ =>
            renameFamilyGo single multi true []
    | none => renameFamilyGo single multi true []) s = _
  have hopt : ((if true then pure (single n) else liftPyR (multi n))
      : NM (Option FName)) s = .ok (some nf) s := by
    show PRes.ok (single n) s = PRes.ok (some nf) s
    rw [hsingle]
  rw [nmBind_ok _ _ s s (some nf) hopt]
  show (renameRelatedFiles n nf >>= fun _ =>
    renameFsFile n nf >>= fun _ =>
      renameFamilyGo single multi true []) s = _
  have hrel : renameRelatedFiles n nf s = .ok () s := by
    show (listDir >>= fun names =>
      renameRelatedGo n (nameReplace (".nii.gz".data) [] n)
        (nameReplace (".nii.gz".data) [] nf) names) s = _
    rw [nmBind_ok _ _ s s (s.files.map Prod.fst) hld]
    exact renameRelatedGo_nomatch n _ _ _ s hnoside
  rw [nmBind_ok _ _ s s () hrel]
  have hrn : renameFsFile n nf s
      = .ok () { s with files := (s.files.filter
          (fun e => e.1 ≠ n ∧ e.1 ≠ nf)) ++ [(nf, g)] } := by
    unfold renameFsFile opOk
    rw [hfail]
    rw [if_pos (by simp), hg]
  rw [nmBind_ok _ _ s _ () hrn]
  rfl

/-- Claim C6 (amended).  For the DWI, SWAN, T1 and T2 families the per-file
maps are as the claim states — stripping the single trailing letter in the
single-file branch and replacing it with `ord(c) - 95` (a → 2, b → 3) in
the multi-file branch, T1/T2 keeping their orientation token; a sidecar
sharing the image's base name follows the rename with its own extension;
the family loop dispatches to the single-file map exactly when the owned
snapshot has one element.  The ADC family is the exception: its multi-file
branch applies no suffix scheme (it attempts affine pairing with DWI
files, and with none present renames nothing).  Two whole-pipeline runs
exercise the scheme end to end: the multi-DWI folder `fsC6m` (with a
`.bval` sidecar that follows) and the folder `fsC6w2` (single SWAN and T1
strips, multi T2 suffixes). -/
theorem rename_family_semantics :
    (∀ (base : Str) (c : Char), startsWithStr base ("DWI".data) = true →
      trailingLowerRun base = [] → isLowerAlpha c = true →
      renameWithoutSuffix dwiSuffixSplit (base ++ [c] ++ (".nii.gz".data))
          = some (base ++ (".nii.gz".data))
        ∧ renameWithSuffix dwiSuffixSplit (base ++ [c] ++ (".nii.gz".data))
          = .ok (some (base ++ ('_' :: intDigits ((c.toNat : ℤ) - 95))
              ++ (".nii.gz".data))))
    ∧ (∀ (g : Str) (c : Char), lowerStr g = lowerStr ("SWAN".data) →
        isAsciiAlpha c = true →
        renameWithoutSuffix swanSuffixSplit (g ++ [c] ++ (".nii.gz".data))
            = some (g ++ (".nii.gz".data))
          ∧ renameWithSuffix swanSuffixSplit (g ++ [c] ++ (".nii.gz".data))
            = .ok (some (g ++ ('_' :: intDigits ((c.toNat : ℤ) - 95))
                ++ (".nii.gz".data))))
    ∧ (∀ (w base tok : Str) (c : Char),
        (tok = ("AXI".data) ∨ tok = ("COR".data) ∨ tok = ("SAG".data)) →
        startsWithStr (base ++ tok ++ [c]) w = true → 2 ≤ base.length →
        orientTokenAt (base ++ tok ++ [c]) (base.length + 1) = none →
        orientTokenAt (base ++ tok ++ [c]) base.length = some tok →
        c ≠ 'r' → isLowerAlpha c = true →
        wRenameWithoutSuffix w (base ++ tok ++ [c] ++ (".nii.gz".data))
            = some (base ++ tok ++ (".nii.gz".data))
          ∧ wRenameWithSuffix w (base ++ tok ++ [c] ++ (".nii.gz".data))
            = some (base ++ tok ++ ('_' :: intDigits ((c.toNat : ℤ) - 95))
                ++ (".nii.gz".data)))
    ∧ intDigits (('a'.toNat : ℤ) - 95) = ("2".data)
    ∧ intDigits (('b'.toNat : ℤ) - 95) = ("3".data)
    ∧ (∀ (old f : FName) (oldBase newBase : Str) (s : FState) (g : FileRec),
        pathStem f = oldBase → f ≠ old → s.failing = [] → fsLookup s f = some g →
        renameRelatedGo old oldBase newBase [f] s
          = .ok () { s with files := (s.files.filter
              (fun e => e.1 ≠ f ∧ e.1 ≠ newBase ++ pathSuffix f))
              ++ [(newBase ++ pathSuffix f, g)] })
    ∧ (∀ (owned : FName → Bool) (single : FName → Option FName)
        (multi : FName → PyR (Option FName)) (s : FState) (n nf : FName)
        (g : FileRec),
        (s.files.map Prod.fst).filter owned = [n] → s.failing = [] →
        fsLookup s n = some g → single n = some nf →
        (∀ f ∈ s.files.map Prod.fst,
          ¬(pathStem f = nameReplace (".nii.gz".data) [] n ∧ f ≠ n)) →
        renameFamilyFiles owned single multi s
          = .ok () { s with files := (s.files.filter
              (fun e => e.1 ≠ n ∧ e.1 ≠ nf)) ++ [(nf, g)] })
    ∧ (∀ (s : FState) (adcs : List FName),
        (∀ a ∈ adcs, opOk .loadOp a s = true ∧ (fsLookup s a).isSome = true) →
        adcRenameGo false [] adcs s = .ok () s)
    ∧ postProcessStudy fsC6m = .ok () fsC6mpost
    ∧ fsLookup fsC6mpost (("DWI0_2.bval").data) = some ⟨120, volS⟩
    ∧ fsLookup fsC6mpost (("DWI0a.bval").data) = none
    ∧ postProcessStudy fsC6w2 = .ok () fsC6w2post := by
  refine ⟨?_, ?_, ?_, rfl, rfl, renameRelatedGo_sidecar, renameFamilyFiles_single,
    adcRenameGo_no_dwi, rfl, rfl, rfl, rfl⟩
  · intro base c hB hRun hc
    have hsplit := dwiSuffixSplit_shape base c hB hRun hc
    constructor
    · unfold renameWithoutSuffix
      rw [hsplit]
      rfl
    · unfold renameWithSuffix
      rw [hsplit]
  · intro g c hlg hc
    have hsplit := ciSuffixSplit_shape ("SWAN".data) g c hlg hc
    constructor
    · unfold renameWithoutSuffix swanSuffixSplit
      rw [hsplit]
      rfl
    · unfold renameWithSuffix swanSuffixSplit
      rw [hsplit]
  · intro w base tok c htok hW hb2 h3 h4 hcr hc
    have hsplit := wSuffixSplit_shape w base tok c htok hW hb2 h3 h4 hcr hc
    constructor
    · unfold wRenameWithoutSuffix
      rw [hsplit]
      rfl
    · unfold wRenameWithSuffix
      rw [hsplit]

/-- Witness for the amended C6: every hypothesis-bearing part applied at
concrete names — the DWI, SWAN and T1 maps at `DWI0a`, `SWANb` and
`T1AXIa`, the sidecar step moving `DWI0a.bval` to `DWI0_2.bval` inside
`fsC6m`, and the single-file dispatch stripping `SWANa` inside `fsC6w2`. -/
theorem rename_family_semantics_witness :
    renameWithoutSuffix dwiSuffixSplit (("DWI0a.nii.gz").data)
        = some (("DWI0.nii.gz").data)
      ∧ renameWithSuffix dwiSuffixSplit (("DWI0a.nii.gz").data)
        = .ok (some (("DWI0_2.nii.gz").data))
      ∧ renameWithoutSuffix swanSuffixSplit (("SWANb.nii.gz").data)
        = some (("SWAN.nii.gz").data)
      ∧ renameWithSuffix swanSuffixSplit (("SWANb.nii.gz").data)
        = .ok (some (("SWAN_3.nii.gz").data))
      ∧ wRenameWithoutSuffix ("T1".data) (("T1AXIa.nii.gz").data)
        = some (("T1AXI.nii.gz").data)
      ∧ wRenameWithSuffix ("T1".data) (("T1AXIa.nii.gz").data)
        = some (("T1AXI_2.nii.gz").data)
      ∧ renameRelatedGo (("DWI0a.nii.gz").data) (("DWI0a").data) (("DWI0_2").data)
          [("DWI0a.bval").data] fsC6m
        = .ok () { files :=
                     [(("DWI0a.nii.gz").data, ⟨600 * 1024, volA⟩),
                      (("DWI0b.nii.gz").data, ⟨600 * 1024, volB⟩),
                      (("DWI0_2.bval").data, ⟨120, volS⟩)],
                   failing := [], saveSizes := [] }
      ∧ renameFamilyFiles swanOwned (renameWithoutSuffix swanSuffixSplit)
          (renameWithSuffix swanSuffixSplit) fsC6w2
        = .ok () { files :=
                     [(("T1AXIa.nii.gz").data, ⟨900 * 1024, volA⟩),
                      (("T2AXIb.nii.gz").data, ⟨900 * 1024, volA⟩),
                      (("T2AXIc.nii.gz").data, ⟨900 * 1024, volB⟩),
                      (("SWAN.nii.gz").data, ⟨900 * 1024, volA⟩)],
                   failing := [], saveSizes := [] } := by
  obtain ⟨hdwi, hswan, hw, h2, h3b, hside, hsingle, hadc, hppm, hlk2, hlka, hppw⟩ :=
    rename_family_semantics
  obtain ⟨hd1, hd2⟩ := hdwi (("DWI0").data) 'a' rfl rfl rfl
  obtain ⟨hs1, hs2⟩ := hswan (("SWAN").data) 'b' rfl rfl
  obtain ⟨ht1, ht2⟩ := hw (("T1").data) (("T1").data) (("AXI").data) 'a'
    (Or.inl rfl) rfl (by decide) rfl rfl (by decide) rfl
  refine ⟨hd1, hd2, hs1, hs2, ht1, ht2, ?_, ?_⟩
  · exact hside (("DWI0a.nii.gz").data) (("DWI0a.bval").data) (("DWI0a").data)
      (("DWI0_2").data) fsC6m ⟨120, volS⟩ rfl (by decide) rfl rfl
  · exact hsingle swanOwned (renameWithoutSuffix swanSuffixSplit)
      (renameWithSuffix swanSuffixSplit) fsC6w2 (("SWANa.nii.gz").data)
      (("SWAN.nii.gz").data) ⟨900 * 1024, volA⟩ (by decide) rfl rfl rfl (by decide)
